import Mathlib

/-!
Bridge CAN bootloader starter: shallow embedding and verified properties.

The development embeds the host-side code of the STLINK bridge example
(`main.cpp`, `stlink_device.cpp`, `stlink_interface.cpp` and the headers under
`inc/`) as Lean functions and proves properties of them.

Conventions of the embedding

* C++ status enumerations become inductive types with the same constructor names.
* Unsigned machine integers are natural numbers; a conversion to a narrower type is
  an explicit remainder (`% 256` for `uint8_t`).
* A pointer argument that may be NULL is an `Option` (or a `Bool` when only its
  being NULL matters); a local object declared without initialiser has optional
  fields, `none` until the program assigns them.
* The body of class `Brg` (`bridge.cpp`) is not among the sources, only its header
  `bridge.h`.  Operations of `Brg` that a property depends on are modelled from the
  design document, over the mathematical naturals; each such definition says so in
  its doc comment.  The example program, which calls `Brg`, is embedded against an
  arbitrary bridge whose answers are a function of the calls made so far.
* Calls into the external USB driver return a status chosen by the environment;
  the embedding takes that status as an argument of the calling function.
* Output on the console and trace logging are not modelled.
-/

namespace Bridge

/-! ## Status codes (bridge.h, stlink_interface.h) -/

/-- Bridge error and status codes, `Brg_StatusT` of bridge.h, in declaration order. -/
inductive Brg_StatusT where
  | BRG_NO_ERR
  | BRG_CONNECT_ERR
  | BRG_DLL_ERR
  | BRG_USB_COMM_ERR
  | BRG_NO_DEVICE
  | BRG_OLD_FIRMWARE_WARNING
  | BRG_TARGET_CMD_ERR
  | BRG_PARAM_ERR
  | BRG_CMD_NOT_SUPPORTED
  | BRG_GET_INFO_ERR
  | BRG_STLINK_SN_NOT_FOUND
  | BRG_NO_STLINK
  | BRG_NOT_SUPPORTED
  | BRG_PERMISSION_ERR
  | BRG_ENUM_ERR
  | BRG_COM_FREQ_MODIFIED
  | BRG_COM_FREQ_NOT_SUPPORTED
  | BRG_SPI_ERR
  | BRG_I2C_ERR
  | BRG_CAN_ERR
  | BRG_TARGET_CMD_TIMEOUT
  | BRG_COM_INIT_NOT_DONE
  | BRG_COM_CMD_ORDER_ERR
  | BRG_BL_NACK_ERR
  | BRG_VERIF_ERR
  | BRG_MEM_ALLOC_ERR
  | BRG_GPIO_ERR
  | BRG_OVERRUN_ERR
  | BRG_CMD_BUSY
  | BRG_CLOSE_ERR
  | BRG_INTERFACE_ERR
  | BRG_CMD_NOT_ALLOWED
deriving DecidableEq, Repr

open Brg_StatusT

/-- Interface error and status codes, `STLinkIf_StatusT` of stlink_interface.h. -/
inductive STLinkIf_StatusT where
  | STLINKIF_NO_ERR
  | STLINKIF_CONNECT_ERR
  | STLINKIF_DLL_ERR
  | STLINKIF_USB_COMM_ERR
  | STLINKIF_PARAM_ERR
  | STLINKIF_NO_STLINK
  | STLINKIF_NOT_SUPPORTED
  | STLINKIF_PERMISSION_ERR
  | STLINKIF_ENUM_ERR
  | STLINKIF_GET_INFO_ERR
  | STLINKIF_STLINK_SN_NOT_FOUND
  | STLINKIF_CLOSE_ERR
  | STLINKIF_TCP_BUSY
deriving DecidableEq, Repr

open STLinkIf_StatusT

/-! ## CAN bit time and prescaler computation -/

/-- CAN bit-time configuration, `Brg_CanBitTimeConfT` of bridge.h (four `uint8_t`
fields, each a number of time quanta). -/
structure Brg_CanBitTimeConfT where
  PropSegInTq : Nat
  PhaseSeg1InTq : Nat
  PhaseSeg2InTq : Nat
  SjwInTq : Nat
deriving DecidableEq, Repr

/-- Total number of time quanta of one bit: the synchronisation segment, always
one quantum, plus the three configured segments. -/
def nbTq (c : Brg_CanBitTimeConfT) : Nat :=
  1 + c.PropSegInTq + c.PhaseSeg1InTq + c.PhaseSeg2InTq

/-- Baudrate obtained from an input clock in Hz with prescaler `p` and `n` time
quanta per bit (integer division, as in unsigned machine arithmetic). -/
def achievedBaudrate (inputClock n p : Nat) : Nat :=
  inputClock / (p * n)

/-- Distance between the baudrate achieved with prescaler `p` and the request. -/
def baudError (inputClock n req p : Nat) : Nat :=
  (achievedBaudrate inputClock n p - req) + (req - achievedBaudrate inputClock n p)

/-- Search of the prescalers `1 .. k + 1` in ascending order for the one with the
least baudrate error; a later candidate replaces the current best only when it is
strictly better, so the smallest prescaler wins a tie. -/
def searchPrescal (inputClock n req : Nat) : Nat → Nat
  | 0 => 1
  | k + 1 =>
    let best := searchPrescal inputClock n req k
    if baudError inputClock n req (k + 2) < baudError inputClock n req best then k + 2
    else best

/-- Largest CAN prescaler (`Brg_CanInitT.Prescaler` is documented as 1 to 1024). -/
def CAN_PRESCALER_MAX : Nat := 1024

/-- Outcome of the prescaler computation: the returned status and the values
written to `*pPrescal` and `*pFinalBaudrate`. -/
structure PrescalResult where
  status : Brg_StatusT
  prescal : Nat
  finalBaudrate : Nat
deriving DecidableEq, Repr

/-- Modelled from the spec: the body of `Brg::GetCANbaudratePrescal` (bridge.cpp is
not among the sources; bridge.h only declares it).  Following the design document
(CAN encoder, `ComputeBitTimePrescaler`): with N = 1 + PropSeg + PhaseSeg1 +
PhaseSeg2, search the integer prescalers of [1, 1024] for the least
|achieved - requested|, nearest overall; the exact baudrate gives `BRG_NO_ERR`, a
nearest value within the tolerance gives `BRG_COM_FREQ_MODIFIED`, and no prescaler
within the tolerance gives `BRG_COM_FREQ_NOT_SUPPORTED`.

The document leaves two things open, which are arguments here: the input clock of
the CAN peripheral, given in kHz as in the document (`inputClockKHz`, 48000 on the
STLINK-V3SET and 80000 on the STLINK-V3PWR), and the firmware tolerance `tol`, an
absolute bound in bit/s on the baudrate error. -/
def GetCANbaudratePrescal (tol inputClockKHz : Nat) (conf : Brg_CanBitTimeConfT)
    (ReqBaudrate : Nat) : PrescalResult :=
  let inputClock := 1000 * inputClockKHz
  let n := nbTq conf
  let p := searchPrescal inputClock n ReqBaudrate (CAN_PRESCALER_MAX - 1)
  let final := achievedBaudrate inputClock n p
  let err := baudError inputClock n ReqBaudrate p
  if err = 0 then ⟨BRG_NO_ERR, p, final⟩
  else if err ≤ tol then ⟨BRG_COM_FREQ_MODIFIED, p, final⟩
  else ⟨BRG_COM_FREQ_NOT_SUPPORTED, p, final⟩

/-- Bit-time descriptor built by `cBrgExample::CanTestInit` (main.cpp). -/
def canTestBitTime : Brg_CanBitTimeConfT :=
  { PropSegInTq := 1, PhaseSeg1InTq := 7, PhaseSeg2InTq := 7, SjwInTq := 4 }

/-! ## I2C partial transactions -/

/-- State of a partial I2C transaction, `Brg_I2cPartialTransT` of bridge.h. -/
inductive Brg_I2cPartialTransT where
  | I2C_TRANS_IDLE
  | I2C_TRANS_R_ONGOING
  | I2C_TRANS_W_ONGOING
deriving DecidableEq, Repr

open Brg_I2cPartialTransT

/-- Modelled from the spec: the I2C partial-transaction cursor of a bridge session.
bridge.h declares the state enumeration and the member `m_slaveAddrPartialI2cTrans`
of class `Brg`; how bridge.cpp uses them is not among the sources.  Following the
design document the cursor is the transaction state together with the slave
address in use. -/
structure I2cCursor where
  state : Brg_I2cPartialTransT
  m_slaveAddrPartialI2cTrans : Nat
deriving DecidableEq, Repr

/-- Result of one partial-transaction operation: the returned status, the cursor
after the call, and the slave address of the transfer handed to the transport
(`none` when no transfer was issued). -/
structure I2cResult where
  status : Brg_StatusT
  cursor : I2cCursor
  transfer : Option Nat
deriving DecidableEq, Repr

/-- Modelled from the spec: start of a partial transaction (the shared part of
`Brg::StartReadI2C` and `Brg::StartWriteI2C`, whose bodies are in bridge.cpp, not
among the sources).  Issuing Start while the cursor is not idle is a sequencing
error detected before any transport call; otherwise the transfer is issued to
`Addr`, and when it succeeds the cursor records the direction `ongoing` and the
address.  `xfer` is the status the transfer ends with.  The design document does
not say what the cursor becomes when the transfer itself fails; the model leaves
it unchanged. -/
def startI2C (ongoing : Brg_I2cPartialTransT) (c : I2cCursor) (Addr : Nat)
    (xfer : Brg_StatusT) : I2cResult :=
  if c.state ≠ I2C_TRANS_IDLE then ⟨BRG_COM_CMD_ORDER_ERR, c, none⟩
  else if xfer = BRG_NO_ERR then ⟨BRG_NO_ERR, ⟨ongoing, Addr⟩, some Addr⟩
  else ⟨xfer, c, some Addr⟩

/-- Modelled from the spec: continuation of a partial transaction (the shared part
of `Brg::ContReadI2C` and `Brg::ContWriteI2C`, bodies not among the sources).  The
call carries no address: the transfer goes to the address stored by Start.  It is
a sequencing error unless a transaction of the same direction is in progress. -/
def contI2C (ongoing : Brg_I2cPartialTransT) (c : I2cCursor)
    (xfer : Brg_StatusT) : I2cResult :=
  if c.state ≠ ongoing then ⟨BRG_COM_CMD_ORDER_ERR, c, none⟩
  else ⟨xfer, c, some c.m_slaveAddrPartialI2cTrans⟩

/-- Modelled from the spec: end of a partial transaction (the shared part of
`Brg::StopReadI2C` and `Brg::StopWriteI2C`, bodies not among the sources).  It is a
sequencing error unless a transaction of the same direction is in progress; a
successful final transfer returns the cursor to idle. -/
def stopI2C (ongoing : Brg_I2cPartialTransT) (c : I2cCursor)
    (xfer : Brg_StatusT) : I2cResult :=
  if c.state ≠ ongoing then ⟨BRG_COM_CMD_ORDER_ERR, c, none⟩
  else if xfer = BRG_NO_ERR then
    ⟨BRG_NO_ERR, ⟨I2C_TRANS_IDLE, c.m_slaveAddrPartialI2cTrans⟩,
      some c.m_slaveAddrPartialI2cTrans⟩
  else ⟨xfer, c, some c.m_slaveAddrPartialI2cTrans⟩

/-- Modelled from the spec: `Brg::StartReadI2C` (see `startI2C`). -/
def StartReadI2C (c : I2cCursor) (Addr : Nat) (xfer : Brg_StatusT) : I2cResult :=
  startI2C I2C_TRANS_R_ONGOING c Addr xfer

/-- Modelled from the spec: `Brg::ContReadI2C` (see `contI2C`). -/
def ContReadI2C (c : I2cCursor) (xfer : Brg_StatusT) : I2cResult :=
  contI2C I2C_TRANS_R_ONGOING c xfer

/-- Modelled from the spec: `Brg::StopReadI2C` (see `stopI2C`). -/
def StopReadI2C (c : I2cCursor) (xfer : Brg_StatusT) : I2cResult :=
  stopI2C I2C_TRANS_R_ONGOING c xfer

/-- Modelled from the spec: `Brg::StartWriteI2C` (see `startI2C`). -/
def StartWriteI2C (c : I2cCursor) (Addr : Nat) (xfer : Brg_StatusT) : I2cResult :=
  startI2C I2C_TRANS_W_ONGOING c Addr xfer

/-- Modelled from the spec: `Brg::ContWriteI2C` (see `contI2C`). -/
def ContWriteI2C (c : I2cCursor) (xfer : Brg_StatusT) : I2cResult :=
  contI2C I2C_TRANS_W_ONGOING c xfer

/-- Modelled from the spec: `Brg::StopWriteI2C` (see `stopI2C`). -/
def StopWriteI2C (c : I2cCursor) (xfer : Brg_StatusT) : I2cResult :=
  stopI2C I2C_TRANS_W_ONGOING c xfer

/-! ## FDCAN data length code -/

/-- The FDCAN data lengths in the order of their data length codes 0 to 15
(design document, Message: 0 to 8, 12, 16, 20, 24, 32, 48, 64; the same list is in
the comment of `Brg_FdcanMsgT.DLC` in bridge.h). -/
def fdcanDlcTable : List Nat :=
  [0, 1, 2, 3, 4, 5, 6, 7, 8, 12, 16, 20, 24, 32, 48, 64]

/-- Modelled from the spec: the length-to-code direction of the FDCAN DLC table,
used on transmission (`Brg::WriteMsgFDCAN`, body in bridge.cpp, not among the
sources).  A length that is not in the table is a parameter error. -/
def fdcanLenToDlc (len : Nat) : Except Brg_StatusT Nat :=
  let code := fdcanDlcTable.indexOf len
  if code < fdcanDlcTable.length then .ok code else .error BRG_PARAM_ERR

/-- Modelled from the spec: the code-to-length direction of the FDCAN DLC table,
used on reception (`Brg::GetRxMsgFDCAN`, body in bridge.cpp, not among the
sources); it reads the same table.  A code is four bits wide; `none` stands for
an index outside 0 to 15. -/
def fdcanDlcToLen (code : Nat) : Option Nat :=
  fdcanDlcTable.get? code

/-! ## Firmware version and capability check -/

/-- Firmware version record `Stlk_VersionExtT`, with the fields the sources
assign in the constructor of `StlinkDevice` (stlink_device.cpp). -/
structure Stlk_VersionExtT where
  Major_Ver : Nat := 0
  Swim_Ver : Nat := 0
  Jtag_Ver : Nat := 0
  Msc_Ver : Nat := 0
  Bridge_Ver : Nat := 0
  Power_Ver : Nat := 0
  VID : Nat := 0
  PID : Nat := 0
  Res1_Ver : Nat := 0
  Res2_Ver : Nat := 0
deriving DecidableEq, Repr

/-- Firmware version supporting the FDCAN interface for STLink v3PWR
(stlink_fw_const_bridge.h). -/
def FIRMWARE_BRIDGE_V4_MIN_VER_FOR_FDCAN : Nat := 2

/-- Modelled from the spec: `Brg::IsFdcanSupport` (declared in bridge.h, body in
bridge.cpp, not among the sources).  Following the design document the decision is
keyed by the hardware variant and a minimum firmware version: the probe carries an
FDCAN peripheral and its bridge firmware version is at least
`FIRMWARE_BRIDGE_V4_MIN_VER_FOR_FDCAN`.  Which hardware variants (major versions)
carry FDCAN is the argument `fdcanHw`. -/
def IsFdcanSupport (fdcanHw : Nat → Bool) (v : Stlk_VersionExtT) : Bool :=
  fdcanHw v.Major_Ver && decide (FIRMWARE_BRIDGE_V4_MIN_VER_FOR_FDCAN ≤ v.Bridge_Ver)

/-- Modelled from the spec: the capability gate `RequireOrFail(Fdcan)` of the
design document, a pure check that fails with `BRG_CMD_NOT_SUPPORTED`. -/
def RequireOrFailFdcan (fdcanHw : Nat → Bool) (v : Stlk_VersionExtT) :
    Except Brg_StatusT Unit :=
  if IsFdcanSupport fdcanHw v then .ok () else .error BRG_CMD_NOT_SUPPORTED

/-- A bridge session as far as the capability gate is concerned: the firmware
version read at session open and the number of commands handed to the transport
so far. -/
structure GateSession where
  m_Version : Stlk_VersionExtT
  transportCalls : Nat
deriving DecidableEq, Repr

/-- Modelled from the spec: a capability-gated FDCAN command, `Brg::StartFDCAN`
(declared in bridge.h, body not among the sources; it has no parameter to
validate).  The gate is consulted first; only when it passes is one command handed
to the transport, which ends with the status `xfer`. -/
def StartFDCAN (fdcanHw : Nat → Bool) (s : GateSession) (xfer : Brg_StatusT) :
    Brg_StatusT × GateSession :=
  match RequireOrFailFdcan fdcanHw s.m_Version with
  | .error e => (e, s)
  | .ok _ => (xfer, { s with transportCalls := s.transportCalls + 1 })

/-! ## STLink interface and device (stlink_interface.cpp, stlink_device.cpp) -/

/-- The USB interfaces of an STLink, `STLink_EnumStlinkInterfaceT`.  The header
that declares it (STLinkUSBDriver.h) is not among the sources; the constructors are
the names the sources use, in the order of the trace table `LogIfString`
("DBG", "DBG2", "DBG SERVER", "BRIDGE", "COM DBG", "COM PWR"). -/
inductive STLink_EnumStlinkInterfaceT where
  | STLINK_DBG_INTERFACE
  | STLINK_RW_INTERFACE
  | STLINK_TCP
  | STLINK_BRIDGE
  | STLINK_COM_PORT_DBG
  | STLINK_COM_PORT_PWR
deriving DecidableEq, Repr

open STLink_EnumStlinkInterfaceT

/-- Status words returned by the routines of the STLinkUSBDriver library.  The
header that defines them is not among the sources and the code only compares a
returned word with named constants, so the model has one constructor for each
constant the sources name and `SS_OTHER` for every other word. -/
inductive DriverStatus where
  | SS_OK
  | SS_TCP_BUSY
  | SS_TCP_ERROR
  | SS_TCP_CANT_CONNECT
  | SS_BAD_PARAMETER
  | SS_PERMISSION_ERR
  | SS_TRUNCATED_DATA
  | SS_DEVICE_NOT_SUPPORTED
  | SS_OTHER (code : Nat)
deriving DecidableEq, Repr

open DriverStatus

/-- Numeric constants of the driver header that the sources use by name; their
values are not among the sources, so every function that needs one takes this
record as an argument. -/
structure DriverConsts where
  STLINK_LIB_API_VERSION_LEGACY : Nat
  STLINK_LIB_API_VERSION_MIN_FOR_TCP : Nat
  DEFAULT_TIMEOUT : Nat
deriving DecidableEq, Repr

/-- A USB request, `STLink_DeviceRequestT`, with the fields the sources fill in. -/
structure STLink_DeviceRequestT where
  CDBLength : Nat := 0
  CDBByte : List Nat := []
  InputRequest : Nat := 0
  BufferLength : Nat := 0
  SenseLength : Nat := 0
deriving DecidableEq, Repr

/-- Version of the shared-mode server, `STLink_ServerVersionT`, with the four
fields the constructor of `STLinkInterface` clears. -/
structure STLink_ServerVersionT where
  ApiVer : Nat := 0
  MainVer : Nat := 0
  RevVer : Nat := 0
  BuildVer : Nat := 0
deriving DecidableEq, Repr

/-- Data members of `STLinkInterface` (stlink_interface.h) that the embedded
functions read or write.  `STLink_SendCommandTcp` says whether the pointer of that
name to the driver routine is non-null; it is a member only in the WIN32 build,
elsewhere the routine is linked statically and the field is `true`.
`m_legacyDevice = none` is the null device of the legacy driver API, and
`STMass_OpenDeviceExclusive` says whether the pointer of that name is non-null. -/
structure STLinkInterface where
  m_ifId : STLink_EnumStlinkInterfaceT
  m_nbEnumDevices : Nat := 0
  m_libApiVer : Nat
  m_bApiDllLoaded : Bool := false
  m_bDevInterfaceEnumerated : Bool := false
  STLink_SendCommandTcp : Bool := true
  m_tcpServerVer : STLink_ServerVersionT := {}
  m_legacyDevice : Option Nat := none
  STMass_OpenDeviceExclusive : Bool := true
deriving DecidableEq, Repr

/-- `STLinkInterface::IsLibraryLoaded`. -/
def STLinkInterface.IsLibraryLoaded (ifc : STLinkInterface) : Bool :=
  ifc.m_bApiDllLoaded

/-- `STLinkInterface::GetIfId`. -/
def STLinkInterface.GetIfId (ifc : STLinkInterface) : STLink_EnumStlinkInterfaceT :=
  ifc.m_ifId

/-- The driver routine `STLinkInterface::SendCommand` ends up calling, with the
device it addresses and the timeout it passes. -/
inductive DriverSend where
  | STLink_SendCommandTcp (StlinkIdTcp : Nat) (usbTimeout : Nat)
  | STLink_SendCommand (pHandle : Option Nat) (usbTimeout : Nat)
  | STMass_SendCommand (pHandle : Option Nat) (usbTimeout : Nat)
deriving DecidableEq, Repr

/-- What one call of `STLinkInterface::SendCommand` did: the status it returned and
the driver call it made (`none` when it returned before calling the driver). -/
structure SendCommandResult where
  status : STLinkIf_StatusT
  driverCall : Option DriverSend
deriving DecidableEq, Repr

/-- Tail of `STLinkInterface::SendCommand`: the status for the word `ret` returned
by the driver. -/
def sendCommandStatus (ret : DriverStatus) : STLinkIf_StatusT :=
  if ret ≠ SS_OK then
    if ret = SS_TCP_BUSY then STLINKIF_TCP_BUSY else STLINKIF_USB_COMM_ERR
  else STLINKIF_NO_ERR

/-- `STLinkInterface::SendCommand` (stlink_interface.cpp).  `pDevReq = none` is the
null pointer, `pHandle = none` the null handle, and `ret` is the word the driver
routine returns if it is called.  The mutex taken around the driver call is not
modelled. -/
def STLinkInterface.SendCommand (K : DriverConsts) (ifc : STLinkInterface)
    (pHandle : Option Nat) (StlinkIdTcp : Nat) (pDevReq : Option STLink_DeviceRequestT)
    (UsbTimeoutMs : Nat) (ret : DriverStatus) : SendCommandResult :=
  match pDevReq with
  | none => ⟨STLINKIF_PARAM_ERR, none⟩
  | some _ =>
    if ifc.IsLibraryLoaded = true then
      let usbTimeout := if UsbTimeoutMs ≠ 0 then UsbTimeoutMs else K.DEFAULT_TIMEOUT
      if K.STLINK_LIB_API_VERSION_MIN_FOR_TCP ≤ ifc.m_libApiVer then
        if ifc.m_ifId = STLINK_TCP then
          if ifc.STLink_SendCommandTcp = true ∧ StlinkIdTcp ≠ 0 then
            ⟨sendCommandStatus ret, some (.STLink_SendCommandTcp StlinkIdTcp usbTimeout)⟩
          else if StlinkIdTcp = 0 then ⟨STLINKIF_CONNECT_ERR, none⟩
          else ⟨STLINKIF_DLL_ERR, none⟩
        else ⟨sendCommandStatus ret, some (.STLink_SendCommand pHandle usbTimeout)⟩
      else ⟨sendCommandStatus ret, some (.STMass_SendCommand pHandle usbTimeout)⟩
    else ⟨STLINKIF_DLL_ERR, none⟩

/-- The timeout a driver call of `SendCommand` carries. -/
def DriverSend.usbTimeout : DriverSend → Nat
  | .STLink_SendCommandTcp _ t => t
  | .STLink_SendCommand _ t => t
  | .STMass_SendCommand _ t => t

/-- Data members of `StlinkDevice` (stlink_device.h).  `m_pStlinkInterface = none`
is the null pointer; otherwise it holds the interface object pointed to. -/
structure StlinkDevice where
  m_bStlinkConnected : Bool := false
  m_Version : Stlk_VersionExtT := {}
  m_pStlinkInterface : Option STLinkInterface
  m_handle : Option Nat := none
  m_deviceIdTcp : Nat := 0
  m_bOpenExclusive : Bool := false
  m_SerialNum : String := ""
deriving DecidableEq, Repr

/-- What one call of `StlinkDevice::SendRequest` did: the status it returned and,
when it invoked `STLinkInterface::SendCommand`, what that call did. -/
structure SendRequestResult where
  status : STLinkIf_StatusT
  sendCommand : Option SendCommandResult
deriving DecidableEq, Repr

/-- `StlinkDevice::SendRequest` (stlink_device.cpp). -/
def StlinkDevice.SendRequest (K : DriverConsts) (dev : StlinkDevice)
    (pDevReq : Option STLink_DeviceRequestT) (UsbTimeoutMs : Nat) (ret : DriverStatus) :
    SendRequestResult :=
  match pDevReq with
  | none => ⟨STLINKIF_PARAM_ERR, none⟩
  | some _ =>
    if dev.m_bStlinkConnected = false then ⟨STLINKIF_NO_STLINK, none⟩
    else
      match dev.m_pStlinkInterface with
      | none => ⟨STLINKIF_DLL_ERR, none⟩
      | some ifc =>
        if ifc.GetIfId = STLINK_COM_PORT_DBG ∨ ifc.GetIfId = STLINK_COM_PORT_PWR then
          ⟨STLINKIF_NOT_SUPPORTED, none⟩
        else
          let r := ifc.SendCommand K dev.m_handle dev.m_deviceIdTcp pDevReq UsbTimeoutMs ret
          if r.status ≠ STLINKIF_NO_ERR then ⟨STLINKIF_USB_COMM_ERR, some r⟩
          else ⟨STLINKIF_NO_ERR, some r⟩

/-! ### Enumeration and device information (stlink_interface.cpp)

The functions below follow the build without `WIN32`, where the routines of the
current driver API are linked statically (no pointer to test).  Each driver routine
a function may call answers with values chosen by the environment; they are
collected in a record that the function takes as an argument.  Within one call of
any function embedded here each driver routine is reached at most once, except the
per-device information routine, which is asked once for each index. -/

/-- Answers of the driver to the calls of `STLinkInterface::EnumDevices`:
`reenumerate` is the word returned by `STLink_Reenumerate` (or
`STLink_ReenumerateTcp` in shared mode), `nbDevices` the count returned by
`STLink_GetNbDevices` (or `STMass_Enum_GetNbDevices` with the legacy API),
`serverVersionStatus` and `serverVersion` the word returned and the record filled
in by `STLink_GetServerVersion`. -/
structure EnumReplies where
  reenumerate : DriverStatus
  nbDevices : Nat
  serverVersionStatus : DriverStatus
  serverVersion : STLink_ServerVersionT
deriving DecidableEq, Repr

/-- What a call of `EnumDevices` or `EnumDevicesIfRequired` did: the status
returned, the interface after the call, and `*pNumDevices` after the call (`none`
when `pNumDevices` is NULL). -/
structure EnumResult where
  status : STLinkIf_StatusT
  ifc : STLinkInterface
  numDevices : Option Nat
deriving DecidableEq, Repr

/-- The part of `STLinkInterface::EnumDevices` that follows the driver calls, from
`if( status == SS_BAD_PARAMETER )` on.  `ifc` already holds the new device count
and `num` is `*pNumDevices`, cleared at the start of the function. -/
def enumDevicesTail (ifc : STLinkInterface) (status : DriverStatus) (num : Option Nat) :
    EnumResult :=
  if status = SS_BAD_PARAMETER then
    ⟨STLINKIF_DLL_ERR, { ifc with m_bApiDllLoaded := false }, num⟩
  else if ifc.m_nbEnumDevices = 0 then ⟨STLINKIF_NO_STLINK, ifc, num⟩
  else
    let num1 := num.map fun _ => ifc.m_nbEnumDevices
    if status = SS_OK then
      ⟨STLINKIF_NO_ERR, { ifc with m_bDevInterfaceEnumerated := true }, num1⟩
    else if status = SS_PERMISSION_ERR then ⟨STLINKIF_PERMISSION_ERR, ifc, num1⟩
    else ⟨STLINKIF_ENUM_ERR, ifc, num1⟩

/-- `STLinkInterface::EnumDevices` (stlink_interface.cpp).  `pNumDevices = none` is
the null pointer, `some n` a pointer to a variable holding `n`.  With the legacy
driver API the result of `STMass_Enum_Reenumerate` is not looked at and the local
`status` keeps its initial value `SS_OK`. -/
def STLinkInterface.EnumDevices (K : DriverConsts) (ifc : STLinkInterface)
    (pNumDevices : Option Nat) (bClearList : Bool) (d : EnumReplies) : EnumResult :=
  let num := pNumDevices.map fun _ => 0
  if ifc.IsLibraryLoaded = true then
    if K.STLINK_LIB_API_VERSION_MIN_FOR_TCP ≤ ifc.m_libApiVer then
      let status := d.reenumerate
      if status = SS_TCP_ERROR ∨ status = SS_TCP_CANT_CONNECT then
        ⟨STLINKIF_ENUM_ERR, ifc, num⟩
      else
        let ifc1 := { ifc with m_nbEnumDevices := d.nbDevices, m_tcpServerVer := {} }
        if status = SS_OK ∧ ifc.m_ifId = STLINK_TCP then
          -- the word returned by `STLink_GetServerVersion` is traced and replaced by `SS_OK`
          let status1 := if d.serverVersionStatus ≠ SS_OK then SS_OK else d.serverVersionStatus
          enumDevicesTail { ifc1 with m_tcpServerVer := d.serverVersion } status1 num
        else enumDevicesTail ifc1 status num
    else
      enumDevicesTail { ifc with m_nbEnumDevices := d.nbDevices } SS_OK num
  else ⟨STLINKIF_DLL_ERR, ifc, num⟩

/-- `STLinkInterface::EnumDevicesIfRequired` (stlink_interface.cpp). -/
def STLinkInterface.EnumDevicesIfRequired (K : DriverConsts) (ifc : STLinkInterface)
    (pNumDevices : Option Nat) (bForceRenum : Bool) (bClearList : Bool) (d : EnumReplies) :
    EnumResult :=
  let num := pNumDevices.map fun _ => 0
  if ifc.m_bDevInterfaceEnumerated = false ∨ bForceRenum = true then
    let r := ifc.EnumDevices K num bClearList d
    if r.ifc.m_nbEnumDevices = 0 then ⟨STLINKIF_NO_STLINK, r.ifc, r.numDevices⟩
    else if r.status = STLINKIF_NO_ERR then
      ⟨r.status, { r.ifc with m_bDevInterfaceEnumerated := true }, r.numDevices⟩
    else r
  else ⟨STLINKIF_NO_ERR, ifc, num⟩

/-- Device information `STLink_DeviceInfo2T` (`TDeviceInfo2`), with the fields the
sources read. -/
structure STLink_DeviceInfo2T where
  EnumUniqueId : String
  StLinkUsbId : Nat
  DeviceUsed : Bool
  ProductId : Nat
deriving DecidableEq, Repr

/-- Legacy device information `STLink_DeviceInfoT` (`TDeviceInfo`), with the field
the sources read. -/
structure STLink_DeviceInfoT where
  EnumUniqueId : String
deriving DecidableEq, Repr

/-- What a call of `GetDeviceInfo2` did: the status returned, the interface after
the call, `*pInfo` after the call (`none` when `pInfo` is NULL) and whether the
driver routine `STLink_GetDeviceInfo2` was called. -/
structure DeviceInfo2Result where
  status : STLinkIf_StatusT
  ifc : STLinkInterface
  info : Option STLink_DeviceInfo2T
  driverCalled : Bool
deriving DecidableEq, Repr

/-- `STLinkInterface::GetDeviceInfo2` (stlink_interface.cpp).  `pInfo = none` is the
null pointer, `some x` a pointer to a record currently holding `x`; `reply` is the
word returned and the record filled in by `STLink_GetDeviceInfo2`.  The cast
`(unsigned int)StlinkInstId` is applied to a non-negative value only. -/
def STLinkInterface.GetDeviceInfo2 (K : DriverConsts) (ifc : STLinkInterface)
    (StlinkInstId : Int) (pInfo : Option STLink_DeviceInfo2T) (d : EnumReplies)
    (reply : DriverStatus × STLink_DeviceInfo2T) : DeviceInfo2Result :=
  if ifc.IsLibraryLoaded = true then
    let e := ifc.EnumDevicesIfRequired K none false false d
    if e.status ≠ STLINKIF_NO_ERR then ⟨e.status, e.ifc, pInfo, false⟩
    else if StlinkInstId < 0 ∨ e.ifc.m_nbEnumDevices ≤ StlinkInstId.toNat then
      ⟨STLINKIF_PARAM_ERR, e.ifc, pInfo, false⟩
    else
      match pInfo with
      | none => ⟨STLINKIF_PARAM_ERR, e.ifc, none, false⟩
      | some _ =>
        if reply.1 ≠ SS_OK ∧ reply.1 ≠ SS_TRUNCATED_DATA then
          ⟨STLINKIF_GET_INFO_ERR, e.ifc, some reply.2, true⟩
        else ⟨STLINKIF_NO_ERR, e.ifc, some reply.2, true⟩
  else ⟨STLINKIF_DLL_ERR, ifc, pInfo, false⟩

/-- What a call of the legacy `GetDeviceInfo` did. -/
structure DeviceInfoResult where
  status : STLinkIf_StatusT
  ifc : STLinkInterface
  info : Option STLink_DeviceInfoT
  driverCalled : Bool
deriving DecidableEq, Repr

/-- `STLinkInterface::GetDeviceInfo` (stlink_interface.cpp), the legacy variant of
`GetDeviceInfo2`. -/
def STLinkInterface.GetDeviceInfo (K : DriverConsts) (ifc : STLinkInterface)
    (StlinkInstId : Int) (pInfo : Option STLink_DeviceInfoT) (d : EnumReplies)
    (reply : DriverStatus × STLink_DeviceInfoT) : DeviceInfoResult :=
  if ifc.IsLibraryLoaded = true then
    if ifc.m_ifId = STLINK_TCP then ⟨STLINKIF_NOT_SUPPORTED, ifc, pInfo, false⟩
    else
      let e := ifc.EnumDevicesIfRequired K none false false d
      if e.status ≠ STLINKIF_NO_ERR then ⟨e.status, e.ifc, pInfo, false⟩
      else if StlinkInstId < 0 ∨ e.ifc.m_nbEnumDevices ≤ StlinkInstId.toNat then
        ⟨STLINKIF_PARAM_ERR, e.ifc, pInfo, false⟩
      else
        match pInfo with
        | none => ⟨STLINKIF_PARAM_ERR, e.ifc, none, false⟩
        | some _ =>
          if reply.1 ≠ SS_OK then ⟨STLINKIF_GET_INFO_ERR, e.ifc, some reply.2, true⟩
          else ⟨STLINKIF_NO_ERR, e.ifc, some reply.2, true⟩
  else ⟨STLINKIF_DLL_ERR, ifc, pInfo, false⟩

/-- Answers of the driver to the calls of `STLinkInterface::OpenDevice`:
`openDevice` is the word returned by `STLink_OpenDevice` (or `STLink_OpenDeviceTcp`
in shared mode) and `handle` the handle the driver stores in `*pHandle`;
`legacyDevice` is the device `STMass_Enum_GetDevice` stores in `m_legacyDevice` and
`openLegacy` the word returned by `STMass_OpenDeviceExclusive` or
`STMass_OpenDevice`. -/
structure OpenReplies where
  openDevice : DriverStatus
  handle : Option Nat
  legacyDevice : Option Nat
  openLegacy : DriverStatus
deriving DecidableEq, Repr

/-- What a call of `OpenDevice` did: the status returned, the interface after the
call and `*pHandle` after the call. -/
structure OpenDeviceResult where
  status : STLinkIf_StatusT
  ifc : STLinkInterface
  handle : Option Nat
deriving DecidableEq, Repr

/-- `STLinkInterface::OpenDevice` (stlink_interface.cpp); `pHandle` is the content
of `*pHandle` before the call.  In shared mode the handle is not written. -/
def STLinkInterface.OpenDevice (K : DriverConsts) (ifc : STLinkInterface)
    (StlinkInstId : Int) (StlinkIdTcp : Nat) (bOpenExclusive : Bool) (pHandle : Option Nat)
    (d : EnumReplies) (o : OpenReplies) : OpenDeviceResult :=
  if ifc.IsLibraryLoaded = true then
    let e := ifc.EnumDevicesIfRequired K none false false d
    if e.status ≠ STLINKIF_NO_ERR then ⟨e.status, e.ifc, pHandle⟩
    else if e.ifc.m_ifId ≠ STLINK_TCP ∧
        (StlinkInstId < 0 ∨ e.ifc.m_nbEnumDevices ≤ StlinkInstId.toNat) then
      ⟨STLINKIF_PARAM_ERR, e.ifc, pHandle⟩
    else if K.STLINK_LIB_API_VERSION_MIN_FOR_TCP ≤ e.ifc.m_libApiVer then
      if e.ifc.m_ifId = STLINK_TCP then
        if StlinkIdTcp ≠ 0 then
          if o.openDevice ≠ SS_OK then
            if o.openDevice = SS_DEVICE_NOT_SUPPORTED then ⟨STLINKIF_NOT_SUPPORTED, e.ifc, pHandle⟩
            else ⟨STLINKIF_CONNECT_ERR, e.ifc, pHandle⟩
          else ⟨STLINKIF_NO_ERR, e.ifc, pHandle⟩
        else ⟨STLINKIF_CONNECT_ERR, e.ifc, pHandle⟩
      else
        if o.openDevice ≠ SS_OK then
          if o.openDevice = SS_DEVICE_NOT_SUPPORTED then ⟨STLINKIF_NOT_SUPPORTED, e.ifc, o.handle⟩
          else ⟨STLINKIF_CONNECT_ERR, e.ifc, o.handle⟩
        else ⟨STLINKIF_NO_ERR, e.ifc, o.handle⟩
    else
      let ifc1 := { e.ifc with m_legacyDevice := o.legacyDevice }
      if bOpenExclusive = true ∧ ifc1.STMass_OpenDeviceExclusive = true then
        -- `STMass_OpenDeviceExclusive`
        if o.openLegacy ≠ SS_OK then ⟨STLINKIF_CONNECT_ERR, ifc1, o.handle⟩
        else ⟨STLINKIF_NO_ERR, ifc1, o.handle⟩
      else
        -- `STMass_OpenDevice`
        if o.openLegacy ≠ SS_OK then ⟨STLINKIF_CONNECT_ERR, ifc1, o.handle⟩
        else ⟨STLINKIF_NO_ERR, ifc1, o.handle⟩
  else ⟨STLINKIF_DLL_ERR, ifc, pHandle⟩

/-- What a call of `CloseDevice` did: the status returned, the interface after the
call and whether a driver routine was called. -/
structure CloseDeviceResult where
  status : STLinkIf_StatusT
  ifc : STLinkInterface
  driverCalled : Bool
deriving DecidableEq, Repr

/-- `STLinkInterface::CloseDevice` (stlink_interface.cpp); `c` is the word returned
by the driver routine that closes the device (`STLink_CloseDeviceTcp`,
`STLink_CloseDevice` or `STMass_CloseDevice`) if one is called. -/
def STLinkInterface.CloseDevice (K : DriverConsts) (ifc : STLinkInterface)
    (pHandle : Option Nat) (StlinkIdTcp : Nat) (c : DriverStatus) : CloseDeviceResult :=
  if ifc.IsLibraryLoaded = true then
    if K.STLINK_LIB_API_VERSION_MIN_FOR_TCP ≤ ifc.m_libApiVer then
      if ifc.m_ifId = STLINK_TCP then
        let ifc1 := { ifc with m_bDevInterfaceEnumerated := false }
        if c ≠ SS_OK then ⟨STLINKIF_CLOSE_ERR, ifc1, true⟩ else ⟨STLINKIF_NO_ERR, ifc1, true⟩
      else if pHandle ≠ none then
        if c ≠ SS_OK then ⟨STLINKIF_CLOSE_ERR, ifc, true⟩ else ⟨STLINKIF_NO_ERR, ifc, true⟩
      else ⟨STLINKIF_NO_ERR, ifc, false⟩
    else if ifc.m_legacyDevice ≠ none then
      if c ≠ SS_OK then ⟨STLINKIF_CLOSE_ERR, ifc, true⟩ else ⟨STLINKIF_NO_ERR, ifc, true⟩
    else ⟨STLINKIF_NO_ERR, ifc, false⟩
  else ⟨STLINKIF_DLL_ERR, ifc, false⟩

/-! ### Opening and closing a device (stlink_device.cpp) -/

/-- A byte of a response buffer (`uint8_t`). -/
abbrev Byte := Fin 256

/-- Constants of the firmware API headers that stlink_device.cpp uses by name;
their values are not among the sources, so the functions that need them take this
record as an argument. -/
structure FwConsts where
  STLINK_CMD_SIZE_16 : Nat
  ST_RBC_CMD : Nat
  ST_GETVERSION_EXT : Nat
  STLINK_GET_TARGET_VOLTAGE : Nat
  REQUEST_READ_1ST_EPIN : Nat
  DEFAULT_SENSE_LEN : Nat
  FIRMWARE_MIN_MAJOR_VER_STLINKV3 : Nat
deriving DecidableEq, Repr

/-- Calls a `StlinkDevice` makes on its `STLinkInterface`, with their arguments. -/
inductive IfCall where
  | OpenDevice (StlinkInstId : Int) (StlinkIdTcp : Nat) (bOpenExclusive : Bool)
  | CloseDevice (pHandle : Option Nat) (StlinkIdTcp : Nat)
  | GetDeviceInfo2 (StlinkInstId : Int)
  | GetDeviceInfo (StlinkInstId : Int)
  | SendCommand (pHandle : Option Nat) (StlinkIdTcp : Nat) (DevReq : STLink_DeviceRequestT)
      (UsbTimeoutMs : Nat)
deriving DecidableEq, Repr

/-- `StlinkDevice::GetMajorVer` (stlink_device.h). -/
def StlinkDevice.GetMajorVer (dev : StlinkDevice) : Nat :=
  dev.m_Version.Major_Ver

/-- `StlinkDevice::GetBridgeVer` (stlink_device.h). -/
def StlinkDevice.GetBridgeVer (dev : StlinkDevice) : Nat :=
  dev.m_Version.Bridge_Ver

/-- `StlinkDevice::SetOpenModeExclusive` (stlink_device.cpp). -/
def StlinkDevice.SetOpenModeExclusive (dev : StlinkDevice) (bExclusive : Bool) :
    StlinkDevice :=
  { dev with m_bOpenExclusive := bExclusive }

/-- The interface call, if any, that a call of `SendRequest` with the request `rq`
and timeout `t` made: `SendCommand` on the device handle. -/
def sendRequestCalls (dev : StlinkDevice) (rq : STLink_DeviceRequestT) (t : Nat)
    (r : SendRequestResult) : List IfCall :=
  match r.sendCommand with
  | none => []
  | some _ => [IfCall.SendCommand dev.m_handle dev.m_deviceIdTcp rq t]

/-- What a call of `StGetVersion` or `GetVersionExt` did: the status returned, the
record behind `pVersion` after the call, and what the call of `SendRequest` did
(`none` when `SendRequest` was not invoked). -/
structure VersionResult where
  status : STLinkIf_StatusT
  version : Stlk_VersionExtT
  sendRequest : Option SendRequestResult
  calls : List IfCall
deriving DecidableEq, Repr

/-- `StlinkDevice::GetVersionExt` (stlink_device.cpp).  `pVersion` is the record
behind the pointer before the call; `ret` is the word the driver returns if the
request reaches it and `version` the 12-byte buffer after the request.  The request
is cleared before it is filled in, so the command bytes not listed are 0. -/
def StlinkDevice.GetVersionExt (K : DriverConsts) (F : FwConsts) (dev : StlinkDevice)
    (pVersion : Stlk_VersionExtT) (ret : DriverStatus) (version : Fin 12 → Byte) :
    VersionResult :=
  if dev.m_bStlinkConnected = false then ⟨STLINKIF_NO_STLINK, pVersion, none, []⟩
  else
    let pRq : STLink_DeviceRequestT :=
      { CDBLength := F.STLINK_CMD_SIZE_16, CDBByte := [F.ST_GETVERSION_EXT, 0x80],
        InputRequest := F.REQUEST_READ_1ST_EPIN, BufferLength := 12,
        SenseLength := F.DEFAULT_SENSE_LEN }
    let r := dev.SendRequest K (some pRq) 0 ret
    if r.status = STLINKIF_NO_ERR then
      ⟨r.status,
        { pVersion with
          Major_Ver := (version 0).val
          Jtag_Ver := (version 2).val
          Swim_Ver := (version 1).val
          Msc_Ver := (version 3).val
          Bridge_Ver := (version 4).val
          Power_Ver := (version 5).val
          VID := ((version 9).val <<< 8) + (version 8).val
          PID := ((version 11).val <<< 8) + (version 10).val },
        some r, sendRequestCalls dev pRq 0 r⟩
    else ⟨r.status, pVersion, some r, sendRequestCalls dev pRq 0 r⟩

/-- `StlinkDevice::StGetVersion` (stlink_device.cpp).  The source reads
`m_pStlinkInterface` without a null check; its only caller, `OpenStlink`, has
checked the pointer before.  For a null pointer the embedding returns
`STLINKIF_DLL_ERR`, as the functions that do check. -/
def StlinkDevice.StGetVersion (K : DriverConsts) (F : FwConsts) (dev : StlinkDevice)
    (pVersion : Stlk_VersionExtT) (ret : DriverStatus) (version : Fin 6 → Byte) :
    VersionResult :=
  if dev.m_bStlinkConnected = false then ⟨STLINKIF_NO_STLINK, pVersion, none, []⟩
  else
    match dev.m_pStlinkInterface with
    | none => ⟨STLINKIF_DLL_ERR, pVersion, none, []⟩
    | some ifc =>
      if ifc.GetIfId ≠ STLINK_DBG_INTERFACE ∧ ifc.GetIfId ≠ STLINK_TCP then
        ⟨STLINKIF_NOT_SUPPORTED, pVersion, none, []⟩
      else
        let pRq : STLink_DeviceRequestT :=
          { CDBLength := F.STLINK_CMD_SIZE_16, CDBByte := [F.ST_RBC_CMD, 0x80],
            InputRequest := F.REQUEST_READ_1ST_EPIN, BufferLength := 6,
            SenseLength := F.DEFAULT_SENSE_LEN }
        let r := dev.SendRequest K (some pRq) 0 ret
        if r.status = STLINKIF_NO_ERR then
          ⟨r.status,
            { pVersion with
              Major_Ver := ((version 0).val >>> 4) &&& 0x0F
              Jtag_Ver := (((version 0).val <<< 2) &&& 0x3C) ||| (((version 1).val >>> 6) &&& 0x03)
              Swim_Ver := (version 1).val &&& 0x3F
              VID := ((version 3).val <<< 8) + (version 2).val
              PID := ((version 5).val <<< 8) + (version 4).val
              Msc_Ver := 0
              Bridge_Ver := 0
              Power_Ver := 0 },
            some r, sendRequestCalls dev pRq 0 r⟩
        else ⟨r.status, pVersion, some r, sendRequestCalls dev pRq 0 r⟩

/-- What a call of `GetTargetVoltage` did: the status returned and, when
`*pVoltage` was written, the two ADC measures the voltage is computed from
(`2 * adc1 * 1.2 / adc0` in single precision, which is not modelled). -/
structure VoltageResult where
  status : STLinkIf_StatusT
  voltageFrom : Option (Nat × Nat)
  calls : List IfCall
deriving DecidableEq, Repr

/-- `StlinkDevice::GetTargetVoltage` (stlink_device.cpp), a `const` member function:
it has no effect on the device.  `pVoltage` says whether the pointer is non-null,
`adcMeasures` is the buffer after the request. -/
def StlinkDevice.GetTargetVoltage (K : DriverConsts) (F : FwConsts) (dev : StlinkDevice)
    (pVoltage : Bool) (ret : DriverStatus) (adcMeasures : Nat × Nat) : VoltageResult :=
  if dev.m_bStlinkConnected = false then ⟨STLINKIF_NO_STLINK, none, []⟩
  else
    let pRq : STLink_DeviceRequestT :=
      { CDBLength := F.STLINK_CMD_SIZE_16, CDBByte := [F.STLINK_GET_TARGET_VOLTAGE],
        BufferLength := 8, InputRequest := F.REQUEST_READ_1ST_EPIN,
        SenseLength := F.DEFAULT_SENSE_LEN }
    let r := dev.SendRequest K (some pRq) 0 ret
    if r.status = STLINKIF_NO_ERR then
      if pVoltage = true ∧ adcMeasures.1 ≠ 0 then
        ⟨r.status, some adcMeasures, sendRequestCalls dev pRq 0 r⟩
      else ⟨r.status, none, sendRequestCalls dev pRq 0 r⟩
    else ⟨r.status, none, sendRequestCalls dev pRq 0 r⟩

/-- What a state-changing call on a `StlinkDevice` did: the status returned, the
device after the call (the interface it points to included) and the calls it made
on the interface, in order. -/
structure DeviceResult where
  status : STLinkIf_StatusT
  dev : StlinkDevice
  calls : List IfCall
deriving DecidableEq, Repr

/-- `StlinkDevice::CloseStlink` (stlink_device.cpp); `c` is the word the driver
returns if `CloseDevice` reaches it. -/
def StlinkDevice.CloseStlink (K : DriverConsts) (dev : StlinkDevice) (c : DriverStatus) :
    DeviceResult :=
  if dev.m_bStlinkConnected = true then
    match dev.m_pStlinkInterface with
    | none => ⟨STLINKIF_DLL_ERR, dev, []⟩
    | some ifc =>
      if dev.m_handle ≠ none ∨ (dev.m_deviceIdTcp ≠ 0 ∧ ifc.GetIfId = STLINK_TCP) then
        let r := ifc.CloseDevice K dev.m_handle dev.m_deviceIdTcp c
        ⟨STLINKIF_NO_ERR,
          { dev with m_pStlinkInterface := some r.ifc, m_bStlinkConnected := false },
          [IfCall.CloseDevice dev.m_handle dev.m_deviceIdTcp]⟩
      else ⟨STLINKIF_NO_ERR, { dev with m_bStlinkConnected := false }, []⟩
  else ⟨STLINKIF_NO_ERR, dev, []⟩

/-- Answers of the driver to the calls one `OpenStlink` can make, one per call
site: enumeration, opening, closing, the two device-information routines, and the
requests of `StGetVersion` and `GetVersionExt` (the word returned and the buffer
after the request).  `stackInfo2` and `stackInfo` are what the locals `devInfo2` and
`devInfo` of `GetSerialNumFromSystem` hold before the program writes to them. -/
structure DriverReplies where
  enumR : EnumReplies
  openR : OpenReplies
  closeR : DriverStatus
  info2R : DriverStatus × STLink_DeviceInfo2T
  infoR : DriverStatus × STLink_DeviceInfoT
  stackInfo2 : STLink_DeviceInfo2T
  stackInfo : STLink_DeviceInfoT
  stVersionR : DriverStatus × (Fin 6 → Byte)
  versionExtR : DriverStatus × (Fin 12 → Byte)

/-- `StlinkDevice::GetSerialNumFromSystem` (stlink_device.cpp).  Like
`StGetVersion` it reads `m_pStlinkInterface` without a check and is called by
`OpenStlink` only; for a null pointer the embedding returns `STLINKIF_DLL_ERR`. -/
def StlinkDevice.GetSerialNumFromSystem (K : DriverConsts) (dev : StlinkDevice)
    (InstanceId : Int) (d : DriverReplies) : DeviceResult :=
  match dev.m_pStlinkInterface with
  | none => ⟨STLINKIF_DLL_ERR, dev, []⟩
  | some ifc =>
    let r2 := ifc.GetDeviceInfo2 K InstanceId (some d.stackInfo2) d.enumR d.info2R
    if r2.status = STLINKIF_NOT_SUPPORTED then
      let r1 := r2.ifc.GetDeviceInfo K InstanceId (some d.stackInfo) d.enumR d.infoR
      ⟨r1.status,
        { dev with m_pStlinkInterface := some r1.ifc,
                   m_SerialNum := (r1.info.getD d.stackInfo).EnumUniqueId },
        [IfCall.GetDeviceInfo2 InstanceId, IfCall.GetDeviceInfo InstanceId]⟩
    else
      ⟨r2.status,
        { dev with m_pStlinkInterface := some r2.ifc,
                   m_SerialNum := (r2.info.getD d.stackInfo2).EnumUniqueId },
        [IfCall.GetDeviceInfo2 InstanceId]⟩

/-- The error exit of `OpenStlink` after the connection was opened:
`m_pStlinkInterface->CloseDevice(&m_handle, StlinkIdTcp); return ifStatus;`.  The
call passes the address of the member `m_handle`, which is never null, whatever
the handle is; the embedding writes that address `some 0`.  `m_bStlinkConnected`
is left as it is. -/
def openStlinkAbort (K : DriverConsts) (dev : StlinkDevice) (StlinkIdTcp : Nat)
    (ifStatus : STLinkIf_StatusT) (c : DriverStatus) (calls : List IfCall) : DeviceResult :=
  match dev.m_pStlinkInterface with
  | none => ⟨ifStatus, dev, calls⟩
  | some ifc =>
    let r := ifc.CloseDevice K (some 0) StlinkIdTcp c
    ⟨ifStatus, { dev with m_pStlinkInterface := some r.ifc },
      calls ++ [IfCall.CloseDevice (some 0) StlinkIdTcp]⟩

/-- Last step of `OpenStlink` on a device just connected: read the extended
version on the bridge interface, or on a debug interface whose legacy version
shows an STLink of generation 3 or later. -/
def openStlinkVersionExt (K : DriverConsts) (F : FwConsts) (dev : StlinkDevice)
    (ifId : STLink_EnumStlinkInterfaceT) (StlinkIdTcp : Nat) (d : DriverReplies)
    (calls : List IfCall) : DeviceResult :=
  if ifId = STLINK_BRIDGE ∨
      ((ifId = STLINK_DBG_INTERFACE ∨ ifId = STLINK_TCP) ∧
        (F.FIRMWARE_MIN_MAJOR_VER_STLINKV3 ≤ dev.m_Version.Major_Ver ∧
          dev.m_Version.Swim_Ver = 0 ∧ dev.m_Version.Jtag_Ver = 0)) then
    let v := dev.GetVersionExt K F dev.m_Version d.versionExtR.1 d.versionExtR.2
    let dev1 := { dev with m_Version := v.version }
    if v.status ≠ STLINKIF_NO_ERR then
      openStlinkAbort K dev1 StlinkIdTcp v.status d.closeR (calls ++ v.calls)
    else ⟨v.status, dev1, calls ++ v.calls⟩
  else ⟨STLINKIF_NO_ERR, dev, calls⟩

/-- Steps of `OpenStlink` on a device just connected, from the legacy version
request on. -/
def openStlinkConnected (K : DriverConsts) (F : FwConsts) (dev : StlinkDevice)
    (ifId : STLink_EnumStlinkInterfaceT) (StlinkInstId : Int) (StlinkIdTcp : Nat)
    (d : DriverReplies) (calls : List IfCall) : DeviceResult :=
  let v : VersionResult :=
    if ifId = STLINK_DBG_INTERFACE ∨ ifId = STLINK_TCP then
      dev.StGetVersion K F dev.m_Version d.stVersionR.1 d.stVersionR.2
    else ⟨STLINKIF_NO_ERR, dev.m_Version, none, []⟩
  let dev1 := { dev with m_Version := v.version }
  if v.status ≠ STLINKIF_NO_ERR then
    let c := dev1.CloseStlink K d.closeR
    ⟨v.status, c.dev, calls ++ v.calls ++ c.calls⟩
  else
    let s := dev1.GetSerialNumFromSystem K StlinkInstId d
    if s.status ≠ STLINKIF_NO_ERR then
      openStlinkAbort K s.dev StlinkIdTcp s.status d.closeR (calls ++ v.calls ++ s.calls)
    else openStlinkVersionExt K F s.dev ifId StlinkIdTcp d (calls ++ v.calls ++ s.calls)

/-- `StlinkDevice::OpenStlink(int StlinkInstId, uint32_t StlinkIdTcp)`
(stlink_device.cpp). -/
def StlinkDevice.OpenStlink (K : DriverConsts) (F : FwConsts) (dev : StlinkDevice)
    (StlinkInstId : Int) (StlinkIdTcp : Nat) (d : DriverReplies) : DeviceResult :=
  match dev.m_pStlinkInterface with
  | none => ⟨STLINKIF_DLL_ERR, dev, []⟩
  | some ifc =>
    if ifc.GetIfId = STLINK_COM_PORT_DBG ∨ ifc.GetIfId = STLINK_COM_PORT_PWR then
      ⟨STLINKIF_NOT_SUPPORTED, dev, []⟩
    else if dev.m_bStlinkConnected = false then
      let o := ifc.OpenDevice K StlinkInstId StlinkIdTcp dev.m_bOpenExclusive dev.m_handle
        d.enumR d.openR
      let calls := [IfCall.OpenDevice StlinkInstId StlinkIdTcp dev.m_bOpenExclusive]
      let dev1 := { dev with m_pStlinkInterface := some o.ifc, m_handle := o.handle }
      if o.status ≠ STLINKIF_NO_ERR then ⟨STLINKIF_CONNECT_ERR, dev1, calls⟩
      else
        let dev2 :=
          if ifc.GetIfId = STLINK_TCP then { dev1 with m_deviceIdTcp := StlinkIdTcp } else dev1
        let dev3 := { dev2 with m_bStlinkConnected := true }
        openStlinkConnected K F dev3 ifc.GetIfId StlinkInstId StlinkIdTcp d calls
    else ⟨STLINKIF_NO_ERR, dev, []⟩

/-! ### Session operations and the stored firmware version -/

/-- The operations on an opened `StlinkDevice` that the sources offer between
opening a connection and opening the next one, each with the answers of the
driver to that call. -/
inductive SessionOp where
  | SendRequest (pDevReq : Option STLink_DeviceRequestT) (UsbTimeoutMs : Nat)
      (ret : DriverStatus)
  | GetTargetVoltage (pVoltage : Bool) (ret : DriverStatus) (adcMeasures : Nat × Nat)
  | SetOpenModeExclusive (bExclusive : Bool)
  | CloseStlink (c : DriverStatus)
  | OpenStlink (StlinkInstId : Int) (StlinkIdTcp : Nat) (d : DriverReplies)

/-- The device after one operation.  `SendRequest` and `GetTargetVoltage` are
`const` member functions of `StlinkDevice`: they cannot assign a data member, and
their embeddings return no device. -/
def SessionOp.run (K : DriverConsts) (F : FwConsts) (dev : StlinkDevice) :
    SessionOp → StlinkDevice
  | .SendRequest _ _ _ => dev
  | .GetTargetVoltage _ _ _ => dev
  | .SetOpenModeExclusive b => dev.SetOpenModeExclusive b
  | .CloseStlink c => (dev.CloseStlink K c).dev
  | .OpenStlink i t d => (dev.OpenStlink K F i t d).dev

/-- The device after a sequence of operations. -/
def runSession (K : DriverConsts) (F : FwConsts) : List SessionOp → StlinkDevice → StlinkDevice
  | [], dev => dev
  | op :: rest, dev => runSession K F rest (op.run K F dev)

/-- No operation of the sequence opens a new connection: every `OpenStlink` in it
is applied to a device that is connected at that point. -/
def noNewConnection (K : DriverConsts) (F : FwConsts) : List SessionOp → StlinkDevice → Bool
  | [], _ => true
  | op :: rest, dev =>
    (match op with
      | .OpenStlink _ _ _ => dev.m_bStlinkConnected
      | _ => true) && noNewConnection K F rest (op.run K F dev)

/-! ### Looking a device up by its serial number (stlink_interface.cpp) -/

/-- State of the search loop of `GetDeviceIdFromSerialNum` when it ends: the index
at which the serial number matched (`none` when the loop ran to its end), the
interface, the local `devInfo2` and the local `stlinkIdTcp`. -/
structure SerialLoopState where
  found : Option Nat
  ifc : STLinkInterface
  devInfo2 : STLink_DeviceInfo2T
  stlinkIdTcp : Nat
deriving DecidableEq, Repr

/-- The loop `for( stlinkInstId=0; (uint32_t)stlinkInstId<m_nbEnumDevices;
stlinkInstId++ )` of `GetDeviceIdFromSerialNum`, by recursion on the number of passes
left; `infoAt i` is the answer of `STLink_GetDeviceInfo2` for the index `i`.  The
loop is entered with the interface enumerated, in which state `GetDeviceInfo2`
leaves the interface, hence the bound `m_nbEnumDevices`, as it is (lemma
`GetDeviceInfo2_enumerated`); so `m_nbEnumDevices` passes are all the loop makes.
The index is an `int` in the source and a natural number here, which is the same
as long as the device count is below 2^31. -/
def serialLoop (K : DriverConsts) (serial : String) (d : EnumReplies)
    (infoAt : Nat → DriverStatus × STLink_DeviceInfo2T) :
    Nat → Nat → STLinkInterface → STLink_DeviceInfo2T → Nat → SerialLoopState
  | 0, _, ifc, devInfo2, stlinkIdTcp => ⟨none, ifc, devInfo2, stlinkIdTcp⟩
  | left + 1, i, ifc, devInfo2, stlinkIdTcp =>
    if i < ifc.m_nbEnumDevices then
      let r := ifc.GetDeviceInfo2 K (i : Int) (some devInfo2) d (infoAt i)
      let devInfo2a := r.info.getD devInfo2
      let stlinkIdTcp1 := if r.ifc.m_ifId = STLINK_TCP then devInfo2a.StLinkUsbId else stlinkIdTcp
      if r.status ≠ STLINKIF_NO_ERR then
        serialLoop K serial d infoAt left (i + 1) r.ifc devInfo2a stlinkIdTcp1
      else if serial = devInfo2a.EnumUniqueId then ⟨some i, r.ifc, devInfo2a, stlinkIdTcp1⟩
      else serialLoop K serial d infoAt left (i + 1) r.ifc devInfo2a stlinkIdTcp1
    else ⟨none, ifc, devInfo2, stlinkIdTcp⟩

/-- What a call of `GetDeviceIdFromSerialNum` did: the status returned, the
interface after the call, and `*pStlinkInstId` and `*pStlinkIdTcp` after the call
(`none` for a null pointer). -/
structure SerialIdResult where
  status : STLinkIf_StatusT
  ifc : STLinkInterface
  StlinkInstId : Option Int
  StlinkIdTcp : Option Nat
deriving DecidableEq, Repr

/-- `STLinkInterface::GetDeviceIdFromSerialNum` (stlink_interface.cpp).  A pointer
argument is `none` when NULL and otherwise holds the value it points to;
`stackInfo2` is what the local `devInfo2` holds before the first pass. -/
def STLinkInterface.GetDeviceIdFromSerialNum (K : DriverConsts) (ifc : STLinkInterface)
    (pSerialNumber : Option String) (bStrict : Bool) (pStlinkInstId : Option Int)
    (pStlinkIdTcp : Option Nat) (bForceRenum : Bool) (d : EnumReplies)
    (infoAt : Nat → DriverStatus × STLink_DeviceInfo2T) (stackInfo2 : STLink_DeviceInfo2T) :
    SerialIdResult :=
  match pSerialNumber, pStlinkInstId, pStlinkIdTcp with
  | some serial, some _, some _ =>
    let e := ifc.EnumDevicesIfRequired K none bForceRenum false d
    if e.status ≠ STLINKIF_NO_ERR then ⟨e.status, e.ifc, pStlinkInstId, pStlinkIdTcp⟩
    else
      let l := serialLoop K serial d infoAt e.ifc.m_nbEnumDevices 0 e.ifc stackInfo2 0
      match l.found with
      | some i => ⟨STLINKIF_NO_ERR, l.ifc, some (i : Int), some l.stlinkIdTcp⟩
      | none =>
        if bStrict = false ∧ l.ifc.m_nbEnumDevices = 1 then
          ⟨STLINKIF_NO_ERR, l.ifc, some 0, some l.stlinkIdTcp⟩
        else ⟨STLINKIF_STLINK_SN_NOT_FOUND, l.ifc, pStlinkInstId, pStlinkIdTcp⟩
  | _, _, _ => ⟨STLINKIF_PARAM_ERR, ifc, pStlinkInstId, pStlinkIdTcp⟩

/-- The device at index `i` of the enumerated list is a match for `serial`: its
information can be retrieved (`GetDeviceInfo2` returns `STLINKIF_NO_ERR` for the
index, which does not depend on what the record behind `pInfo` holds) and the serial
number the driver reports for it is `serial`. -/
def serialMatchAt (K : DriverConsts) (ifc : STLinkInterface) (serial : String)
    (d : EnumReplies) (infoAt : Nat → DriverStatus × STLink_DeviceInfo2T) (i : Nat) : Prop :=
  (ifc.GetDeviceInfo2 K (i : Int) (some (infoAt i).2) d (infoAt i)).status = STLINKIF_NO_ERR ∧
  (infoAt i).2.EnumUniqueId = serial

/-- Whether a device is a match can be computed. -/
instance serialMatchAt.decidable (K : DriverConsts) (ifc : STLinkInterface) (serial : String)
    (d : EnumReplies) (infoAt : Nat → DriverStatus × STLink_DeviceInfo2T) (i : Nat) :
    Decidable (serialMatchAt K ifc serial d infoAt i) :=
  inferInstanceAs (Decidable
    ((ifc.GetDeviceInfo2 K (i : Int) (some (infoAt i).2) d (infoAt i)).status = STLINKIF_NO_ERR ∧
      (infoAt i).2.EnumUniqueId = serial))

/-! ## The example program (main.cpp) -/

/-- CAN and FDCAN initialisation type, `Brg_InitTypeT` of bridge.h. -/
inductive Brg_InitTypeT where
  | BRG_INIT_FULL
  | BRG_REINIT
deriving DecidableEq, Repr

/-- CAN mode, `Brg_CanModeT` of bridge.h. -/
inductive Brg_CanModeT where
  | CAN_MODE_NORMAL
  | CAN_MODE_LOOPBACK
  | CAN_MODE_SILENT
  | CAN_MODE_SILENT_LOOPBACK
deriving DecidableEq, Repr

/-- CAN init parameters, `Brg_CanInitT` of bridge.h. -/
structure Brg_CanInitT where
  BitTimeConf : Brg_CanBitTimeConfT
  Mode : Brg_CanModeT
  Prescaler : Nat
  bIsAbomEn : Bool
  bIsAwumEn : Bool
  bIsNartEn : Bool
  bIsRflmEn : Bool
  bIsTxfpEn : Bool
deriving DecidableEq, Repr

/-- Identifier format, `Brg_CanMsgIdT` of bridge.h. -/
inductive Brg_CanMsgIdT where
  | CAN_ID_STANDARD
  | CAN_ID_EXTENDED
deriving DecidableEq, Repr

/-- Frame kind, `Brg_CanMsgRtrT` of bridge.h. -/
inductive Brg_CanMsgRtrT where
  | CAN_DATA_FRAME
  | CAN_REMOTE_FRAME
deriving DecidableEq, Repr

/-- Receive FIFO, `Brg_CanRxFifoT` of bridge.h. -/
inductive Brg_CanRxFifoT where
  | CAN_MSG_RX_FIFO0
  | CAN_MSG_RX_FIFO1
deriving DecidableEq, Repr

/-- Overrun status of a received message, `Brg_CanRxOverrunT` of bridge.h. -/
inductive Brg_CanRxOverrunT where
  | CAN_RX_NO_OVERRUN
  | CAN_RX_FIFO_OVERRUN
  | CAN_RX_BUFF_OVERRUN
deriving DecidableEq, Repr

/-- Header of a received CAN message, `Brg_CanRxMsgT` of bridge.h. -/
structure Brg_CanRxMsgT where
  IDE : Brg_CanMsgIdT
  ID : Nat
  RTR : Brg_CanMsgRtrT
  DLC : Nat
  Fifo : Brg_CanRxFifoT
  Overrun : Brg_CanRxOverrunT
  TimeStamp : Nat
deriving DecidableEq, Repr

/-- Header of a CAN message to send, `Brg_CanTxMsgT` of bridge.h. -/
structure Brg_CanTxMsgT where
  IDE : Brg_CanMsgIdT
  ID : Nat
  RTR : Brg_CanMsgRtrT
  DLC : Nat
deriving DecidableEq, Repr

/-- Filter mode, `Brg_CanFilterModeT` of bridge.h. -/
inductive Brg_CanFilterModeT where
  | CAN_FILTER_ID_MASK
  | CAN_FILTER_ID_LIST
deriving DecidableEq, Repr

/-- Filter scale, `Brg_CanFilterScaleT` of bridge.h. -/
inductive Brg_CanFilterScaleT where
  | CAN_FILTER_16BIT
  | CAN_FILTER_32BIT
deriving DecidableEq, Repr

open Brg_InitTypeT Brg_CanModeT Brg_CanMsgIdT Brg_CanMsgRtrT Brg_CanRxFifoT
open Brg_CanRxOverrunT Brg_CanFilterModeT Brg_CanFilterScaleT

/-- Filter identifier or mask, `Brg_FilterBitsT` of bridge.h.  The example program
declares its filter descriptor as a local without initialiser and assigns the
fields one by one, so every field is optional here: `none` is a field that has not
been assigned yet. -/
structure Brg_FilterBitsT where
  RTR : Option Brg_CanMsgRtrT
  IDE : Option Brg_CanMsgIdT
  ID : Option Nat
deriving DecidableEq, Repr

/-- CAN filter descriptor, `Brg_CanFilterConfT` of bridge.h, with `Id[4]` and
`Mask[2]` as functions of the index; `none` is a field not assigned yet. -/
structure Brg_CanFilterConfT where
  FilterBankNb : Option Nat
  bIsFilterEn : Option Bool
  FilterMode : Option Brg_CanFilterModeT
  FilterScale : Option Brg_CanFilterScaleT
  Id : Fin 4 → Brg_FilterBitsT
  Mask : Fin 2 → Brg_FilterBitsT
  AssignedFifo : Option Brg_CanRxFifoT

/-- A filter descriptor none of whose fields has been assigned: the local
`filterConf` of `CanTestLoopback` right after its declaration. -/
def unassignedFilterConf : Brg_CanFilterConfT :=
  { FilterBankNb := none, bIsFilterEn := none, FilterMode := none, FilterScale := none,
    Id := fun _ => ⟨none, none, none⟩, Mask := fun _ => ⟨none, none, none⟩,
    AssignedFifo := none }

/-- `COM_CAN`, that is `STLINK_CAN_COM` (stlink_fw_api_bridge.h). -/
def COM_CAN : Nat := 0x04

/-- `COM_UNDEF_ALL` (bridge.h). -/
def COM_UNDEF_ALL : Nat := 0xFF

/-- The calls the example program makes on its `Brg` object, with the arguments it
passes.  Class `Brg` is implemented outside the sources, so the program is
embedded against an arbitrary bridge: it records each call and reads the answer
from an environment. -/
inductive BrgCall where
  | SetOpenModeExclusive (bExclusive : Bool)
  | OpenStlink (StlinkInstId : Int)
  | GetCANbaudratePrescal (BitTimeConf : Brg_CanBitTimeConfT) (ReqBaudrate : Nat)
  | InitCAN (InitParams : Brg_CanInitT) (InitType : Brg_InitTypeT)
  | InitFilterCAN (InitParams : Brg_CanFilterConfT)
  | StartMsgReceptionCAN
  | StopMsgReceptionCAN
  | GetRxMsgNbCAN
  | GetRxMsgCAN (MsgNb : Nat) (BufSizeInBytes : Nat)
  | WriteMsgCAN (CanMsg : Brg_CanTxMsgT) (Buffer : List Nat) (SizeInBytes : Nat)
  | CloseBridge (BrgCom : Nat)
  | IsCanFilter16Support

/-- Answer of the bridge to one call: the returned status and the values found in
the output arguments after the call (each call reads the fields it has). -/
structure BrgReply where
  status : Brg_StatusT
  prescal : Nat
  finalBaudrate : Nat
  msgNb : Nat
  rxMsg : Brg_CanRxMsgT
  rxData : List Nat
  flag : Bool

/-- The bridge as the example program sees it: the answer to a call is a function
of all calls made so far, the answered call last. -/
abbrev BrgEnv := List BrgCall → BrgReply

/-- State of `cBrgExample`: whether `m_pBrg` points to a bridge (`false` is NULL). -/
structure cBrgExample where
  m_pBrg : Bool
deriving DecidableEq, Repr

/-- `cBrgExample::Connect` (main.cpp); `pBrg = false` is the null pointer.  Returns
the status, the object after the call and the calls made. -/
def cBrgExample.Connect (env : BrgEnv) (tr : List BrgCall) (self : cBrgExample)
    (pBrg : Bool) (deviceNb : Int) : Brg_StatusT × cBrgExample × List BrgCall :=
  if pBrg = false then (BRG_CONNECT_ERR, self, tr)
  else
    let self1 : cBrgExample := { m_pBrg := pBrg }
    let tr1 := tr ++ [BrgCall.SetOpenModeExclusive true]
    let tr2 := tr1 ++ [BrgCall.OpenStlink deviceNb]
    let brgStat := (env tr2).status
    let brgStat := if brgStat = BRG_OLD_FIRMWARE_WARNING then BRG_NO_ERR else brgStat
    (brgStat, self1, tr2)

/-- Bit-time descriptor built by `cBrgExample::CanInit` (main.cpp). -/
def canInitBitTime : Brg_CanBitTimeConfT :=
  { PropSegInTq := 1, PhaseSeg1InTq := 5, PhaseSeg2InTq := 1, SjwInTq := 4 }

/-- The init parameters `canParam` that `CanInit` and `CanTestInit` fill in before
calling `InitCAN`: the bit time already used for the prescaler, the prescaler
returned by the bridge, loopback mode and all five options off. -/
def loopbackInitParam (conf : Brg_CanBitTimeConfT) (prescal : Nat) : Brg_CanInitT :=
  { BitTimeConf := conf, Prescaler := prescal, Mode := CAN_MODE_LOOPBACK,
    bIsTxfpEn := false, bIsRflmEn := false, bIsNartEn := false, bIsAwumEn := false,
    bIsAbomEn := false }

/-- Common body of `cBrgExample::CanInit` and `cBrgExample::CanTestInit`, which
differ only in the requested baudrate and the bit time: ask the bridge for the
prescaler, treat `BRG_COM_FREQ_MODIFIED` as success, and on success call
`InitCAN` in loopback mode with the returned prescaler. -/
def canInitWith (conf : Brg_CanBitTimeConfT) (reqBaudrate : Nat) (env : BrgEnv)
    (tr : List BrgCall) : Brg_StatusT × List BrgCall :=
  let tr1 := tr ++ [BrgCall.GetCANbaudratePrescal conf reqBaudrate]
  let prescal := (env tr1).prescal
  let brgStat := (env tr1).status
  let brgStat := if brgStat = BRG_COM_FREQ_MODIFIED then BRG_NO_ERR else brgStat
  if brgStat = BRG_NO_ERR then
    let tr2 := tr1 ++ [BrgCall.InitCAN (loopbackInitParam conf prescal) BRG_INIT_FULL]
    ((env tr2).status, tr2)
  else (brgStat, tr1)

/-- `cBrgExample::CanInit` (main.cpp): 1 Mbit/s with the bit time 1, 5, 1, 4. -/
def cBrgExample.CanInit (env : BrgEnv) (tr : List BrgCall) : Brg_StatusT × List BrgCall :=
  canInitWith canInitBitTime 1000000 env tr

/-- `cBrgExample::CanTestInit` (main.cpp): 125 kbit/s with the bit time 1, 7, 7, 4. -/
def cBrgExample.CanTestInit (env : BrgEnv) (tr : List BrgCall) :
    Brg_StatusT × List BrgCall :=
  canInitWith canTestBitTime 125000 env tr

/-- One pass of the loops `for (i = 0; i < 4; i++)` of `CanTestLoopback` and
`CanFilterDisable`: the three assignments to `Id[i]`. -/
def assignIdSlot (ide : Brg_CanMsgIdT) (fc : Brg_CanFilterConfT) (i : Fin 4) :
    Brg_CanFilterConfT :=
  let fc := { fc with Id := Function.update fc.Id i { (fc.Id i) with ID := some 0 } }
  let fc := { fc with Id := Function.update fc.Id i { (fc.Id i) with IDE := some ide } }
  { fc with Id := Function.update fc.Id i { (fc.Id i) with RTR := some CAN_DATA_FRAME } }

/-- One pass of the loops `for (i = 0; i < 2; i++)` of `CanTestLoopback` and
`CanFilterDisable`: the three assignments to `Mask[i]`. -/
def assignMaskSlot (fc : Brg_CanFilterConfT) (i : Fin 2) : Brg_CanFilterConfT :=
  let fc := { fc with Mask := Function.update fc.Mask i { (fc.Mask i) with ID := some 0 } }
  let std := CAN_ID_STANDARD
  let fc := { fc with Mask := Function.update fc.Mask i { (fc.Mask i) with IDE := some std } }
  { fc with Mask := Function.update fc.Mask i { (fc.Mask i) with RTR := some CAN_DATA_FRAME } }

/-- `cBrgExample::CanFilterDisable` (main.cpp).  Returns the status, the descriptor
behind `pFilterConf` after the call and the calls made. -/
def cBrgExample.CanFilterDisable (env : BrgEnv) (tr : List BrgCall)
    (pFilterConf : Brg_CanFilterConfT) (filterNb : Nat) (filterIde : Brg_CanMsgIdT) :
    Brg_StatusT × Brg_CanFilterConfT × List BrgCall :=
  let fc := { pFilterConf with FilterBankNb := some filterNb }
  let fc := { fc with bIsFilterEn := some false }
  let fc := (List.finRange 4).foldl (assignIdSlot filterIde) fc
  let fc := (List.finRange 2).foldl assignMaskSlot fc
  let fc := { fc with FilterMode := some CAN_FILTER_ID_LIST }
  let fc := { fc with FilterScale := some CAN_FILTER_32BIT }
  let fc := { fc with AssignedFifo := some CAN_MSG_RX_FIFO0 }
  let tr1 := tr ++ [BrgCall.InitFilterCAN fc]
  ((env tr1).status, fc, tr1)

/-- The reception loop of `CanMsgTxRxVerif`:
`while ((retry > 0) && (msgNb == 0)) { brgStat = GetRxMsgNbCAN(&msgNb); retry--; }`,
by recursion on `retry`.  Returns `msgNb`, `brgStat` and the calls made. -/
def rxMsgNbRetry (env : BrgEnv) : Nat → Nat → Brg_StatusT → List BrgCall →
    Nat × Brg_StatusT × List BrgCall
  | 0, msgNb, brgStat, tr => (msgNb, brgStat, tr)
  | retry + 1, msgNb, brgStat, tr =>
    if msgNb = 0 then
      let tr1 := tr ++ [BrgCall.GetRxMsgNbCAN]
      rxMsgNbRetry env retry (env tr1).msgNb (env tr1).status tr1
    else (msgNb, brgStat, tr)

/-- The comparison `pDataRx[i] != pDataTx[i]` for some `i < size` of
`CanMsgTxRxVerif`. -/
def dataMismatch (dataRx dataTx : List Nat) (size : Nat) : Bool :=
  (List.range size).any fun i => dataRx.getD i 0 != dataTx.getD i 0

/-- `cBrgExample::CanMsgTxRxVerif` (main.cpp): send one message, wait for it and
compare.  The received header and data are read only after a successful
`GetRxMsgCAN`, so they are taken from the answer to that call. -/
def cBrgExample.CanMsgTxRxVerif (env : BrgEnv) (tr : List BrgCall)
    (canTxMsg : Brg_CanTxMsgT) (dataTx : List Nat) (rxFifo : Brg_CanRxFifoT)
    (size : Nat) : Brg_StatusT × List BrgCall :=
  let tr1 := tr ++ [BrgCall.WriteMsgCAN canTxMsg dataTx size]
  let brgStat := (env tr1).status
  if brgStat ≠ BRG_NO_ERR then (brgStat, tr1)
  else
    let rx := rxMsgNbRetry env 100 0 brgStat tr1
    let msgNb := rx.1
    let tr2 := rx.2.2
    let brgStat := if msgNb = 0 then BRG_TARGET_CMD_TIMEOUT else rx.2.1
    if brgStat ≠ BRG_NO_ERR then (brgStat, tr2)
    else
      let tr3 := tr2 ++ [BrgCall.GetRxMsgCAN 1 8]
      let brgStat := (env tr3).status
      let canRxMsg := (env tr3).rxMsg
      let dataRx := (env tr3).rxData
      if brgStat ≠ BRG_NO_ERR then (brgStat, tr3)
      else if canRxMsg.Fifo ≠ rxFifo then (BRG_VERIF_ERR, tr3)
      else if canRxMsg.ID ≠ canTxMsg.ID ∨ canRxMsg.IDE ≠ canTxMsg.IDE ∨
          canRxMsg.DLC ≠ size ∨ canRxMsg.Overrun ≠ CAN_RX_NO_OVERRUN then
        (BRG_CAN_ERR, tr3)
      else if dataMismatch dataRx dataTx size then (BRG_VERIF_ERR, tr3)
      else (BRG_NO_ERR, tr3)

/-- The loop `while ((brgStat == BRG_NO_ERR) && (nb < maxLoop))` of
`CanTestLoopback`, by recursion on the number `maxLoop - nb` of passes left. -/
def loopbackLoop (env : BrgEnv) : Nat → Nat → Brg_StatusT → List BrgCall →
    Brg_StatusT × List BrgCall
  | 0, _, brgStat, tr => (brgStat, tr)
  | left + 1, nb, brgStat, tr =>
    if brgStat = BRG_NO_ERR then
      let dataTx := (List.range 8).map fun i => (nb + i) % 256
      let canTxMsg : Brg_CanTxMsgT :=
        { ID := 0x678, IDE := CAN_ID_STANDARD, RTR := CAN_DATA_FRAME, DLC := 2 }
      let size := (nb % (8 + 1)) % 256
      let r := cBrgExample.CanMsgTxRxVerif env tr canTxMsg dataTx CAN_MSG_RX_FIFO0 size
      loopbackLoop env left (nb + 1) r.1 r.2
    else (brgStat, tr)

/-- `cBrgExample::CanTestLoopback` (main.cpp). -/
def cBrgExample.CanTestLoopback (env : BrgEnv) (tr : List BrgCall) :
    Brg_StatusT × List BrgCall :=
  let filterConf := unassignedFilterConf
  let tr1 := tr ++ [BrgCall.StartMsgReceptionCAN]
  let brgStat := (env tr1).status
  let r1 : Brg_StatusT × Brg_CanFilterConfT × List BrgCall :=
    if brgStat = BRG_NO_ERR then
      let fc := { filterConf with AssignedFifo := some CAN_MSG_RX_FIFO0 }
      let fc := { fc with bIsFilterEn := some true }
      let fc := { fc with FilterBankNb := some 0 }
      let fc := { fc with FilterMode := some CAN_FILTER_ID_MASK }
      let fc := { fc with FilterScale := some CAN_FILTER_32BIT }
      let fc := (List.finRange 4).foldl (assignIdSlot CAN_ID_STANDARD) fc
      let fc := (List.finRange 2).foldl assignMaskSlot fc
      let tr2 := tr1 ++ [BrgCall.InitFilterCAN fc]
      let brgStat := (env tr2).status
      let r := loopbackLoop env 500 0 brgStat tr2
      (r.1, fc, r.2)
    else (brgStat, filterConf, tr1)
  let r2 : Brg_StatusT × Brg_CanFilterConfT × List BrgCall :=
    if r1.1 = BRG_NO_ERR then
      cBrgExample.CanFilterDisable env r1.2.2 r1.2.1 0 CAN_ID_STANDARD
    else r1
  let tr3 := r2.2.2 ++ [BrgCall.StopMsgReceptionCAN]
  if r2.1 = BRG_NO_ERR then ((env tr3).status, tr3) else (r2.1, tr3)

/-- The filter descriptors handed to `InitFilterCAN` in a list of calls. -/
def initFilterArgs : List BrgCall → List Brg_CanFilterConfT
  | [] => []
  | BrgCall.InitFilterCAN fc :: rest => fc :: initFilterArgs rest
  | _ :: rest => initFilterArgs rest

/-- The bit-time descriptors handed to `GetCANbaudratePrescal` or, inside the init
parameters, to `InitCAN` in a list of calls. -/
def bitTimeArgs : List BrgCall → List Brg_CanBitTimeConfT
  | [] => []
  | BrgCall.GetCANbaudratePrescal conf _ :: rest => conf :: bitTimeArgs rest
  | BrgCall.InitCAN p _ :: rest => p.BitTimeConf :: bitTimeArgs rest
  | _ :: rest => bitTimeArgs rest

/-- A placeholder slot: identifier 0, data frame, the format `ide`, all assigned. -/
def placeholderSlot (ide : Brg_CanMsgIdT) : Brg_FilterBitsT :=
  ⟨some CAN_DATA_FRAME, some ide, some 0⟩

/-- Every slot of a filter descriptor holds an assigned placeholder: the four
identifiers with one common format, the two masks with the standard format. -/
def allSlotsPlaceholder (fc : Brg_CanFilterConfT) : Prop :=
  (∃ ide, ∀ i, fc.Id i = placeholderSlot ide) ∧
  ∀ j, fc.Mask j = placeholderSlot CAN_ID_STANDARD

/-- The scalar fields of a filter descriptor are all assigned. -/
def scalarsAssigned (fc : Brg_CanFilterConfT) : Prop :=
  fc.FilterBankNb.isSome ∧ fc.bIsFilterEn.isSome ∧ fc.FilterMode.isSome ∧
  fc.FilterScale.isSome ∧ fc.AssignedFifo.isSome

/-- The classic-CAN bit-time invariant of the property under study: the three
segments within 1 to 8, the jump width within 1 to 4 and not above phase
segment 2. -/
def bitTimeInvariant (c : Brg_CanBitTimeConfT) : Prop :=
  (1 ≤ c.PropSegInTq ∧ c.PropSegInTq ≤ 8) ∧
  (1 ≤ c.PhaseSeg1InTq ∧ c.PhaseSeg1InTq ≤ 8) ∧
  (1 ≤ c.PhaseSeg2InTq ∧ c.PhaseSeg2InTq ≤ 8) ∧
  (1 ≤ c.SjwInTq ∧ c.SjwInTq ≤ 4) ∧
  c.SjwInTq ≤ c.PhaseSeg2InTq

/-- The bit-time invariant with the rule the example program follows for the jump
width (the comment `min (4, PhaseSeg1InTq)` of main.cpp): the three segments within
1 to 8, the jump width within 1 to 4 and not above phase segment 1. -/
def bitTimeInvariantSeg1 (c : Brg_CanBitTimeConfT) : Prop :=
  (1 ≤ c.PropSegInTq ∧ c.PropSegInTq ≤ 8) ∧
  (1 ≤ c.PhaseSeg1InTq ∧ c.PhaseSeg1InTq ≤ 8) ∧
  (1 ≤ c.PhaseSeg2InTq ∧ c.PhaseSeg2InTq ≤ 8) ∧
  (1 ≤ c.SjwInTq ∧ c.SjwInTq ≤ 4) ∧
  c.SjwInTq ≤ c.PhaseSeg1InTq

instance (c : Brg_CanBitTimeConfT) : Decidable (bitTimeInvariant c) := by
  unfold bitTimeInvariant
  infer_instance

instance (c : Brg_CanBitTimeConfT) : Decidable (bitTimeInvariantSeg1 c) := by
  unfold bitTimeInvariantSeg1
  infer_instance

/-- The calls `tr2` are the calls `tr1` followed by further calls, and every filter
descriptor that these further calls hand to `InitFilterCAN` satisfies `P`. -/
def extendsWith (P : Brg_CanFilterConfT → Prop) (tr1 tr2 : List BrgCall) : Prop :=
  ∃ new, tr2 = tr1 ++ new ∧ ∀ fc ∈ initFilterArgs new, P fc

/-- What is shown of every filter descriptor that reaches `InitFilterCAN`: all six
slots hold an assigned placeholder and all scalar fields are assigned. -/
def fullyAssigned (fc : Brg_CanFilterConfT) : Prop :=
  allSlotsPlaceholder fc ∧ scalarsAssigned fc

/-- The message header `canTxMsg` that `SendCanBootloaderStart` fills in: standard
identifier 0x123, data frame, `DLC` 0. -/
def bootloaderStartMsg : Brg_CanTxMsgT :=
  { ID := 0x123, IDE := CAN_ID_STANDARD, RTR := CAN_DATA_FRAME, DLC := 0 }

/-- The buffer `dataTx` that `SendCanBootloaderStart` fills in: seven bytes 0xFF and
then `moduleId`, an `int` stored into a `uint8_t`, that is reduced modulo 256. -/
def bootloaderStartData (moduleId : Int) : List Nat :=
  List.replicate 7 0xFF ++ [(moduleId % 256).toNat]

/-- `cBrgExample::SendCanBootloaderStart` (main.cpp).  Returns the status and the
calls made; the value `CloseBridge` returns is not looked at. -/
def cBrgExample.SendCanBootloaderStart (env : BrgEnv) (tr : List BrgCall)
    (self : cBrgExample) (moduleId : Int) : Brg_StatusT × List BrgCall :=
  if self.m_pBrg = false then (BRG_CONNECT_ERR, tr)
  else
    let r := cBrgExample.CanInit env tr
    let canTxMsg := bootloaderStartMsg
    let dataTx := bootloaderStartData moduleId
    let r1 : Brg_StatusT × List BrgCall :=
      if r.1 = BRG_NO_ERR then
        let tr1 := r.2 ++ [BrgCall.WriteMsgCAN canTxMsg dataTx 8]
        ((env tr1).status, tr1)
      else r
    (r1.1, r1.2 ++ [BrgCall.CloseBridge COM_CAN])

/-- The communication modes handed to `CloseBridge` in a list of calls. -/
def closeBridgeArgs : List BrgCall → List Nat
  | [] => []
  | BrgCall.CloseBridge c :: rest => c :: closeBridgeArgs rest
  | _ :: rest => closeBridgeArgs rest

/-- The messages handed to `WriteMsgCAN` in a list of calls: header, data and
size. -/
def writeMsgArgs : List BrgCall → List (Brg_CanTxMsgT × List Nat × Nat)
  | [] => []
  | BrgCall.WriteMsgCAN m b n :: rest => (m, b, n) :: writeMsgArgs rest
  | _ :: rest => writeMsgArgs rest

/-! ## Concrete inputs used by the witnesses -/

/-- Values for the driver constants, used only at concrete inputs. -/
def sampleConsts : DriverConsts :=
  { STLINK_LIB_API_VERSION_LEGACY := 1, STLINK_LIB_API_VERSION_MIN_FOR_TCP := 3,
    DEFAULT_TIMEOUT := 5000 }

/-- A connected device on a loaded COM-port interface. -/
def comPortDevice : StlinkDevice :=
  { m_bStlinkConnected := true,
    m_pStlinkInterface := some { m_ifId := STLINK_COM_PORT_PWR, m_libApiVer := 4,
                                 m_bApiDllLoaded := true },
    m_handle := some 1 }

/-- A loaded shared-mode (TCP) interface. -/
def tcpInterface : STLinkInterface :=
  { m_ifId := STLINK_TCP, m_libApiVer := 4, m_bApiDllLoaded := true,
    m_nbEnumDevices := 1, m_bDevInterfaceEnumerated := true }

/-- A device connected through the shared-mode interface, with server cookie 5. -/
def tcpDevice : StlinkDevice :=
  { m_bStlinkConnected := true, m_pStlinkInterface := some tcpInterface,
    m_deviceIdTcp := 5 }

/-- A loaded and enumerated bridge interface with two devices. -/
def bridgeInterface : STLinkInterface :=
  { m_ifId := STLINK_BRIDGE, m_libApiVer := 4, m_bApiDllLoaded := true,
    m_nbEnumDevices := 2, m_bDevInterfaceEnumerated := true }

/-- Values for the firmware API constants, used only at concrete inputs. -/
def sampleFw : FwConsts :=
  { STLINK_CMD_SIZE_16 := 16, ST_RBC_CMD := 0xF1, ST_GETVERSION_EXT := 0xFB,
    STLINK_GET_TARGET_VOLTAGE := 0xF7, REQUEST_READ_1ST_EPIN := 1, DEFAULT_SENSE_LEN := 14,
    FIRMWARE_MIN_MAJOR_VER_STLINKV3 := 3 }

/-- A device connected through the bridge interface, with handle 1. -/
def bridgeDevice : StlinkDevice :=
  { m_bStlinkConnected := true, m_pStlinkInterface := some bridgeInterface,
    m_handle := some 1, m_Version := { Major_Ver := 3, Bridge_Ver := 5 } }

/-- A device bound to the bridge interface and not connected yet. -/
def idleBridgeDevice : StlinkDevice :=
  { m_pStlinkInterface := some bridgeInterface }

/-- A device description with serial number "SN-A". -/
def infoA : STLink_DeviceInfo2T :=
  { EnumUniqueId := "SN-A", StLinkUsbId := 11, DeviceUsed := false, ProductId := 0x374F }

/-- A device description with serial number "SN-B". -/
def infoB : STLink_DeviceInfo2T :=
  { EnumUniqueId := "SN-B", StLinkUsbId := 12, DeviceUsed := false, ProductId := 0x374F }

/-- A successful enumeration that finds two devices. -/
def okEnum : EnumReplies :=
  { reenumerate := SS_OK, nbDevices := 2, serverVersionStatus := SS_OK, serverVersion := {} }

/-- A driver that answers every call of `OpenStlink` with success: two devices,
handle 9, serial number "SN-A", and a firmware of major version 3, bridge
version 5. -/
def okDriver : DriverReplies :=
  { enumR := okEnum,
    openR := { openDevice := SS_OK, handle := some 9, legacyDevice := none, openLegacy := SS_OK },
    closeR := SS_OK,
    info2R := (SS_OK, infoA),
    infoR := (SS_OK, ⟨"SN-A"⟩),
    stackInfo2 := { EnumUniqueId := "", StLinkUsbId := 0, DeviceUsed := false, ProductId := 0 },
    stackInfo := ⟨""⟩,
    stVersionR := (SS_OK, fun _ => 0),
    versionExtR := (SS_OK, fun i => if i.val = 0 then 3 else if i.val = 4 then 5 else 0) }

/-- A driver whose `STLink_OpenDevice` fails. -/
def failingOpenDriver : DriverReplies :=
  { okDriver with openR := { okDriver.openR with openDevice := SS_OTHER 4100 } }

/-- A loaded bridge interface that has not been enumerated yet. -/
def freshBridgeInterface : STLinkInterface :=
  { m_ifId := STLINK_BRIDGE, m_libApiVer := 4, m_bApiDllLoaded := true }

/-- An enumeration to which a driver too old for the interface answers
`SS_BAD_PARAMETER`. -/
def tooOldEnum : EnumReplies :=
  { reenumerate := SS_BAD_PARAMETER, nbDevices := 0, serverVersionStatus := SS_OK,
    serverVersion := {} }

/-- An enumeration that finds two devices, one of them opened by another program. -/
def permissionEnum : EnumReplies :=
  { reenumerate := SS_PERMISSION_ERR, nbDevices := 2, serverVersionStatus := SS_OK,
    serverVersion := {} }

/-- A session on the connected bridge device: change the open mode, send a request,
call `OpenStlink` again, read the target voltage, close twice. -/
def sampleSession : List SessionOp :=
  [.SetOpenModeExclusive true, .SendRequest (some {}) 0 SS_OK, .OpenStlink 0 0 okDriver,
    .GetTargetVoltage true SS_OK (1, 2), .CloseStlink SS_OK, .CloseStlink SS_OK]

/-- Device information answers for two devices: index 0 reports the serial number
"SN-B" but its retrieval fails, index 1 reports "SN-B" and every other index "SN-A",
all three successfully. -/
def sampleInfoAt : Nat → DriverStatus × STLink_DeviceInfo2T
  | 0 => (SS_OTHER 1, infoB)
  | 1 => (SS_OK, infoB)
  | _ => (SS_OK, infoA)

/-- A loaded and enumerated bridge interface with a single device. -/
def singleDeviceInterface : STLinkInterface :=
  { bridgeInterface with m_nbEnumDevices := 1 }

/-- A successful answer with empty outputs. -/
def okReply : BrgReply :=
  { status := BRG_NO_ERR, prescal := 0, finalBaudrate := 0, msgNb := 0,
    rxMsg := ⟨CAN_ID_STANDARD, 0, CAN_DATA_FRAME, 0, CAN_MSG_RX_FIFO0, CAN_RX_NO_OVERRUN, 0⟩,
    rxData := [], flag := false }

/-- A bridge that answers every call with `BRG_NO_ERR`. -/
def okEnv : BrgEnv := fun _ => okReply

/-- A bridge that answers `GetCANbaudratePrescal` with the advisory status
`BRG_COM_FREQ_MODIFIED` and prescaler 6, `OpenStlink` with
`BRG_OLD_FIRMWARE_WARNING`, `InitCAN` with `BRG_CAN_ERR`, and everything else
with `BRG_NO_ERR`. -/
def advisoryEnv : BrgEnv := fun tr =>
  match tr.getLast? with
  | some (BrgCall.GetCANbaudratePrescal _ _) =>
    { okReply with status := BRG_COM_FREQ_MODIFIED, prescal := 6, finalBaudrate := 999999 }
  | some (BrgCall.OpenStlink _) => { okReply with status := BRG_OLD_FIRMWARE_WARNING }
  | some (BrgCall.InitCAN _ _) => { okReply with status := BRG_CAN_ERR }
  | _ => okReply

/-- A bridge that answers `WriteMsgCAN` with `BRG_CAN_ERR` and everything else with
`BRG_NO_ERR`. -/
def writeFailEnv : BrgEnv := fun tr =>
  match tr.getLast? with
  | some (BrgCall.WriteMsgCAN _ _ _) => { okReply with status := BRG_CAN_ERR }
  | _ => okReply

/-- An example object bound to a bridge. -/
def boundExample : cBrgExample := { m_pBrg := true }

/-! ## Theorems -/

/-- The search over the prescalers 1 to k + 1 returns one of them. -/
theorem searchPrescal_range (c n r k : Nat) :
    1 ≤ searchPrescal c n r k ∧ searchPrescal c n r k ≤ k + 1 := by
  induction k with
  | zero => simp [searchPrescal]
  | succ k ih =>
    simp only [searchPrescal]
    split <;> omega

/-- The prescaler found by the search has the least baudrate error among the prescalers 1
to k + 1. -/
theorem searchPrescal_min (c n r k p : Nat) (h1 : 1 ≤ p) (hk : p ≤ k + 1) :
    baudError c n r (searchPrescal c n r k) ≤ baudError c n r p := by
  induction k with
  | zero =>
    have : p = 1 := by omega
    subst this
    simp [searchPrescal]
  | succ k ih =>
    simp only [searchPrescal]
    by_cases hp : p = k + 2
    · subst hp
      split <;> omega
    · have := ih (by omega)
      split <;> omega

/-- A quotient determines the dividend up to the divisor: q * b ≤ a < b * (q + 1). -/
theorem div_eq_unique (a b q : Nat) (hb : 0 < b) (h : a / b = q) :
    q * b ≤ a ∧ a < b * (q + 1) := by
  subst h
  exact ⟨Nat.div_mul_le_self a b, Nat.lt_mul_div_succ a hb⟩

/-- With a 48 MHz clock and 16 quanta the search for 125000 bit/s finds prescaler 24, the
only prescaler that gives 125000 exactly. -/
theorem searchPrescal_48MHz : searchPrescal 48000000 16 125000 1023 = 24 := by
  have hr := searchPrescal_range 48000000 16 125000 1023
  have hm := searchPrescal_min 48000000 16 125000 1023 24 (by omega) (by omega)
  have h24 : baudError 48000000 16 125000 24 = 0 := by decide
  rw [h24] at hm
  generalize searchPrescal 48000000 16 125000 1023 = p at hr hm
  have hz : 48000000 / (p * 16) = 125000 := by
    simp only [baudError, achievedBaudrate] at hm
    omega
  have := div_eq_unique _ _ _ (by omega) hz
  omega

/-- When some prescaler of the range achieves the request exactly, so does the one the
search returns. -/
theorem searchPrescal_exact (c n r k p : Nat) (h1 : 1 ≤ p) (hk : p ≤ k + 1)
    (h0 : baudError c n r p = 0) :
    achievedBaudrate c n (searchPrescal c n r k) = r := by
  have hm := searchPrescal_min c n r k p h1 hk
  rw [h0] at hm
  simp only [baudError] at hm
  omega

/-- With an 80 MHz clock and 16 quanta the search for 125000 bit/s finds prescaler 40. -/
theorem searchPrescal_80MHz : searchPrescal 80000000 16 125000 1023 = 40 := by
  have hr := searchPrescal_range 80000000 16 125000 1023
  have hz := searchPrescal_exact 80000000 16 125000 1023 40 (by omega) (by omega) (by decide)
  generalize searchPrescal 80000000 16 125000 1023 = p at hr hz
  have := div_eq_unique _ _ _ (by omega) hz
  omega

/-- C1: for the bit time PropSeg=1, PhaseSeg1=7, PhaseSeg2=7 (16 time quanta), a
48 MHz input clock and a request of 125000 bit/s the prescaler computation returns
`BRG_NO_ERR` with prescaler 24 and final baudrate exactly 125000, where
48000000 = 24 * 16 * 125000; with an 80 MHz clock the prescaler is 40.  This holds
whatever the tolerance is. -/
theorem C1_prescaler_125kbps (tol : Nat) :
    nbTq canTestBitTime = 16 ∧
    GetCANbaudratePrescal tol 48000 canTestBitTime 125000 = ⟨BRG_NO_ERR, 24, 125000⟩ ∧
    48000000 = 24 * 16 * 125000 ∧
    GetCANbaudratePrescal tol 80000 canTestBitTime 125000 = ⟨BRG_NO_ERR, 40, 125000⟩ := by
  have hn : nbTq canTestBitTime = 16 := by decide
  refine ⟨hn, ?_, by norm_num, ?_⟩
  · simp only [GetCANbaudratePrescal, hn, CAN_PRESCALER_MAX]
    have h : searchPrescal (1000 * 48000) 16 125000 (1024 - 1) = 24 := searchPrescal_48MHz
    have he : baudError (1000 * 48000) 16 125000 24 = 0 := by decide
    have ha : achievedBaudrate (1000 * 48000) 16 24 = 125000 := by decide
    rw [h, if_pos he, ha]
  · simp only [GetCANbaudratePrescal, hn, CAN_PRESCALER_MAX]
    have h : searchPrescal (1000 * 80000) 16 125000 (1024 - 1) = 40 := searchPrescal_80MHz
    have he : baudError (1000 * 80000) 16 125000 40 = 0 := by decide
    have ha : achievedBaudrate (1000 * 80000) 16 40 = 125000 := by decide
    rw [h, if_pos he, ha]

/-- C2: for every bit-time descriptor, input clock, tolerance and requested
baudrate, the prescaler computation returns a prescaler in [1, 1024] and the
baudrate inputClock / (prescaler * N), N = 1 + PropSeg + PhaseSeg1 + PhaseSeg2, that
it achieves; and either the status is `BRG_NO_ERR` or `BRG_COM_FREQ_MODIFIED` and
that baudrate is within the tolerance of the request, or the status is
`BRG_COM_FREQ_NOT_SUPPORTED`, which happens only when no prescaler of [1, 1024] is
within the tolerance. -/
theorem C2_prescaler_in_range_within_tolerance (tol inputClockKHz : Nat)
    (conf : Brg_CanBitTimeConfT) (ReqBaudrate : Nat) :
    (1 ≤ (GetCANbaudratePrescal tol inputClockKHz conf ReqBaudrate).prescal ∧
      (GetCANbaudratePrescal tol inputClockKHz conf ReqBaudrate).prescal ≤ 1024 ∧
      (GetCANbaudratePrescal tol inputClockKHz conf ReqBaudrate).finalBaudrate =
        1000 * inputClockKHz /
          ((GetCANbaudratePrescal tol inputClockKHz conf ReqBaudrate).prescal * nbTq conf)) ∧
    ((((GetCANbaudratePrescal tol inputClockKHz conf ReqBaudrate).status = BRG_NO_ERR ∨
        (GetCANbaudratePrescal tol inputClockKHz conf ReqBaudrate).status =
          BRG_COM_FREQ_MODIFIED) ∧
        (GetCANbaudratePrescal tol inputClockKHz conf ReqBaudrate).finalBaudrate ≤
          ReqBaudrate + tol ∧
        ReqBaudrate ≤
          (GetCANbaudratePrescal tol inputClockKHz conf ReqBaudrate).finalBaudrate + tol) ∨
      ((GetCANbaudratePrescal tol inputClockKHz conf ReqBaudrate).status =
          BRG_COM_FREQ_NOT_SUPPORTED ∧
        ∀ p, 1 ≤ p → p ≤ 1024 →
          tol < baudError (1000 * inputClockKHz) (nbTq conf) ReqBaudrate p)) := by
  have hr := searchPrescal_range (1000 * inputClockKHz) (nbTq conf) ReqBaudrate 1023
  have hm := searchPrescal_min (1000 * inputClockKHz) (nbTq conf) ReqBaudrate 1023
  simp only [GetCANbaudratePrescal, CAN_PRESCALER_MAX]
  have h1023 : 1024 - 1 = 1023 := rfl
  rw [h1023]
  generalize searchPrescal (1000 * inputClockKHz) (nbTq conf) ReqBaudrate 1023 = p at hr hm
  by_cases h0 : baudError (1000 * inputClockKHz) (nbTq conf) ReqBaudrate p = 0
  · simp only [if_pos h0]
    refine ⟨⟨hr.1, hr.2, rfl⟩, Or.inl ⟨Or.inl trivial, ?_, ?_⟩⟩
    · simp only [baudError] at h0
      omega
    · simp only [baudError] at h0
      omega
  · simp only [if_neg h0]
    by_cases ht : baudError (1000 * inputClockKHz) (nbTq conf) ReqBaudrate p ≤ tol
    · simp only [if_pos ht]
      refine ⟨⟨hr.1, hr.2, rfl⟩, Or.inl ⟨Or.inr trivial, ?_, ?_⟩⟩
      · simp only [baudError] at ht
        omega
      · simp only [baudError] at ht
        omega
    · simp only [if_neg ht]
      refine ⟨⟨hr.1, hr.2, rfl⟩, Or.inr ⟨trivial, ?_⟩⟩
      intro q hq1 hq2
      have := hm q hq1 (by omega)
      omega

/-- Witness for C2: a request no prescaler can serve within a tolerance of 100
bit/s (48 MHz clock, 16 quanta, 10 Mbit/s requested: the best is prescaler 1 with
3 Mbit/s) is reported as not supported, with a prescaler still inside the range. -/
theorem C2_prescaler_witness :
    (GetCANbaudratePrescal 100 48000 canTestBitTime 10000000).prescal ≤ 1024 ∧
    100 < baudError (1000 * 48000) (nbTq canTestBitTime) 10000000 1 := by
  refine ⟨(C2_prescaler_in_range_within_tolerance 100 48000 canTestBitTime 10000000).1.2.1, ?_⟩
  decide

/-- C3: the I2C partial-transaction cursor enforces Start, Cont*, Stop.  From the
idle cursor the sequence Start, Cont, Cont, Stop (read or write) with successful
transfers returns `BRG_NO_ERR` four times, sends every transfer to the address
given to Start, and ends idle; Cont or Stop on the idle cursor fail with
`BRG_COM_CMD_ORDER_ERR` without a transfer, whatever the transport would answer;
and after a successful Start a second Start (read or write, any address) fails
with `BRG_COM_CMD_ORDER_ERR` without a transfer and leaves the cursor as it was. -/
theorem C3_i2c_cursor_sequencing (a0 a b : Nat) (x : Brg_StatusT) :
    -- Start, Cont, Cont, Stop for a read
    ((StartReadI2C ⟨I2C_TRANS_IDLE, a0⟩ a BRG_NO_ERR).status = BRG_NO_ERR ∧
      (ContReadI2C (StartReadI2C ⟨I2C_TRANS_IDLE, a0⟩ a BRG_NO_ERR).cursor BRG_NO_ERR)
        = ⟨BRG_NO_ERR, ⟨I2C_TRANS_R_ONGOING, a⟩, some a⟩ ∧
      (ContReadI2C (ContReadI2C (StartReadI2C ⟨I2C_TRANS_IDLE, a0⟩ a
        BRG_NO_ERR).cursor BRG_NO_ERR).cursor BRG_NO_ERR)
        = ⟨BRG_NO_ERR, ⟨I2C_TRANS_R_ONGOING, a⟩, some a⟩ ∧
      (StopReadI2C (ContReadI2C (ContReadI2C (StartReadI2C ⟨I2C_TRANS_IDLE, a0⟩ a
        BRG_NO_ERR).cursor BRG_NO_ERR).cursor BRG_NO_ERR).cursor BRG_NO_ERR)
        = ⟨BRG_NO_ERR, ⟨I2C_TRANS_IDLE, a⟩, some a⟩) ∧
    -- Start, Cont, Cont, Stop for a write
    ((StartWriteI2C ⟨I2C_TRANS_IDLE, a0⟩ a BRG_NO_ERR).status = BRG_NO_ERR ∧
      (ContWriteI2C (StartWriteI2C ⟨I2C_TRANS_IDLE, a0⟩ a BRG_NO_ERR).cursor BRG_NO_ERR)
        = ⟨BRG_NO_ERR, ⟨I2C_TRANS_W_ONGOING, a⟩, some a⟩ ∧
      (ContWriteI2C (ContWriteI2C (StartWriteI2C ⟨I2C_TRANS_IDLE, a0⟩ a
        BRG_NO_ERR).cursor BRG_NO_ERR).cursor BRG_NO_ERR)
        = ⟨BRG_NO_ERR, ⟨I2C_TRANS_W_ONGOING, a⟩, some a⟩ ∧
      (StopWriteI2C (ContWriteI2C (ContWriteI2C (StartWriteI2C ⟨I2C_TRANS_IDLE, a0⟩ a
        BRG_NO_ERR).cursor BRG_NO_ERR).cursor BRG_NO_ERR).cursor BRG_NO_ERR)
        = ⟨BRG_NO_ERR, ⟨I2C_TRANS_IDLE, a⟩, some a⟩) ∧
    -- Cont or Stop while idle
    (ContReadI2C ⟨I2C_TRANS_IDLE, a0⟩ x = ⟨BRG_COM_CMD_ORDER_ERR, ⟨I2C_TRANS_IDLE, a0⟩, none⟩ ∧
      StopReadI2C ⟨I2C_TRANS_IDLE, a0⟩ x = ⟨BRG_COM_CMD_ORDER_ERR, ⟨I2C_TRANS_IDLE, a0⟩, none⟩ ∧
      ContWriteI2C ⟨I2C_TRANS_IDLE, a0⟩ x = ⟨BRG_COM_CMD_ORDER_ERR, ⟨I2C_TRANS_IDLE, a0⟩, none⟩ ∧
      StopWriteI2C ⟨I2C_TRANS_IDLE, a0⟩ x
        = ⟨BRG_COM_CMD_ORDER_ERR, ⟨I2C_TRANS_IDLE, a0⟩, none⟩) ∧
    -- a second Start without an intervening Stop
    (StartReadI2C (StartReadI2C ⟨I2C_TRANS_IDLE, a0⟩ a BRG_NO_ERR).cursor b x
        = ⟨BRG_COM_CMD_ORDER_ERR, ⟨I2C_TRANS_R_ONGOING, a⟩, none⟩ ∧
      StartWriteI2C (StartReadI2C ⟨I2C_TRANS_IDLE, a0⟩ a BRG_NO_ERR).cursor b x
        = ⟨BRG_COM_CMD_ORDER_ERR, ⟨I2C_TRANS_R_ONGOING, a⟩, none⟩ ∧
      StartWriteI2C (StartWriteI2C ⟨I2C_TRANS_IDLE, a0⟩ a BRG_NO_ERR).cursor b x
        = ⟨BRG_COM_CMD_ORDER_ERR, ⟨I2C_TRANS_W_ONGOING, a⟩, none⟩ ∧
      StartReadI2C (StartWriteI2C ⟨I2C_TRANS_IDLE, a0⟩ a BRG_NO_ERR).cursor b x
        = ⟨BRG_COM_CMD_ORDER_ERR, ⟨I2C_TRANS_W_ONGOING, a⟩, none⟩) := by
  simp [StartReadI2C, ContReadI2C, StopReadI2C, StartWriteI2C, ContWriteI2C, StopWriteI2C,
    startI2C, contI2C, stopI2C]

/-- C4: FDCAN DLC round trip.  Every length of the table (0 to 8, 12, 16, 20, 24,
32, 48, 64) is encoded to a code below 16 that decodes to the same length, and
every other length is rejected with `BRG_PARAM_ERR`. -/
theorem C4_fdcan_dlc_round_trip (len : Nat) :
    (len ∈ fdcanDlcTable →
      ∃ code, code < 16 ∧ fdcanLenToDlc len = .ok code ∧ fdcanDlcToLen code = some len) ∧
    (len ∉ fdcanDlcTable → fdcanLenToDlc len = .error BRG_PARAM_ERR) := by
  constructor
  · intro h
    have hlt : fdcanDlcTable.indexOf len < fdcanDlcTable.length := List.indexOf_lt_length.mpr h
    refine ⟨fdcanDlcTable.indexOf len, hlt, ?_, ?_⟩
    · simp only [fdcanLenToDlc, if_pos hlt]
    · simp only [fdcanDlcToLen]
      rw [List.get?_eq_get hlt]
      simp
  · intro h
    have hge : ¬ fdcanDlcTable.indexOf len < fdcanDlcTable.length := by
      rw [List.indexOf_lt_length]
      exact h
    simp only [fdcanLenToDlc, if_neg hge]

/-- Witness for C4: 12 bytes encode to code 9 and back, 9 bytes are rejected. -/
theorem C4_fdcan_dlc_witness :
    (∃ code, code < 16 ∧ fdcanLenToDlc 12 = .ok code ∧ fdcanDlcToLen code = some 12) ∧
    fdcanLenToDlc 9 = .error BRG_PARAM_ERR :=
  ⟨(C4_fdcan_dlc_round_trip 12).1 (by decide), (C4_fdcan_dlc_round_trip 9).2 (by decide)⟩

/-- C5: for every firmware version whose bridge version is below
`FIRMWARE_BRIDGE_V4_MIN_VER_FOR_FDCAN`, whatever the hardware variant and whichever
variants carry FDCAN, the FDCAN capability check fails: `IsFdcanSupport` is false,
the gate returns `BRG_CMD_NOT_SUPPORTED`, and a gated FDCAN command returns
`BRG_CMD_NOT_SUPPORTED` with the session, its transport call count included,
unchanged. -/
theorem C5_fdcan_gate_below_threshold (fdcanHw : Nat → Bool) (s : GateSession)
    (xfer : Brg_StatusT)
    (hver : s.m_Version.Bridge_Ver < FIRMWARE_BRIDGE_V4_MIN_VER_FOR_FDCAN) :
    IsFdcanSupport fdcanHw s.m_Version = false ∧
    RequireOrFailFdcan fdcanHw s.m_Version = .error BRG_CMD_NOT_SUPPORTED ∧
    StartFDCAN fdcanHw s xfer = (BRG_CMD_NOT_SUPPORTED, s) := by
  have h : IsFdcanSupport fdcanHw s.m_Version = false := by
    simp only [IsFdcanSupport, Bool.and_eq_false_imp, decide_eq_false_iff_not]
    intro _
    omega
  refine ⟨h, ?_, ?_⟩
  · simp [RequireOrFailFdcan, h]
  · simp [StartFDCAN, RequireOrFailFdcan, h]

/-- Witness for C5: bridge firmware version 1 on a probe of major version 4 whose
hardware carries FDCAN. -/
theorem C5_fdcan_gate_witness :
    StartFDCAN (fun m => decide (m = 4)) ⟨{ Major_Ver := 4, Bridge_Ver := 1 }, 7⟩ BRG_NO_ERR
      = (BRG_CMD_NOT_SUPPORTED, ⟨{ Major_Ver := 4, Bridge_Ver := 1 }, 7⟩) :=
  (C5_fdcan_gate_below_threshold (fun m => decide (m = 4))
    ⟨{ Major_Ver := 4, Bridge_Ver := 1 }, 7⟩ BRG_NO_ERR (by decide)).2.2

/-- C6: `StlinkDevice::SendRequest` detects its precondition failures before any
transport call.  A null request gives `STLINKIF_PARAM_ERR`; otherwise a device that
is not connected gives `STLINKIF_NO_STLINK`; otherwise a missing interface gives
`STLINKIF_DLL_ERR`; otherwise a COM-port interface gives `STLINKIF_NOT_SUPPORTED`;
each earlier check wins over the later ones, and in all four cases
`STLinkInterface::SendCommand` is not invoked.  In every remaining case it is
invoked. -/
theorem C6_sendRequest_preconditions (K : DriverConsts) (dev : StlinkDevice)
    (req : STLink_DeviceRequestT) (t : Nat) (ret : DriverStatus) :
    dev.SendRequest K none t ret = ⟨STLINKIF_PARAM_ERR, none⟩ ∧
    (dev.m_bStlinkConnected = false →
      dev.SendRequest K (some req) t ret = ⟨STLINKIF_NO_STLINK, none⟩) ∧
    (dev.m_bStlinkConnected = true → dev.m_pStlinkInterface = none →
      dev.SendRequest K (some req) t ret = ⟨STLINKIF_DLL_ERR, none⟩) ∧
    (∀ ifc, dev.m_bStlinkConnected = true → dev.m_pStlinkInterface = some ifc →
      (ifc.m_ifId = STLINK_COM_PORT_DBG ∨ ifc.m_ifId = STLINK_COM_PORT_PWR) →
      dev.SendRequest K (some req) t ret = ⟨STLINKIF_NOT_SUPPORTED, none⟩) ∧
    (∀ ifc, dev.m_bStlinkConnected = true → dev.m_pStlinkInterface = some ifc →
      ¬ (ifc.m_ifId = STLINK_COM_PORT_DBG ∨ ifc.m_ifId = STLINK_COM_PORT_PWR) →
      (dev.SendRequest K (some req) t ret).sendCommand =
        some (ifc.SendCommand K dev.m_handle dev.m_deviceIdTcp (some req) t ret)) := by
  refine ⟨rfl, ?_, ?_, ?_, ?_⟩
  · intro h
    simp [StlinkDevice.SendRequest, h]
  · intro h hi
    simp [StlinkDevice.SendRequest, h, hi]
  · intro ifc h hi hc
    simp [StlinkDevice.SendRequest, h, hi, STLinkInterface.GetIfId, hc]
  · intro ifc h hi hc
    simp only [StlinkDevice.SendRequest, h, hi, STLinkInterface.GetIfId, if_neg hc]
    simp only [Bool.true_eq_false, if_false]
    split <;> rfl

/-- Witness for C6: on a connected device bound to a COM-port interface the
request is refused with `STLINKIF_NOT_SUPPORTED` and `SendCommand` is not invoked. -/
theorem C6_sendRequest_witness :
    comPortDevice.SendRequest sampleConsts (some {}) 0 SS_OK
      = ⟨STLINKIF_NOT_SUPPORTED, none⟩ :=
  (C6_sendRequest_preconditions sampleConsts comPortDevice {} 0 SS_OK).2.2.2.1
    { m_ifId := STLINK_COM_PORT_PWR, m_libApiVer := 4, m_bApiDllLoaded := true }
    rfl rfl (Or.inr rfl)

/-- C7, counterexample: on a device connected in shared mode the driver word
`SS_TCP_BUSY`, which `SendCommand` reports as `STLINKIF_TCP_BUSY`, makes
`SendRequest` return `STLINKIF_USB_COMM_ERR`, the very status it returns for a
generic driver failure. -/
theorem C7_busy_not_distinguished :
    (tcpInterface.SendCommand sampleConsts none 5 (some {}) 0 SS_TCP_BUSY).status
      = STLINKIF_TCP_BUSY ∧
    (tcpDevice.SendRequest sampleConsts (some {}) 0 SS_TCP_BUSY).status
      = STLINKIF_USB_COMM_ERR ∧
    (tcpDevice.SendRequest sampleConsts (some {}) 0 SS_TCP_BUSY).status
      = (tcpDevice.SendRequest sampleConsts (some {}) 0 (SS_OTHER 4097)).status := by
  decide

/-- C7, amended: the busy outcome is told apart only by
`STLinkInterface::SendCommand`, which reports the driver word `SS_TCP_BUSY` as
`STLINKIF_TCP_BUSY` and every other driver failure as `STLINKIF_USB_COMM_ERR`
whenever it calls the driver; `StlinkDevice::SendRequest`, once past its
precondition checks, returns `STLINKIF_USB_COMM_ERR` for every status of
`SendCommand` other than `STLINKIF_NO_ERR`, `STLINKIF_TCP_BUSY` included. -/
theorem C7_busy_collapsed_by_sendRequest (K : DriverConsts) (dev : StlinkDevice)
    (ifc : STLinkInterface) (req : STLink_DeviceRequestT) (t : Nat) (ret : DriverStatus)
    (hconn : dev.m_bStlinkConnected = true) (hif : dev.m_pStlinkInterface = some ifc)
    (hcom : ¬ (ifc.m_ifId = STLINK_COM_PORT_DBG ∨ ifc.m_ifId = STLINK_COM_PORT_PWR)) :
    ((ifc.SendCommand K dev.m_handle dev.m_deviceIdTcp (some req) t ret).driverCall ≠ none →
      (ifc.SendCommand K dev.m_handle dev.m_deviceIdTcp (some req) t ret).status =
        if ret = SS_OK then STLINKIF_NO_ERR
        else if ret = SS_TCP_BUSY then STLINKIF_TCP_BUSY else STLINKIF_USB_COMM_ERR) ∧
    ((ifc.SendCommand K dev.m_handle dev.m_deviceIdTcp (some req) t ret).status
        ≠ STLINKIF_NO_ERR →
      (dev.SendRequest K (some req) t ret).status = STLINKIF_USB_COMM_ERR) ∧
    ((ifc.SendCommand K dev.m_handle dev.m_deviceIdTcp (some req) t ret).status
        = STLINKIF_TCP_BUSY →
      (dev.SendRequest K (some req) t ret).status = STLINKIF_USB_COMM_ERR) := by
  have hreq : ∀ h : (ifc.SendCommand K dev.m_handle dev.m_deviceIdTcp (some req) t ret).status
        ≠ STLINKIF_NO_ERR,
      (dev.SendRequest K (some req) t ret).status = STLINKIF_USB_COMM_ERR := by
    intro h
    simp only [StlinkDevice.SendRequest, hconn, hif, STLinkInterface.GetIfId, if_neg hcom]
    simp only [Bool.true_eq_false, if_false]
    rw [if_pos h]
  refine ⟨?_, hreq, ?_⟩
  · simp only [STLinkInterface.SendCommand, sendCommandStatus]
    intro h
    by_cases hok : ret = SS_OK
    · subst hok
      split_ifs at h ⊢ <;> simp_all
    · split_ifs at h ⊢ <;> simp_all
  · intro h
    apply hreq
    rw [h]
    decide

/-- Witness for C7 amended: the shared-mode device of the counterexample. -/
theorem C7_busy_collapsed_witness :
    (tcpDevice.SendRequest sampleConsts (some {}) 0 SS_TCP_BUSY).status
      = STLINKIF_USB_COMM_ERR :=
  (C7_busy_collapsed_by_sendRequest sampleConsts tcpDevice tcpInterface {} 0 SS_TCP_BUSY
    rfl rfl (by decide)).2.2 (by decide)

/-- When the prescaler call answers `BRG_COM_FREQ_MODIFIED` or `BRG_NO_ERR`, the init body
calls `InitCAN` with the returned prescaler and returns its status. -/
theorem canInitWith_advisory (conf : Brg_CanBitTimeConfT) (req : Nat) (env : BrgEnv)
    (tr : List BrgCall)
    (h : (env (tr ++ [BrgCall.GetCANbaudratePrescal conf req])).status = BRG_COM_FREQ_MODIFIED ∨
      (env (tr ++ [BrgCall.GetCANbaudratePrescal conf req])).status = BRG_NO_ERR) :
    canInitWith conf req env tr =
      ((env (tr ++ [BrgCall.GetCANbaudratePrescal conf req] ++
          [BrgCall.InitCAN (loopbackInitParam conf
            (env (tr ++ [BrgCall.GetCANbaudratePrescal conf req])).prescal)
            BRG_INIT_FULL])).status,
        tr ++ [BrgCall.GetCANbaudratePrescal conf req] ++
          [BrgCall.InitCAN (loopbackInitParam conf
            (env (tr ++ [BrgCall.GetCANbaudratePrescal conf req])).prescal)
            BRG_INIT_FULL]) := by
  rcases h with h | h <;> simp [canInitWith, h]

/-- When the prescaler call answers any other status, the init body returns it without a
second call. -/
theorem canInitWith_error (conf : Brg_CanBitTimeConfT) (req : Nat) (env : BrgEnv)
    (tr : List BrgCall)
    (h1 : (env (tr ++ [BrgCall.GetCANbaudratePrescal conf req])).status ≠ BRG_COM_FREQ_MODIFIED)
    (h2 : (env (tr ++ [BrgCall.GetCANbaudratePrescal conf req])).status ≠ BRG_NO_ERR) :
    canInitWith conf req env tr =
      ((env (tr ++ [BrgCall.GetCANbaudratePrescal conf req])).status,
        tr ++ [BrgCall.GetCANbaudratePrescal conf req]) := by
  simp [canInitWith, h1, h2]

/-- C8: in the example program an advisory status never fails the flow.  When
`GetCANbaudratePrescal` answers `BRG_COM_FREQ_MODIFIED`, exactly as when it answers
`BRG_NO_ERR`, `CanInit` (1 Mbit/s, bit time 1, 5, 1, 4) and `CanTestInit`
(125 kbit/s, bit time 1, 7, 7, 4) go on to call `InitCAN` as their second and last
call, with `BRG_INIT_FULL` and init parameters that hold the bit time just used, the
prescaler the bridge returned, loopback mode and the five options off, and they
return the status of `InitCAN`.  When it answers any other status,
`BRG_COM_FREQ_NOT_SUPPORTED` included, they make no further call and return that
status.  `Connect` on a non-null bridge binds the bridge, calls
`SetOpenModeExclusive(true)` and `OpenStlink(deviceNb)`, and returns `BRG_NO_ERR`
when `OpenStlink` answers `BRG_OLD_FIRMWARE_WARNING`; any other answer of
`OpenStlink` is returned as it is, and on a null bridge `Connect` returns
`BRG_CONNECT_ERR` without a call. -/
theorem C8_advisory_status_never_fails (env : BrgEnv) (tr : List BrgCall)
    (self : cBrgExample) (deviceNb : Int) :
    (((env (tr ++ [BrgCall.GetCANbaudratePrescal
          { PropSegInTq := 1, PhaseSeg1InTq := 5, PhaseSeg2InTq := 1, SjwInTq := 4 } 1000000])).status
            = BRG_COM_FREQ_MODIFIED ∨
        (env (tr ++ [BrgCall.GetCANbaudratePrescal
          { PropSegInTq := 1, PhaseSeg1InTq := 5, PhaseSeg2InTq := 1, SjwInTq := 4 } 1000000])).status
            = BRG_NO_ERR) →
      cBrgExample.CanInit env tr =
        ((env (tr ++ [BrgCall.GetCANbaudratePrescal
              { PropSegInTq := 1, PhaseSeg1InTq := 5, PhaseSeg2InTq := 1, SjwInTq := 4 } 1000000] ++
            [BrgCall.InitCAN
              { BitTimeConf :=
                  { PropSegInTq := 1, PhaseSeg1InTq := 5, PhaseSeg2InTq := 1, SjwInTq := 4 },
                Prescaler := (env (tr ++ [BrgCall.GetCANbaudratePrescal
                  { PropSegInTq := 1, PhaseSeg1InTq := 5, PhaseSeg2InTq := 1, SjwInTq := 4 } 1000000])).prescal,
                Mode := CAN_MODE_LOOPBACK, bIsTxfpEn := false, bIsRflmEn := false,
                bIsNartEn := false, bIsAwumEn := false, bIsAbomEn := false }
              BRG_INIT_FULL])).status,
          tr ++ [BrgCall.GetCANbaudratePrescal
              { PropSegInTq := 1, PhaseSeg1InTq := 5, PhaseSeg2InTq := 1, SjwInTq := 4 } 1000000] ++
            [BrgCall.InitCAN
              { BitTimeConf :=
                  { PropSegInTq := 1, PhaseSeg1InTq := 5, PhaseSeg2InTq := 1, SjwInTq := 4 },
                Prescaler := (env (tr ++ [BrgCall.GetCANbaudratePrescal
                  { PropSegInTq := 1, PhaseSeg1InTq := 5, PhaseSeg2InTq := 1, SjwInTq := 4 } 1000000])).prescal,
                Mode := CAN_MODE_LOOPBACK, bIsTxfpEn := false, bIsRflmEn := false,
                bIsNartEn := false, bIsAwumEn := false, bIsAbomEn := false }
              BRG_INIT_FULL])) ∧
    (((env (tr ++ [BrgCall.GetCANbaudratePrescal
          { PropSegInTq := 1, PhaseSeg1InTq := 7, PhaseSeg2InTq := 7, SjwInTq := 4 } 125000])).status
            = BRG_COM_FREQ_MODIFIED ∨
        (env (tr ++ [BrgCall.GetCANbaudratePrescal
          { PropSegInTq := 1, PhaseSeg1InTq := 7, PhaseSeg2InTq := 7, SjwInTq := 4 } 125000])).status
            = BRG_NO_ERR) →
      cBrgExample.CanTestInit env tr =
        ((env (tr ++ [BrgCall.GetCANbaudratePrescal
              { PropSegInTq := 1, PhaseSeg1InTq := 7, PhaseSeg2InTq := 7, SjwInTq := 4 } 125000] ++
            [BrgCall.InitCAN
              { BitTimeConf :=
                  { PropSegInTq := 1, PhaseSeg1InTq := 7, PhaseSeg2InTq := 7, SjwInTq := 4 },
                Prescaler := (env (tr ++ [BrgCall.GetCANbaudratePrescal
                  { PropSegInTq := 1, PhaseSeg1InTq := 7, PhaseSeg2InTq := 7, SjwInTq := 4 } 125000])).prescal,
                Mode := CAN_MODE_LOOPBACK, bIsTxfpEn := false, bIsRflmEn := false,
                bIsNartEn := false, bIsAwumEn := false, bIsAbomEn := false }
              BRG_INIT_FULL])).status,
          tr ++ [BrgCall.GetCANbaudratePrescal
              { PropSegInTq := 1, PhaseSeg1InTq := 7, PhaseSeg2InTq := 7, SjwInTq := 4 } 125000] ++
            [BrgCall.InitCAN
              { BitTimeConf :=
                  { PropSegInTq := 1, PhaseSeg1InTq := 7, PhaseSeg2InTq := 7, SjwInTq := 4 },
                Prescaler := (env (tr ++ [BrgCall.GetCANbaudratePrescal
                  { PropSegInTq := 1, PhaseSeg1InTq := 7, PhaseSeg2InTq := 7, SjwInTq := 4 } 125000])).prescal,
                Mode := CAN_MODE_LOOPBACK, bIsTxfpEn := false, bIsRflmEn := false,
                bIsNartEn := false, bIsAwumEn := false, bIsAbomEn := false }
              BRG_INIT_FULL])) ∧
    ((env (tr ++ [BrgCall.GetCANbaudratePrescal
          { PropSegInTq := 1, PhaseSeg1InTq := 5, PhaseSeg2InTq := 1, SjwInTq := 4 } 1000000])).status
            ≠ BRG_COM_FREQ_MODIFIED →
      (env (tr ++ [BrgCall.GetCANbaudratePrescal
          { PropSegInTq := 1, PhaseSeg1InTq := 5, PhaseSeg2InTq := 1, SjwInTq := 4 } 1000000])).status
            ≠ BRG_NO_ERR →
      cBrgExample.CanInit env tr =
        ((env (tr ++ [BrgCall.GetCANbaudratePrescal
              { PropSegInTq := 1, PhaseSeg1InTq := 5, PhaseSeg2InTq := 1, SjwInTq := 4 } 1000000])).status,
          tr ++ [BrgCall.GetCANbaudratePrescal
              { PropSegInTq := 1, PhaseSeg1InTq := 5, PhaseSeg2InTq := 1, SjwInTq := 4 } 1000000])) ∧
    ((env (tr ++ [BrgCall.GetCANbaudratePrescal
          { PropSegInTq := 1, PhaseSeg1InTq := 7, PhaseSeg2InTq := 7, SjwInTq := 4 } 125000])).status
            ≠ BRG_COM_FREQ_MODIFIED →
      (env (tr ++ [BrgCall.GetCANbaudratePrescal
          { PropSegInTq := 1, PhaseSeg1InTq := 7, PhaseSeg2InTq := 7, SjwInTq := 4 } 125000])).status
            ≠ BRG_NO_ERR →
      cBrgExample.CanTestInit env tr =
        ((env (tr ++ [BrgCall.GetCANbaudratePrescal
              { PropSegInTq := 1, PhaseSeg1InTq := 7, PhaseSeg2InTq := 7, SjwInTq := 4 } 125000])).status,
          tr ++ [BrgCall.GetCANbaudratePrescal
              { PropSegInTq := 1, PhaseSeg1InTq := 7, PhaseSeg2InTq := 7, SjwInTq := 4 } 125000])) ∧
    ((env (tr ++ [BrgCall.SetOpenModeExclusive true] ++ [BrgCall.OpenStlink deviceNb])).status
        = BRG_OLD_FIRMWARE_WARNING →
      cBrgExample.Connect env tr self true deviceNb =
        (BRG_NO_ERR, { m_pBrg := true },
          tr ++ [BrgCall.SetOpenModeExclusive true] ++ [BrgCall.OpenStlink deviceNb])) ∧
    ((env (tr ++ [BrgCall.SetOpenModeExclusive true] ++ [BrgCall.OpenStlink deviceNb])).status
        ≠ BRG_OLD_FIRMWARE_WARNING →
      cBrgExample.Connect env tr self true deviceNb =
        ((env (tr ++ [BrgCall.SetOpenModeExclusive true] ++
            [BrgCall.OpenStlink deviceNb])).status,
          { m_pBrg := true },
          tr ++ [BrgCall.SetOpenModeExclusive true] ++ [BrgCall.OpenStlink deviceNb])) ∧
    cBrgExample.Connect env tr self false deviceNb = (BRG_CONNECT_ERR, self, tr) := by
  refine ⟨?_, ?_, ?_, ?_, ?_, ?_, ?_⟩
  · intro h
    exact canInitWith_advisory canInitBitTime 1000000 env tr h
  · intro h
    exact canInitWith_advisory canTestBitTime 125000 env tr h
  · intro h1 h2
    exact canInitWith_error canInitBitTime 1000000 env tr h1 h2
  · intro h1 h2
    exact canInitWith_error canTestBitTime 125000 env tr h1 h2
  · intro h
    simp only [cBrgExample.Connect, Bool.true_eq_false, if_false, h, if_true]
  · intro h
    simp only [cBrgExample.Connect, Bool.true_eq_false, if_false, if_neg h]
  · simp only [cBrgExample.Connect, if_true]

/-- Witness for C8: against a bridge that answers `BRG_COM_FREQ_MODIFIED` with
prescaler 6 and then fails `InitCAN` with `BRG_CAN_ERR`, `CanInit` still calls
`InitCAN`, in loopback mode with prescaler 6 and the bit time 1, 5, 1, 4, and returns
`BRG_CAN_ERR`; against the same bridge, which answers `OpenStlink` with
`BRG_OLD_FIRMWARE_WARNING`, `Connect` binds the bridge, makes its two calls and
returns `BRG_NO_ERR`. -/
theorem C8_advisory_status_witness :
    cBrgExample.CanInit advisoryEnv [] =
      (BRG_CAN_ERR,
        [BrgCall.GetCANbaudratePrescal
            { PropSegInTq := 1, PhaseSeg1InTq := 5, PhaseSeg2InTq := 1, SjwInTq := 4 } 1000000,
          BrgCall.InitCAN
            { BitTimeConf :=
                { PropSegInTq := 1, PhaseSeg1InTq := 5, PhaseSeg2InTq := 1, SjwInTq := 4 },
              Prescaler := 6, Mode := CAN_MODE_LOOPBACK, bIsTxfpEn := false,
              bIsRflmEn := false, bIsNartEn := false, bIsAwumEn := false, bIsAbomEn := false }
            BRG_INIT_FULL]) ∧
    cBrgExample.Connect advisoryEnv [] ⟨false⟩ true 0 =
      (BRG_NO_ERR, { m_pBrg := true },
        [BrgCall.SetOpenModeExclusive true, BrgCall.OpenStlink 0]) :=
  ⟨(C8_advisory_status_never_fails advisoryEnv [] ⟨false⟩ 0).1 (Or.inl rfl),
    (C8_advisory_status_never_fails advisoryEnv [] ⟨false⟩ 0).2.2.2.2.1 rfl⟩

/-- The init body only adds calls, at least one, and every bit-time descriptor in them is
the one it was given. -/
theorem canInitWith_bitTimeArgs (conf : Brg_CanBitTimeConfT) (req : Nat) (env : BrgEnv)
    (tr : List BrgCall) :
    ∃ new, (canInitWith conf req env tr).2 = tr ++ new ∧ new ≠ [] ∧
      ∀ c ∈ bitTimeArgs new, c = conf := by
  by_cases h : (env (tr ++ [BrgCall.GetCANbaudratePrescal conf req])).status
      = BRG_COM_FREQ_MODIFIED ∨
      (env (tr ++ [BrgCall.GetCANbaudratePrescal conf req])).status = BRG_NO_ERR
  · rw [canInitWith_advisory conf req env tr h]
    exact ⟨[BrgCall.GetCANbaudratePrescal conf req,
      BrgCall.InitCAN (loopbackInitParam conf
        (env (tr ++ [BrgCall.GetCANbaudratePrescal conf req])).prescal) BRG_INIT_FULL],
      by simp, by simp, by simp [bitTimeArgs, loopbackInitParam]⟩
  · rw [canInitWith_error conf req env tr (fun e => h (Or.inl e)) (fun e => h (Or.inr e))]
    exact ⟨[BrgCall.GetCANbaudratePrescal conf req], rfl, by simp, by simp [bitTimeArgs]⟩

/-- C9, counterexample: the descriptor that `CanInit` hands to
`GetCANbaudratePrescal` has a jump width of 4 quanta and a phase segment 2 of one
quantum, so it breaks the invariant. -/
theorem C9_canInit_descriptor_breaks_invariant :
    canInitBitTime ∈ bitTimeArgs (cBrgExample.CanInit okEnv []).2 ∧
    canInitBitTime.SjwInTq = 4 ∧ canInitBitTime.PhaseSeg2InTq = 1 ∧
    ¬ bitTimeInvariant canInitBitTime := by
  decide

/-- C9, amended: whatever the bridge answers, `CanInit` and `CanTestInit` make at
least one call, and every bit-time descriptor they hand to `GetCANbaudratePrescal`
or `InitCAN` has the three segments within 1 to 8, the jump width within 1 to 4 and
the jump width not above phase segment 1; the descriptors of `CanTestInit` keep
the jump width not above phase segment 2 as well. -/
theorem C9_bit_time_descriptors_in_range (env : BrgEnv) (tr : List BrgCall) :
    (∃ new, (cBrgExample.CanInit env tr).2 = tr ++ new ∧ new ≠ [] ∧
      ∀ c ∈ bitTimeArgs new, bitTimeInvariantSeg1 c) ∧
    (∃ new, (cBrgExample.CanTestInit env tr).2 = tr ++ new ∧ new ≠ [] ∧
      ∀ c ∈ bitTimeArgs new, bitTimeInvariantSeg1 c ∧ bitTimeInvariant c) := by
  constructor
  · obtain ⟨new, h1, h2, h3⟩ := canInitWith_bitTimeArgs canInitBitTime 1000000 env tr
    refine ⟨new, h1, h2, ?_⟩
    intro c hc
    rw [h3 c hc]
    decide
  · obtain ⟨new, h1, h2, h3⟩ := canInitWith_bitTimeArgs canTestBitTime 125000 env tr
    refine ⟨new, h1, h2, ?_⟩
    intro c hc
    rw [h3 c hc]
    decide

/-- The filter descriptors of a concatenation of calls. -/
theorem initFilterArgs_append (a b : List BrgCall) :
    initFilterArgs (a ++ b) = initFilterArgs a ++ initFilterArgs b := by
  induction a with
  | nil => rfl
  | cons x xs ih => cases x <;> simp [initFilterArgs, ih]

/-- No further call: nothing to show. -/
theorem extendsWith_refl (P : Brg_CanFilterConfT → Prop) (tr : List BrgCall) :
    extendsWith P tr tr :=
  ⟨[], by simp, by simp [initFilterArgs]⟩

/-- Extensions compose. -/
theorem extendsWith_trans (P : Brg_CanFilterConfT → Prop) (a b c : List BrgCall)
    (h1 : extendsWith P a b) (h2 : extendsWith P b c) : extendsWith P a c := by
  obtain ⟨n1, e1, p1⟩ := h1
  obtain ⟨n2, e2, p2⟩ := h2
  refine ⟨n1 ++ n2, by rw [e2, e1, List.append_assoc], ?_⟩
  intro fc hfc
  rw [initFilterArgs_append, List.mem_append] at hfc
  rcases hfc with h | h
  · exact p1 fc h
  · exact p2 fc h

/-- One further call, which either is not `InitFilterCAN` or passes a descriptor that
satisfies `P`. -/
theorem extendsWith_call (P : Brg_CanFilterConfT → Prop) (tr : List BrgCall) (c : BrgCall)
    (h : ∀ fc, c = BrgCall.InitFilterCAN fc → P fc) : extendsWith P tr (tr ++ [c]) := by
  refine ⟨[c], rfl, ?_⟩
  intro fc hfc
  cases c <;> simp [initFilterArgs] at hfc
  exact h fc (by rw [hfc])

/-- After the loop over the four `Id` slots each of them is the placeholder of the given
format, whatever they held before. -/
theorem assignIdSlot_fold (ide : Brg_CanMsgIdT) (fc : Brg_CanFilterConfT) :
    (List.finRange 4).foldl (assignIdSlot ide) fc =
      { fc with Id := fun _ => placeholderSlot ide } := by
  have h : List.finRange 4 = [0, 1, 2, 3] := by decide
  rw [h]
  simp only [List.foldl, assignIdSlot]
  congr
  funext i
  fin_cases i <;> simp [Function.update, placeholderSlot]

/-- After the loop over the two `Mask` slots each of them is the standard-format
placeholder, whatever they held before. -/
theorem assignMaskSlot_fold (fc : Brg_CanFilterConfT) :
    (List.finRange 2).foldl assignMaskSlot fc =
      { fc with Mask := fun _ => placeholderSlot CAN_ID_STANDARD } := by
  have h : List.finRange 2 = [0, 1] := by decide
  rw [h]
  simp only [List.foldl, assignMaskSlot]
  congr
  funext i
  fin_cases i <;> simp [Function.update, placeholderSlot]

/-- The reception loop only adds calls, none of them `InitFilterCAN`. -/
theorem rxMsgNbRetry_extends (P : Brg_CanFilterConfT → Prop) (env : BrgEnv) (retry : Nat) :
    ∀ (msgNb : Nat) (st : Brg_StatusT) (tr : List BrgCall),
      extendsWith P tr (rxMsgNbRetry env retry msgNb st tr).2.2 := by
  induction retry with
  | zero =>
    intro msgNb st tr
    exact extendsWith_refl P tr
  | succ r ih =>
    intro msgNb st tr
    simp only [rxMsgNbRetry]
    split
    · exact extendsWith_trans P _ _ _
        (extendsWith_call P tr BrgCall.GetRxMsgNbCAN (by intro fc h; cases h)) (ih _ _ _)
    · exact extendsWith_refl P tr

/-- `CanMsgTxRxVerif` only adds calls, none of them `InitFilterCAN`. -/
theorem CanMsgTxRxVerif_extends (P : Brg_CanFilterConfT → Prop) (env : BrgEnv)
    (tr : List BrgCall) (canTxMsg : Brg_CanTxMsgT) (dataTx : List Nat)
    (rxFifo : Brg_CanRxFifoT) (size : Nat) :
    extendsWith P tr (cBrgExample.CanMsgTxRxVerif env tr canTxMsg dataTx rxFifo size).2 := by
  have e1 : extendsWith P tr (tr ++ [BrgCall.WriteMsgCAN canTxMsg dataTx size]) :=
    extendsWith_call P tr _ (by intro fc h; cases h)
  have e2 := extendsWith_trans P _ _ _ e1
    (rxMsgNbRetry_extends P env 100 0
      (env (tr ++ [BrgCall.WriteMsgCAN canTxMsg dataTx size])).status
      (tr ++ [BrgCall.WriteMsgCAN canTxMsg dataTx size]))
  have e3 := extendsWith_trans P _ _ _ e2
    (extendsWith_call P _ (BrgCall.GetRxMsgCAN 1 8) (by intro fc h; cases h))
  simp only [cBrgExample.CanMsgTxRxVerif]
  split_ifs <;> first | exact e1 | exact e2 | exact e3

/-- The send and receive loop of `CanTestLoopback` only adds calls, none of them
`InitFilterCAN`. -/
theorem loopbackLoop_extends (P : Brg_CanFilterConfT → Prop) (env : BrgEnv) (left : Nat) :
    ∀ (nb : Nat) (st : Brg_StatusT) (tr : List BrgCall),
      extendsWith P tr (loopbackLoop env left nb st tr).2 := by
  induction left with
  | zero =>
    intro nb st tr
    exact extendsWith_refl P tr
  | succ k ih =>
    intro nb st tr
    simp only [loopbackLoop]
    split
    · exact extendsWith_trans P _ _ _ (CanMsgTxRxVerif_extends P env tr _ _ _ _) (ih _ _ _)
    · exact extendsWith_refl P tr

/-- `CanFilterDisable` makes exactly one call, `InitFilterCAN`, with a descriptor all of
whose fields it has overwritten. -/
theorem CanFilterDisable_descriptor (env : BrgEnv) (tr : List BrgCall)
    (pFilterConf : Brg_CanFilterConfT) (filterNb : Nat) (filterIde : Brg_CanMsgIdT) :
    (cBrgExample.CanFilterDisable env tr pFilterConf filterNb filterIde).2.2 =
      tr ++ [BrgCall.InitFilterCAN
        (cBrgExample.CanFilterDisable env tr pFilterConf filterNb filterIde).2.1] ∧
    (cBrgExample.CanFilterDisable env tr pFilterConf filterNb filterIde).2.1 =
      { FilterBankNb := some filterNb, bIsFilterEn := some false,
        FilterMode := some CAN_FILTER_ID_LIST, FilterScale := some CAN_FILTER_32BIT,
        Id := fun _ => placeholderSlot filterIde,
        Mask := fun _ => placeholderSlot CAN_ID_STANDARD,
        AssignedFifo := some CAN_MSG_RX_FIFO0 } := by
  simp only [cBrgExample.CanFilterDisable, assignIdSlot_fold, assignMaskSlot_fold]
  exact ⟨trivial, trivial⟩

/-- The one descriptor `CanFilterDisable` passes on is fully assigned. -/
theorem CanFilterDisable_extends (env : BrgEnv) (tr : List BrgCall)
    (pFilterConf : Brg_CanFilterConfT) (filterNb : Nat) (filterIde : Brg_CanMsgIdT) :
    extendsWith fullyAssigned tr
      (cBrgExample.CanFilterDisable env tr pFilterConf filterNb filterIde).2.2 := by
  obtain ⟨h1, h2⟩ := CanFilterDisable_descriptor env tr pFilterConf filterNb filterIde
  rw [h1]
  apply extendsWith_call
  intro fc hfc
  injection hfc with hfc
  rw [← hfc, h2]
  exact ⟨⟨⟨filterIde, fun _ => rfl⟩, fun _ => rfl⟩, by simp [scalarsAssigned]⟩

/-- `CanTestLoopback` only adds calls, and every descriptor it passes to `InitFilterCAN`,
directly or through `CanFilterDisable`, is fully assigned. -/
theorem CanTestLoopback_extends (env : BrgEnv) (tr : List BrgCall) :
    extendsWith fullyAssigned tr (cBrgExample.CanTestLoopback env tr).2 := by
  have e1 : extendsWith fullyAssigned tr (tr ++ [BrgCall.StartMsgReceptionCAN]) :=
    extendsWith_call _ tr _ (by intro fc h; cases h)
  have estop : ∀ t, extendsWith fullyAssigned t (t ++ [BrgCall.StopMsgReceptionCAN]) :=
    fun t => extendsWith_call _ t _ (by intro fc h; cases h)
  simp only [cBrgExample.CanTestLoopback, assignIdSlot_fold, assignMaskSlot_fold]
  by_cases h0 : (env (tr ++ [BrgCall.StartMsgReceptionCAN])).status = BRG_NO_ERR
  · simp only [if_pos h0]
    have e2 := extendsWith_call fullyAssigned (tr ++ [BrgCall.StartMsgReceptionCAN])
      (BrgCall.InitFilterCAN
        { FilterBankNb := some 0, bIsFilterEn := some true,
          FilterMode := some CAN_FILTER_ID_MASK, FilterScale := some CAN_FILTER_32BIT,
          Id := fun _ => placeholderSlot CAN_ID_STANDARD,
          Mask := fun _ => placeholderSlot CAN_ID_STANDARD,
          AssignedFifo := some CAN_MSG_RX_FIFO0 })
      (by
        intro fc hfc
        injection hfc with hfc
        rw [← hfc]
        exact ⟨⟨⟨CAN_ID_STANDARD, fun _ => rfl⟩, fun _ => rfl⟩, by simp [scalarsAssigned]⟩)
    have e3 := loopbackLoop_extends fullyAssigned env 500 0
      (env (tr ++ [BrgCall.StartMsgReceptionCAN] ++ [BrgCall.InitFilterCAN
        { FilterBankNb := some 0, bIsFilterEn := some true,
          FilterMode := some CAN_FILTER_ID_MASK, FilterScale := some CAN_FILTER_32BIT,
          Id := fun _ => placeholderSlot CAN_ID_STANDARD,
          Mask := fun _ => placeholderSlot CAN_ID_STANDARD,
          AssignedFifo := some CAN_MSG_RX_FIFO0 }])).status
      (tr ++ [BrgCall.StartMsgReceptionCAN] ++ [BrgCall.InitFilterCAN
        { FilterBankNb := some 0, bIsFilterEn := some true,
          FilterMode := some CAN_FILTER_ID_MASK, FilterScale := some CAN_FILTER_32BIT,
          Id := fun _ => placeholderSlot CAN_ID_STANDARD,
          Mask := fun _ => placeholderSlot CAN_ID_STANDARD,
          AssignedFifo := some CAN_MSG_RX_FIFO0 }])
    have e123 := extendsWith_trans _ _ _ _ (extendsWith_trans _ _ _ _ e1 e2) e3
    clear e2 e3
    generalize loopbackLoop env 500 0 _ _ = L at e123 ⊢
    by_cases hl : L.1 = BRG_NO_ERR
    · simp only [if_pos hl]
      have e4 := extendsWith_trans _ _ _ _ e123
        (CanFilterDisable_extends env L.2
          { FilterBankNb := some 0, bIsFilterEn := some true,
            FilterMode := some CAN_FILTER_ID_MASK, FilterScale := some CAN_FILTER_32BIT,
            Id := fun _ => placeholderSlot CAN_ID_STANDARD,
            Mask := fun _ => placeholderSlot CAN_ID_STANDARD,
            AssignedFifo := some CAN_MSG_RX_FIFO0 } 0 CAN_ID_STANDARD)
      split_ifs <;> exact extendsWith_trans _ _ _ _ e4 (estop _)
    · simp only [if_neg hl]
      exact extendsWith_trans _ _ _ _ e123 (estop _)
  · simp only [if_neg h0]
    exact extendsWith_trans _ _ _ _ e1 (estop _)

/-- C10: every filter descriptor the example program hands to `InitFilterCAN` has
all four `Id` slots and both `Mask` slots assigned a placeholder (identifier 0,
data frame, an identifier format), the slots its mode and scale leave unused
included.  `CanFilterDisable` makes exactly one call, `InitFilterCAN`, and whatever
descriptor it is given (even one with no field assigned), whatever `filterNb` and
`filterIde`, the descriptor it passes is the 32-bit list-mode descriptor whose four
`Id` slots are the placeholder of format `filterIde` and whose two `Mask` slots are
the standard-format placeholder.  `CanTestLoopback`, whatever the bridge answers,
only adds calls, and each descriptor it or its callee `CanFilterDisable` passes to
`InitFilterCAN` has all six slots and all scalar fields assigned that way. -/
theorem C10_filter_slots_all_assigned (env : BrgEnv) (tr : List BrgCall)
    (pFilterConf : Brg_CanFilterConfT) (filterNb : Nat) (filterIde : Brg_CanMsgIdT) :
    ((cBrgExample.CanFilterDisable env tr pFilterConf filterNb filterIde).2.2 =
        tr ++ [BrgCall.InitFilterCAN
          (cBrgExample.CanFilterDisable env tr pFilterConf filterNb filterIde).2.1] ∧
      (cBrgExample.CanFilterDisable env tr pFilterConf filterNb filterIde).2.1 =
        { FilterBankNb := some filterNb, bIsFilterEn := some false,
          FilterMode := some CAN_FILTER_ID_LIST, FilterScale := some CAN_FILTER_32BIT,
          Id := fun _ => ⟨some CAN_DATA_FRAME, some filterIde, some 0⟩,
          Mask := fun _ => ⟨some CAN_DATA_FRAME, some CAN_ID_STANDARD, some 0⟩,
          AssignedFifo := some CAN_MSG_RX_FIFO0 }) ∧
    (∃ new, (cBrgExample.CanTestLoopback env tr).2 = tr ++ new ∧
      ∀ fc ∈ initFilterArgs new,
        ((∃ ide, ∀ i, fc.Id i = ⟨some CAN_DATA_FRAME, some ide, some 0⟩) ∧
          ∀ j, fc.Mask j = ⟨some CAN_DATA_FRAME, some CAN_ID_STANDARD, some 0⟩) ∧
        (fc.FilterBankNb.isSome ∧ fc.bIsFilterEn.isSome ∧ fc.FilterMode.isSome ∧
          fc.FilterScale.isSome ∧ fc.AssignedFifo.isSome)) :=
  ⟨CanFilterDisable_descriptor env tr pFilterConf filterNb filterIde,
    CanTestLoopback_extends env tr⟩

/-- Witness for C10: `CanFilterDisable` applied to the descriptor with no field
assigned, for filter bank 3 and the extended format, passes a descriptor whose
slots are all assigned; and against the bridge that answers everything with
`BRG_NO_ERR` and never delivers a message, `CanTestLoopback` makes exactly one
`InitFilterCAN` call. -/
theorem C10_filter_slots_witness :
    (∀ i, (cBrgExample.CanFilterDisable okEnv [] unassignedFilterConf 3
        CAN_ID_EXTENDED).2.1.Id i = ⟨some CAN_DATA_FRAME, some CAN_ID_EXTENDED, some 0⟩) ∧
    (initFilterArgs (cBrgExample.CanTestLoopback okEnv []).2).length = 1 := by
  refine ⟨?_, by decide⟩
  intro i
  rw [(C10_filter_slots_all_assigned okEnv [] unassignedFilterConf 3 CAN_ID_EXTENDED).1.2]

/-- Whenever `SendCommand` reaches the driver, the timeout it passes is the explicit
one or the default, and its status is the image of the driver word. -/
theorem SendCommand_of_driverCall (K : DriverConsts) (ifc : STLinkInterface)
    (pHandle : Option Nat) (StlinkIdTcp : Nat) (pDevReq : Option STLink_DeviceRequestT)
    (UsbTimeoutMs : Nat) (ret : DriverStatus) (c : DriverSend)
    (h : (ifc.SendCommand K pHandle StlinkIdTcp pDevReq UsbTimeoutMs ret).driverCall = some c) :
    c.usbTimeout = (if UsbTimeoutMs ≠ 0 then UsbTimeoutMs else K.DEFAULT_TIMEOUT) ∧
    (ifc.SendCommand K pHandle StlinkIdTcp pDevReq UsbTimeoutMs ret).status
      = sendCommandStatus ret ∧
    pDevReq ≠ none ∧ ifc.m_bApiDllLoaded = true := by
  cases pDevReq with
  | none => simp [STLinkInterface.SendCommand] at h
  | some req =>
    simp only [STLinkInterface.SendCommand, STLinkInterface.IsLibraryLoaded] at h ⊢
    split_ifs at h ⊢ <;> simp at h <;> subst h <;> simp_all [DriverSend.usbTimeout]

/-- Without a driver call the status of `SendCommand` is not `STLINKIF_NO_ERR`. -/
theorem SendCommand_no_call_status (K : DriverConsts) (ifc : STLinkInterface)
    (pHandle : Option Nat) (StlinkIdTcp : Nat) (pDevReq : Option STLink_DeviceRequestT)
    (UsbTimeoutMs : Nat) (ret : DriverStatus)
    (h : (ifc.SendCommand K pHandle StlinkIdTcp pDevReq UsbTimeoutMs ret).driverCall = none) :
    (ifc.SendCommand K pHandle StlinkIdTcp pDevReq UsbTimeoutMs ret).status
      ≠ STLINKIF_NO_ERR := by
  cases pDevReq with
  | none => simp [STLinkInterface.SendCommand]
  | some req =>
    simp only [STLinkInterface.SendCommand, STLinkInterface.IsLibraryLoaded] at h ⊢
    split_ifs at h ⊢ <;> simp_all

/-- C13: `STLinkInterface::SendCommand` bounds every driver call by a timeout and
maps the driver outcome to a status.  Every driver call it makes carries
`UsbTimeoutMs` when that is not 0 and `DEFAULT_TIMEOUT` when it is 0.  It returns
`STLINKIF_NO_ERR` if and only if the request is non-null, the library is loaded, the
driver call was made and the driver returned `SS_OK`.  When the driver was called,
`SS_TCP_BUSY` gives `STLINKIF_TCP_BUSY` and every other word except `SS_OK` gives
`STLINKIF_USB_COMM_ERR`.  A null request gives `STLINKIF_PARAM_ERR`, and a non-null
request with the library not loaded gives `STLINKIF_DLL_ERR`, both without a driver
call. -/
theorem C13_sendCommand_timeout_and_status (K : DriverConsts) (ifc : STLinkInterface)
    (pHandle : Option Nat) (StlinkIdTcp : Nat) (pDevReq : Option STLink_DeviceRequestT)
    (UsbTimeoutMs : Nat) (ret : DriverStatus) :
    (∀ c, (ifc.SendCommand K pHandle StlinkIdTcp pDevReq UsbTimeoutMs ret).driverCall = some c →
      (UsbTimeoutMs ≠ 0 → c.usbTimeout = UsbTimeoutMs) ∧
      (UsbTimeoutMs = 0 → c.usbTimeout = K.DEFAULT_TIMEOUT)) ∧
    ((ifc.SendCommand K pHandle StlinkIdTcp pDevReq UsbTimeoutMs ret).status = STLINKIF_NO_ERR ↔
      pDevReq ≠ none ∧ ifc.m_bApiDllLoaded = true ∧
      (ifc.SendCommand K pHandle StlinkIdTcp pDevReq UsbTimeoutMs ret).driverCall ≠ none ∧
      ret = SS_OK) ∧
    ((ifc.SendCommand K pHandle StlinkIdTcp pDevReq UsbTimeoutMs ret).driverCall ≠ none →
      ret = SS_TCP_BUSY →
      (ifc.SendCommand K pHandle StlinkIdTcp pDevReq UsbTimeoutMs ret).status
        = STLINKIF_TCP_BUSY) ∧
    ((ifc.SendCommand K pHandle StlinkIdTcp pDevReq UsbTimeoutMs ret).driverCall ≠ none →
      ret ≠ SS_OK → ret ≠ SS_TCP_BUSY →
      (ifc.SendCommand K pHandle StlinkIdTcp pDevReq UsbTimeoutMs ret).status
        = STLINKIF_USB_COMM_ERR) ∧
    ifc.SendCommand K pHandle StlinkIdTcp none UsbTimeoutMs ret = ⟨STLINKIF_PARAM_ERR, none⟩ ∧
    (pDevReq ≠ none → ifc.m_bApiDllLoaded = false →
      ifc.SendCommand K pHandle StlinkIdTcp pDevReq UsbTimeoutMs ret
        = ⟨STLINKIF_DLL_ERR, none⟩) := by
  refine ⟨?_, ?_, ?_, ?_, rfl, ?_⟩
  · intro c hc
    have h := (SendCommand_of_driverCall K ifc pHandle StlinkIdTcp pDevReq UsbTimeoutMs ret c hc).1
    constructor
    · intro hne
      rw [h, if_pos hne]
    · intro h0
      rw [h, if_neg (by simpa using h0)]
  · constructor
    · intro hs
      cases hcall : (ifc.SendCommand K pHandle StlinkIdTcp pDevReq UsbTimeoutMs ret).driverCall with
      | none =>
        exact absurd hs
          (SendCommand_no_call_status K ifc pHandle StlinkIdTcp pDevReq UsbTimeoutMs ret hcall)
      | some c =>
        obtain ⟨_, h2, h3, h4⟩ :=
          SendCommand_of_driverCall K ifc pHandle StlinkIdTcp pDevReq UsbTimeoutMs ret c hcall
        refine ⟨h3, h4, by simp, ?_⟩
        rw [h2] at hs
        simp only [sendCommandStatus] at hs
        split_ifs at hs
        simp_all
    · rintro ⟨_, _, hcall, hret⟩
      obtain ⟨c, hc⟩ := Option.ne_none_iff_exists'.mp hcall
      rw [(SendCommand_of_driverCall K ifc pHandle StlinkIdTcp pDevReq UsbTimeoutMs ret c hc).2.1,
        hret]
      rfl
  · intro hcall hret
    obtain ⟨c, hc⟩ := Option.ne_none_iff_exists'.mp hcall
    rw [(SendCommand_of_driverCall K ifc pHandle StlinkIdTcp pDevReq UsbTimeoutMs ret c hc).2.1,
      hret]
    rfl
  · intro hcall h1 h2
    obtain ⟨c, hc⟩ := Option.ne_none_iff_exists'.mp hcall
    rw [(SendCommand_of_driverCall K ifc pHandle StlinkIdTcp pDevReq UsbTimeoutMs ret c hc).2.1]
    simp [sendCommandStatus, h1, h2]
  · intro hreq hload
    cases pDevReq with
    | none => exact absurd rfl hreq
    | some req => simp [STLinkInterface.SendCommand, STLinkInterface.IsLibraryLoaded, hload]

/-- Witness for C13: on the loaded bridge interface a request with timeout 0 reaches
the driver with the default timeout and a busy driver gives `STLINKIF_TCP_BUSY`;
with timeout 250 the driver gets 250. -/
theorem C13_sendCommand_witness :
    (bridgeInterface.SendCommand sampleConsts (some 1) 0 (some {}) 0 SS_TCP_BUSY)
      = ⟨STLINKIF_TCP_BUSY, some (.STLink_SendCommand (some 1) 5000)⟩ ∧
    (∀ c, (bridgeInterface.SendCommand sampleConsts (some 1) 0 (some {}) 250 SS_OK).driverCall
        = some c → c.usbTimeout = 250) :=
  ⟨by decide, fun c hc =>
    ((C13_sendCommand_timeout_and_status sampleConsts bridgeInterface (some 1) 0 (some {}) 250
      SS_OK).1 c hc).1 (by decide)⟩

/-- C14, counterexample: on a connected device bound to a COM-port interface
`SendRequest` returns `STLINKIF_NOT_SUPPORTED`, which is none of the five statuses
its documentation lists. -/
theorem C14_sendRequest_sixth_status :
    (comPortDevice.SendRequest sampleConsts (some {}) 0 SS_OK).status
      = STLINKIF_NOT_SUPPORTED ∧
    ¬ ((comPortDevice.SendRequest sampleConsts (some {}) 0 SS_OK).status
          = STLINKIF_USB_COMM_ERR ∨
        (comPortDevice.SendRequest sampleConsts (some {}) 0 SS_OK).status
          = STLINKIF_PARAM_ERR ∨
        (comPortDevice.SendRequest sampleConsts (some {}) 0 SS_OK).status
          = STLINKIF_NO_STLINK ∨
        (comPortDevice.SendRequest sampleConsts (some {}) 0 SS_OK).status
          = STLINKIF_DLL_ERR ∨
        (comPortDevice.SendRequest sampleConsts (some {}) 0 SS_OK).status
          = STLINKIF_NO_ERR) := by
  decide

/-- C14, amended: for every request, connection state and interface kind
`SendRequest` returns one of six statuses, the five its documentation lists or
`STLINKIF_NOT_SUPPORTED`, the latter only for a non-null request on a connected
device bound to a COM-port interface; and it returns `STLINKIF_NO_ERR` exactly when
`SendCommand` was called and returned `STLINKIF_NO_ERR`. -/
theorem C14_sendRequest_statuses (K : DriverConsts) (dev : StlinkDevice)
    (pDevReq : Option STLink_DeviceRequestT) (t : Nat) (ret : DriverStatus) :
    ((dev.SendRequest K pDevReq t ret).status = STLINKIF_USB_COMM_ERR ∨
      (dev.SendRequest K pDevReq t ret).status = STLINKIF_PARAM_ERR ∨
      (dev.SendRequest K pDevReq t ret).status = STLINKIF_NO_STLINK ∨
      (dev.SendRequest K pDevReq t ret).status = STLINKIF_DLL_ERR ∨
      (dev.SendRequest K pDevReq t ret).status = STLINKIF_NO_ERR ∨
      (dev.SendRequest K pDevReq t ret).status = STLINKIF_NOT_SUPPORTED) ∧
    ((dev.SendRequest K pDevReq t ret).status = STLINKIF_NOT_SUPPORTED →
      pDevReq ≠ none ∧ dev.m_bStlinkConnected = true ∧
      ∃ ifc, dev.m_pStlinkInterface = some ifc ∧
        (ifc.m_ifId = STLINK_COM_PORT_DBG ∨ ifc.m_ifId = STLINK_COM_PORT_PWR)) ∧
    ((dev.SendRequest K pDevReq t ret).status = STLINKIF_NO_ERR ↔
      ∃ r, (dev.SendRequest K pDevReq t ret).sendCommand = some r ∧
        r.status = STLINKIF_NO_ERR) := by
  cases pDevReq with
  | none => simp [StlinkDevice.SendRequest]
  | some req =>
    cases hc : dev.m_bStlinkConnected with
    | false => simp [StlinkDevice.SendRequest, hc]
    | true =>
      cases hi : dev.m_pStlinkInterface with
      | none => simp [StlinkDevice.SendRequest, hc, hi]
      | some ifc =>
        by_cases hcom : ifc.m_ifId = STLINK_COM_PORT_DBG ∨ ifc.m_ifId = STLINK_COM_PORT_PWR
        · simp [StlinkDevice.SendRequest, hc, hi, STLinkInterface.GetIfId, hcom]
        · by_cases hs : (ifc.SendCommand K dev.m_handle dev.m_deviceIdTcp (some req) t
              ret).status = STLINKIF_NO_ERR
          · simp [StlinkDevice.SendRequest, hc, hi, STLinkInterface.GetIfId, hcom, hs]
          · simp [StlinkDevice.SendRequest, hc, hi, STLinkInterface.GetIfId, hcom, hs]

/-- On a loaded and enumerated interface other than the shared-mode one,
`OpenDevice` refuses an instance id that is negative or not below the device
count with `STLINKIF_PARAM_ERR`. -/
theorem OpenDevice_wrong_id (K : DriverConsts) (ifc : STLinkInterface) (StlinkInstId : Int)
    (StlinkIdTcp : Nat) (excl : Bool) (pHandle : Option Nat) (d : EnumReplies)
    (o : OpenReplies) (hl : ifc.m_bApiDllLoaded = true)
    (he : ifc.m_bDevInterfaceEnumerated = true) (ht : ifc.m_ifId ≠ STLINK_TCP)
    (hid : StlinkInstId < 0 ∨ ifc.m_nbEnumDevices ≤ StlinkInstId.toNat) :
    (ifc.OpenDevice K StlinkInstId StlinkIdTcp excl pHandle d o).status
      = STLINKIF_PARAM_ERR := by
  simp [STLinkInterface.OpenDevice, STLinkInterface.IsLibraryLoaded,
    STLinkInterface.EnumDevicesIfRequired, hl, he, ht, hid]

/-- C15: `StlinkDevice::OpenStlink(StlinkInstId, StlinkIdTcp)`.  With no interface
bound it returns `STLINKIF_DLL_ERR`, and on a COM-port interface
`STLINKIF_NOT_SUPPORTED`, in both cases with the device unchanged and no call of
`OpenDevice`.  Otherwise, on a device that is not connected it calls `OpenDevice`
once, and whenever `OpenDevice` returns a status other than `STLINKIF_NO_ERR`, as it
does for a wrong instance id and for a failure reported by the driver, it returns
`STLINKIF_CONNECT_ERR`, makes no further call and leaves the device not connected;
and on a device that is already connected it returns `STLINKIF_NO_ERR` with the
device unchanged and no call at all. -/
theorem C15_openStlink_errors (K : DriverConsts) (F : FwConsts) (dev : StlinkDevice)
    (StlinkInstId : Int) (StlinkIdTcp : Nat) (d : DriverReplies) :
    (dev.m_pStlinkInterface = none →
      dev.OpenStlink K F StlinkInstId StlinkIdTcp d = ⟨STLINKIF_DLL_ERR, dev, []⟩) ∧
    (∀ ifc, dev.m_pStlinkInterface = some ifc →
      (ifc.m_ifId = STLINK_COM_PORT_DBG ∨ ifc.m_ifId = STLINK_COM_PORT_PWR) →
      dev.OpenStlink K F StlinkInstId StlinkIdTcp d = ⟨STLINKIF_NOT_SUPPORTED, dev, []⟩) ∧
    (∀ ifc, dev.m_pStlinkInterface = some ifc →
      ¬ (ifc.m_ifId = STLINK_COM_PORT_DBG ∨ ifc.m_ifId = STLINK_COM_PORT_PWR) →
      dev.m_bStlinkConnected = false →
      (ifc.OpenDevice K StlinkInstId StlinkIdTcp dev.m_bOpenExclusive dev.m_handle
        d.enumR d.openR).status ≠ STLINKIF_NO_ERR →
      (dev.OpenStlink K F StlinkInstId StlinkIdTcp d).status = STLINKIF_CONNECT_ERR ∧
      (dev.OpenStlink K F StlinkInstId StlinkIdTcp d).dev.m_bStlinkConnected = false ∧
      (dev.OpenStlink K F StlinkInstId StlinkIdTcp d).calls =
        [IfCall.OpenDevice StlinkInstId StlinkIdTcp dev.m_bOpenExclusive]) ∧
    (∀ ifc, dev.m_pStlinkInterface = some ifc →
      ¬ (ifc.m_ifId = STLINK_COM_PORT_DBG ∨ ifc.m_ifId = STLINK_COM_PORT_PWR) →
      dev.m_bStlinkConnected = false →
      ifc.m_bApiDllLoaded = true → ifc.m_bDevInterfaceEnumerated = true →
      ifc.m_ifId ≠ STLINK_TCP →
      (StlinkInstId < 0 ∨ ifc.m_nbEnumDevices ≤ StlinkInstId.toNat) →
      (dev.OpenStlink K F StlinkInstId StlinkIdTcp d).status = STLINKIF_CONNECT_ERR) ∧
    (∀ ifc, dev.m_pStlinkInterface = some ifc →
      ¬ (ifc.m_ifId = STLINK_COM_PORT_DBG ∨ ifc.m_ifId = STLINK_COM_PORT_PWR) →
      dev.m_bStlinkConnected = true →
      dev.OpenStlink K F StlinkInstId StlinkIdTcp d = ⟨STLINKIF_NO_ERR, dev, []⟩) := by
  have key : ∀ ifc, dev.m_pStlinkInterface = some ifc →
      ¬ (ifc.m_ifId = STLINK_COM_PORT_DBG ∨ ifc.m_ifId = STLINK_COM_PORT_PWR) →
      dev.m_bStlinkConnected = false →
      (ifc.OpenDevice K StlinkInstId StlinkIdTcp dev.m_bOpenExclusive dev.m_handle
        d.enumR d.openR).status ≠ STLINKIF_NO_ERR →
      (dev.OpenStlink K F StlinkInstId StlinkIdTcp d).status = STLINKIF_CONNECT_ERR ∧
      (dev.OpenStlink K F StlinkInstId StlinkIdTcp d).dev.m_bStlinkConnected = false ∧
      (dev.OpenStlink K F StlinkInstId StlinkIdTcp d).calls =
        [IfCall.OpenDevice StlinkInstId StlinkIdTcp dev.m_bOpenExclusive] := by
    intro ifc hi hcom hc ho
    simp only [StlinkDevice.OpenStlink, hi, STLinkInterface.GetIfId, if_neg hcom, hc, if_true,
      if_pos ho]
    exact ⟨trivial, trivial, trivial⟩
  refine ⟨?_, ?_, key, ?_, ?_⟩
  · intro hi
    simp [StlinkDevice.OpenStlink, hi]
  · intro ifc hi hcom
    simp [StlinkDevice.OpenStlink, hi, STLinkInterface.GetIfId, hcom]
  · intro ifc hi hcom hc hl he ht hid
    refine (key ifc hi hcom hc ?_).1
    rw [OpenDevice_wrong_id K ifc StlinkInstId StlinkIdTcp _ _ _ _ hl he ht hid]
    decide
  · intro ifc hi hcom hc
    simp [StlinkDevice.OpenStlink, hi, STLinkInterface.GetIfId, hcom, hc]

/-- Witness for C15: on the bridge interface with two devices, opening instance 5,
or opening instance 0 when the driver fails to open it, returns
`STLINKIF_CONNECT_ERR` and leaves the device not connected; opening the connected
device again returns `STLINKIF_NO_ERR` without a call. -/
theorem C15_openStlink_witness :
    (idleBridgeDevice.OpenStlink sampleConsts sampleFw 5 0 okDriver).status
      = STLINKIF_CONNECT_ERR ∧
    ((idleBridgeDevice.OpenStlink sampleConsts sampleFw 0 0 failingOpenDriver).status
        = STLINKIF_CONNECT_ERR ∧
      (idleBridgeDevice.OpenStlink sampleConsts sampleFw 0 0
        failingOpenDriver).dev.m_bStlinkConnected = false ∧
      (idleBridgeDevice.OpenStlink sampleConsts sampleFw 0 0 failingOpenDriver).calls
        = [IfCall.OpenDevice 0 0 false]) ∧
    bridgeDevice.OpenStlink sampleConsts sampleFw 0 0 okDriver
      = ⟨STLINKIF_NO_ERR, bridgeDevice, []⟩ :=
  ⟨(C15_openStlink_errors sampleConsts sampleFw idleBridgeDevice 5 0 okDriver).2.2.2.1
      bridgeInterface rfl (by decide) rfl rfl rfl (by decide) (by decide),
    (C15_openStlink_errors sampleConsts sampleFw idleBridgeDevice 0 0 failingOpenDriver).2.2.1
      bridgeInterface rfl (by decide) rfl (by decide),
    (C15_openStlink_errors sampleConsts sampleFw bridgeDevice 0 0 okDriver).2.2.2.2
      bridgeInterface rfl (by decide) rfl⟩

/-- C16: `StlinkDevice::CloseStlink`.  With a bound interface it returns
`STLINKIF_NO_ERR` and leaves the device not connected and still bound, whatever the
driver answers to the close, and it calls `CloseDevice` at most once and nothing
else.  On a device that is not connected it returns `STLINKIF_NO_ERR`, changes
nothing and makes no call.  Hence closing twice leaves the device as closing once
does, and the second close makes no call. -/
theorem C16_closeStlink_idempotent (K : DriverConsts) (dev : StlinkDevice)
    (c c2 : DriverStatus) :
    (dev.m_pStlinkInterface ≠ none →
      (dev.CloseStlink K c).status = STLINKIF_NO_ERR ∧
      (dev.CloseStlink K c).dev.m_bStlinkConnected = false ∧
      (dev.CloseStlink K c).dev.m_pStlinkInterface ≠ none ∧
      ((dev.CloseStlink K c).calls = [] ∨
        (dev.CloseStlink K c).calls = [IfCall.CloseDevice dev.m_handle dev.m_deviceIdTcp])) ∧
    (dev.m_bStlinkConnected = false → dev.CloseStlink K c = ⟨STLINKIF_NO_ERR, dev, []⟩) ∧
    (dev.m_pStlinkInterface ≠ none →
      (dev.CloseStlink K c).dev.CloseStlink K c2
        = ⟨STLINKIF_NO_ERR, (dev.CloseStlink K c).dev, []⟩) := by
  have h1 : dev.m_pStlinkInterface ≠ none →
      (dev.CloseStlink K c).status = STLINKIF_NO_ERR ∧
      (dev.CloseStlink K c).dev.m_bStlinkConnected = false ∧
      (dev.CloseStlink K c).dev.m_pStlinkInterface ≠ none ∧
      ((dev.CloseStlink K c).calls = [] ∨
        (dev.CloseStlink K c).calls = [IfCall.CloseDevice dev.m_handle dev.m_deviceIdTcp]) := by
    intro hb
    cases hi : dev.m_pStlinkInterface with
    | none => exact absurd hi hb
    | some ifc =>
      cases hc : dev.m_bStlinkConnected with
      | false => simp [StlinkDevice.CloseStlink, hc, hi]
      | true =>
        simp only [StlinkDevice.CloseStlink, hc, hi, if_true]
        split_ifs <;> simp
  have h2 : ∀ (dv : StlinkDevice) (x : DriverStatus), dv.m_bStlinkConnected = false →
      dv.CloseStlink K x = ⟨STLINKIF_NO_ERR, dv, []⟩ := by
    intro dv x hc
    simp [StlinkDevice.CloseStlink, hc]
  exact ⟨h1, h2 dev c, fun hb => h2 _ c2 (h1 hb).2.1⟩

/-- Witness for C16: closing the connected bridge device while the driver reports
a failure still returns `STLINKIF_NO_ERR`, with one `CloseDevice` call, and leaves
the device not connected; a second close makes no call. -/
theorem C16_closeStlink_witness :
    ((bridgeDevice.CloseStlink sampleConsts (SS_OTHER 4099)).status = STLINKIF_NO_ERR ∧
      (bridgeDevice.CloseStlink sampleConsts (SS_OTHER 4099)).dev.m_bStlinkConnected = false ∧
      (bridgeDevice.CloseStlink sampleConsts (SS_OTHER 4099)).calls
        = [IfCall.CloseDevice (some 1) 0]) ∧
    ((bridgeDevice.CloseStlink sampleConsts (SS_OTHER 4099)).dev.CloseStlink sampleConsts
      SS_OK).calls = [] := by
  have h := C16_closeStlink_idempotent sampleConsts bridgeDevice (SS_OTHER 4099) SS_OK
  refine ⟨⟨(h.1 (by decide)).1, (h.1 (by decide)).2.1, by decide⟩, ?_⟩
  rw [h.2.2 (by decide)]

/-- The four outcomes of the tail of `EnumDevices`, read off the status word and
the device count. -/
theorem enumDevicesTail_cases (ifc : STLinkInterface) (status : DriverStatus) (n : Nat) :
    ((enumDevicesTail ifc status (some n)).status = STLINKIF_NO_ERR ↔
      status = SS_OK ∧ ifc.m_nbEnumDevices ≠ 0) ∧
    ((enumDevicesTail ifc status (some n)).status = STLINKIF_NO_ERR →
      (enumDevicesTail ifc status (some n)).numDevices = some ifc.m_nbEnumDevices ∧
      (enumDevicesTail ifc status (some n)).ifc.m_nbEnumDevices = ifc.m_nbEnumDevices ∧
      (enumDevicesTail ifc status (some n)).ifc.m_bDevInterfaceEnumerated = true) ∧
    ((enumDevicesTail ifc status (some n)).status = STLINKIF_PERMISSION_ERR →
      (enumDevicesTail ifc status (some n)).numDevices = some ifc.m_nbEnumDevices ∧
      ifc.m_nbEnumDevices ≠ 0) ∧
    ((enumDevicesTail ifc status (some n)).status = STLINKIF_DLL_ERR ∨
        (enumDevicesTail ifc status (some n)).status = STLINKIF_NO_STLINK →
      (enumDevicesTail ifc status (some n)).numDevices = some n) ∧
    (enumDevicesTail ifc status (some n)).status ≠ STLINKIF_NOT_SUPPORTED := by
  simp only [enumDevicesTail]
  split_ifs <;> simp_all

/-- C19: `STLinkInterface::EnumDevices` with a non-null `pNumDevices`.  It returns
`STLINKIF_NO_ERR` if and only if the library is loaded, the status word of the
enumeration (the word `STLink_Reenumerate` returns with the current driver API; the
legacy API has none) is `SS_OK`, and the driver counts at least one device; then
`*pNumDevices` is that count, the interface holds it and is marked as enumerated.
When it returns `STLINKIF_PERMISSION_ERR`, `*pNumDevices` is the device count and
that count is not 0.  When it returns `STLINKIF_DLL_ERR` or `STLINKIF_NO_STLINK`,
`*pNumDevices` is 0. -/
theorem C19_enumDevices_count (K : DriverConsts) (ifc : STLinkInterface) (n : Nat)
    (bClearList : Bool) (d : EnumReplies) :
    ((ifc.EnumDevices K (some n) bClearList d).status = STLINKIF_NO_ERR ↔
      ifc.m_bApiDllLoaded = true ∧
      (K.STLINK_LIB_API_VERSION_MIN_FOR_TCP ≤ ifc.m_libApiVer → d.reenumerate = SS_OK) ∧
      d.nbDevices ≠ 0) ∧
    ((ifc.EnumDevices K (some n) bClearList d).status = STLINKIF_NO_ERR →
      (ifc.EnumDevices K (some n) bClearList d).numDevices = some d.nbDevices ∧
      (ifc.EnumDevices K (some n) bClearList d).ifc.m_nbEnumDevices = d.nbDevices ∧
      (ifc.EnumDevices K (some n) bClearList d).ifc.m_bDevInterfaceEnumerated = true) ∧
    ((ifc.EnumDevices K (some n) bClearList d).status = STLINKIF_PERMISSION_ERR →
      (ifc.EnumDevices K (some n) bClearList d).numDevices = some d.nbDevices ∧
      d.nbDevices ≠ 0) ∧
    ((ifc.EnumDevices K (some n) bClearList d).status = STLINKIF_DLL_ERR ∨
        (ifc.EnumDevices K (some n) bClearList d).status = STLINKIF_NO_STLINK →
      (ifc.EnumDevices K (some n) bClearList d).numDevices = some 0) := by
  rcases Bool.eq_false_or_eq_true ifc.m_bApiDllLoaded with hl | hl
  · by_cases hv : K.STLINK_LIB_API_VERSION_MIN_FOR_TCP ≤ ifc.m_libApiVer
    · by_cases ht : d.reenumerate = SS_TCP_ERROR ∨ d.reenumerate = SS_TCP_CANT_CONNECT
      · have hne : d.reenumerate ≠ SS_OK := by
          rcases ht with h | h <;> rw [h] <;> decide
        simp [STLinkInterface.EnumDevices, STLinkInterface.IsLibraryLoaded, hl, hv, ht, hne]
      · by_cases hs : d.reenumerate = SS_OK ∧ ifc.m_ifId = STLINK_TCP
        · have h1 : (if d.serverVersionStatus ≠ SS_OK then SS_OK else d.serverVersionStatus)
              = SS_OK := by
            split_ifs with h
            · rfl
            · exact not_not.mp h
          have heq : ifc.EnumDevices K (some n) bClearList d = enumDevicesTail
              { ifc with m_nbEnumDevices := d.nbDevices, m_tcpServerVer := d.serverVersion }
              SS_OK (some 0) := by
            simp only [STLinkInterface.EnumDevices, STLinkInterface.IsLibraryLoaded, hl, hv,
              if_true, if_neg ht, if_pos hs, h1, Option.map_some']
          obtain ⟨t1, t2, t3, t4, _⟩ := enumDevicesTail_cases
            { ifc with m_nbEnumDevices := d.nbDevices, m_tcpServerVer := d.serverVersion }
            SS_OK 0
          rw [heq]
          exact ⟨⟨fun h => ⟨hl, fun _ => hs.1, (t1.mp h).2⟩, fun h => t1.mpr ⟨rfl, h.2.2⟩⟩,
            t2, t3, t4⟩
        · have heq : ifc.EnumDevices K (some n) bClearList d = enumDevicesTail
              { ifc with m_nbEnumDevices := d.nbDevices, m_tcpServerVer := {} }
              d.reenumerate (some 0) := by
            simp only [STLinkInterface.EnumDevices, STLinkInterface.IsLibraryLoaded, hl, hv,
              if_true, if_neg ht, if_neg hs, Option.map_some']
          obtain ⟨t1, t2, t3, t4, _⟩ := enumDevicesTail_cases
            { ifc with m_nbEnumDevices := d.nbDevices, m_tcpServerVer := {} } d.reenumerate 0
          rw [heq]
          exact ⟨⟨fun h => ⟨hl, fun _ => (t1.mp h).1, (t1.mp h).2⟩,
            fun h => t1.mpr ⟨h.2.1 hv, h.2.2⟩⟩, t2, t3, t4⟩
    · have heq : ifc.EnumDevices K (some n) bClearList d = enumDevicesTail
          { ifc with m_nbEnumDevices := d.nbDevices } SS_OK (some 0) := by
        simp only [STLinkInterface.EnumDevices, STLinkInterface.IsLibraryLoaded, hl, if_true,
          if_neg hv, Option.map_some']
      obtain ⟨t1, t2, t3, t4, _⟩ := enumDevicesTail_cases
        { ifc with m_nbEnumDevices := d.nbDevices } SS_OK 0
      rw [heq]
      exact ⟨⟨fun h => ⟨hl, fun h0 => absurd h0 hv, (t1.mp h).2⟩,
        fun h => t1.mpr ⟨rfl, h.2.2⟩⟩, t2, t3, t4⟩
  · simp [STLinkInterface.EnumDevices, STLinkInterface.IsLibraryLoaded, hl]

/-- Witness for C19: on the loaded bridge interface an enumeration that finds two
devices returns `STLINKIF_NO_ERR` with `*pNumDevices = 2`; when one of them is
opened by another program it returns `STLINKIF_PERMISSION_ERR`, still with
`*pNumDevices = 2`. -/
theorem C19_enumDevices_witness :
    ((freshBridgeInterface.EnumDevices sampleConsts (some 7) false okEnum).numDevices = some 2 ∧
      (freshBridgeInterface.EnumDevices sampleConsts (some 7) false
        okEnum).ifc.m_nbEnumDevices = 2 ∧
      (freshBridgeInterface.EnumDevices sampleConsts (some 7) false
        okEnum).ifc.m_bDevInterfaceEnumerated = true) ∧
    ((freshBridgeInterface.EnumDevices sampleConsts (some 7) false permissionEnum).numDevices
        = some 2 ∧ permissionEnum.nbDevices ≠ 0) :=
  ⟨(C19_enumDevices_count sampleConsts freshBridgeInterface 7 false okEnum).2.1 (by decide),
    (C19_enumDevices_count sampleConsts freshBridgeInterface 7 false permissionEnum).2.2.1
      (by decide)⟩

/-- `EnumDevices` never returns `STLINKIF_NOT_SUPPORTED`: the initial value of its
local `ifStatus` is overwritten on every path. -/
theorem EnumDevices_never_not_supported (K : DriverConsts) (ifc : STLinkInterface)
    (pNumDevices : Option Nat) (bClearList : Bool) (d : EnumReplies) :
    (ifc.EnumDevices K pNumDevices bClearList d).status ≠ STLINKIF_NOT_SUPPORTED := by
  simp only [STLinkInterface.EnumDevices, enumDevicesTail]
  split_ifs <;> simp

/-- C20, the code at the failing input: when the library is loaded with the
current driver API and the re-enumeration reports `SS_BAD_PARAMETER` (library too
old for the interface), `EnumDevices` returns `STLINKIF_DLL_ERR`, not
`STLINKIF_NOT_SUPPORTED`, marks the library as not loaded and leaves
`*pNumDevices` at 0. -/
theorem C20_enumDevices_too_old_library (K : DriverConsts) (ifc : STLinkInterface)
    (pNumDevices : Option Nat) (bClearList : Bool) (d : EnumReplies)
    (hl : ifc.m_bApiDllLoaded = true)
    (hv : K.STLINK_LIB_API_VERSION_MIN_FOR_TCP ≤ ifc.m_libApiVer)
    (hd : d.reenumerate = SS_BAD_PARAMETER) :
    (ifc.EnumDevices K pNumDevices bClearList d).status = STLINKIF_DLL_ERR ∧
    (ifc.EnumDevices K pNumDevices bClearList d).status ≠ STLINKIF_NOT_SUPPORTED ∧
    (ifc.EnumDevices K pNumDevices bClearList d).ifc.m_bApiDllLoaded = false ∧
    (ifc.EnumDevices K pNumDevices bClearList d).numDevices = pNumDevices.map fun _ => 0 := by
  simp [STLinkInterface.EnumDevices, STLinkInterface.IsLibraryLoaded, enumDevicesTail, hl, hv,
    hd]

/-- C20 at a concrete input: the loaded bridge interface and a driver that answers
the re-enumeration with `SS_BAD_PARAMETER`. -/
theorem C20_enumDevices_too_old_witness :
    (freshBridgeInterface.EnumDevices sampleConsts (some 7) false tooOldEnum).status
      = STLINKIF_DLL_ERR ∧
    (freshBridgeInterface.EnumDevices sampleConsts (some 7) false tooOldEnum).status
      ≠ STLINKIF_NOT_SUPPORTED :=
  ⟨(C20_enumDevices_too_old_library sampleConsts freshBridgeInterface (some 7) false tooOldEnum
      rfl (by decide) rfl).1,
    (C20_enumDevices_too_old_library sampleConsts freshBridgeInterface (some 7) false tooOldEnum
      rfl (by decide) rfl).2.1⟩

/-- `CloseStlink` does not touch the stored version. -/
theorem CloseStlink_version (K : DriverConsts) (dev : StlinkDevice) (c : DriverStatus) :
    (dev.CloseStlink K c).dev.m_Version = dev.m_Version := by
  unfold StlinkDevice.CloseStlink
  split_ifs
  · split
    · rfl
    · split_ifs <;> rfl
  · rfl

/-- `OpenStlink` on a connected device returns the device as it is and calls
nothing. -/
theorem OpenStlink_connected (K : DriverConsts) (F : FwConsts) (dev : StlinkDevice)
    (StlinkInstId : Int) (StlinkIdTcp : Nat) (d : DriverReplies)
    (hc : dev.m_bStlinkConnected = true) :
    (dev.OpenStlink K F StlinkInstId StlinkIdTcp d).dev = dev ∧
    (dev.OpenStlink K F StlinkInstId StlinkIdTcp d).calls = [] := by
  unfold StlinkDevice.OpenStlink
  split
  · exact ⟨rfl, rfl⟩
  · rw [if_neg (by rw [hc]; decide : ¬ dev.m_bStlinkConnected = false)]
    split_ifs <;> exact ⟨rfl, rfl⟩

/-- One operation that does not open a new connection leaves the stored version
unchanged. -/
theorem SessionOp_run_version (K : DriverConsts) (F : FwConsts) (dev : StlinkDevice)
    (op : SessionOp) (h : noNewConnection K F [op] dev = true) :
    (op.run K F dev).m_Version = dev.m_Version := by
  cases op with
  | SendRequest _ _ _ => rfl
  | GetTargetVoltage _ _ _ => rfl
  | SetOpenModeExclusive _ => rfl
  | CloseStlink c => exact CloseStlink_version K dev c
  | OpenStlink i t d =>
    have hc : dev.m_bStlinkConnected = true := by
      simpa [noNewConnection] using h
    simp only [SessionOp.run, (OpenStlink_connected K F dev i t d hc).1]

/-- C12: the stored firmware version is read-only for the session.  Over any
sequence of `SendRequest`, `GetTargetVoltage`, `SetOpenModeExclusive`, `CloseStlink`
and `OpenStlink` calls in which every `OpenStlink` finds the device already
connected (no new connection is opened), `m_Version` at the end is `m_Version` at
the start, so `GetMajorVer` and `GetBridgeVer` return the same values throughout. -/
theorem C12_version_read_only_in_session (K : DriverConsts) (F : FwConsts)
    (ops : List SessionOp) (dev : StlinkDevice) (h : noNewConnection K F ops dev = true) :
    (runSession K F ops dev).m_Version = dev.m_Version ∧
    (runSession K F ops dev).GetMajorVer = dev.GetMajorVer ∧
    (runSession K F ops dev).GetBridgeVer = dev.GetBridgeVer := by
  have key : (runSession K F ops dev).m_Version = dev.m_Version := by
    induction ops generalizing dev with
    | nil => rfl
    | cons op rest ih =>
      have h1 : noNewConnection K F [op] dev = true := by
        simp only [noNewConnection, Bool.and_eq_true] at h ⊢
        exact ⟨h.1, trivial⟩
      have h2 : noNewConnection K F rest (op.run K F dev) = true := by
        simp only [noNewConnection, Bool.and_eq_true] at h
        exact h.2
      simp only [runSession]
      rw [ih (op.run K F dev) h2, SessionOp_run_version K F dev op h1]
  exact ⟨key, by simp only [StlinkDevice.GetMajorVer, key],
    by simp only [StlinkDevice.GetBridgeVer, key]⟩

/-- Witness for C12: on the connected bridge device (version 3, bridge 5) the sample
session, which ends with the device closed, keeps the version. -/
theorem C12_version_read_only_witness :
    noNewConnection sampleConsts sampleFw sampleSession bridgeDevice = true ∧
    (runSession sampleConsts sampleFw sampleSession bridgeDevice).m_bStlinkConnected = false ∧
    (runSession sampleConsts sampleFw sampleSession bridgeDevice).GetMajorVer = 3 ∧
    (runSession sampleConsts sampleFw sampleSession bridgeDevice).GetBridgeVer = 5 :=
  ⟨by decide, by decide,
    (C12_version_read_only_in_session sampleConsts sampleFw sampleSession bridgeDevice
      (by decide)).2.1,
    (C12_version_read_only_in_session sampleConsts sampleFw sampleSession bridgeDevice
      (by decide)).2.2⟩

/-- On an interface already enumerated, `EnumDevicesIfRequired` without forcing does
nothing. -/
theorem EnumDevicesIfRequired_enumerated (K : DriverConsts) (ifc : STLinkInterface)
    (p : Option Nat) (b : Bool) (d : EnumReplies) (hE : ifc.m_bDevInterfaceEnumerated = true) :
    ifc.EnumDevicesIfRequired K p false b d = ⟨STLINKIF_NO_ERR, ifc, p.map fun _ => 0⟩ := by
  simp [STLinkInterface.EnumDevicesIfRequired, hE]

/-- After `EnumDevicesIfRequired` has returned `STLINKIF_NO_ERR` the interface is
marked as enumerated. -/
theorem EnumDevicesIfRequired_ok_flag (K : DriverConsts) (ifc : STLinkInterface)
    (p : Option Nat) (f b : Bool) (d : EnumReplies)
    (h : (ifc.EnumDevicesIfRequired K p f b d).status = STLINKIF_NO_ERR) :
    (ifc.EnumDevicesIfRequired K p f b d).ifc.m_bDevInterfaceEnumerated = true := by
  unfold STLinkInterface.EnumDevicesIfRequired at h ⊢
  by_cases h1 : ifc.m_bDevInterfaceEnumerated = false ∨ f = true
  · simp only [if_pos h1] at h ⊢
    by_cases h2 : (ifc.EnumDevices K (p.map fun _ => 0) b d).ifc.m_nbEnumDevices = 0
    · simp only [if_pos h2] at h
      exact absurd h (by decide)
    · by_cases h3 : (ifc.EnumDevices K (p.map fun _ => 0) b d).status = STLINKIF_NO_ERR
      · simp only [if_neg h2, if_pos h3]
      · simp only [if_neg h2, if_neg h3] at h
        exact absurd h h3
  · simp only [if_neg h1]
    have := not_or.mp h1
    simpa using this.1

/-- `GetDeviceInfo2` on an interface already enumerated, for a non-negative index
and a non-null `pInfo`. -/
theorem GetDeviceInfo2_enumerated (K : DriverConsts) (ifc : STLinkInterface) (i : Nat)
    (x : STLink_DeviceInfo2T) (d : EnumReplies) (reply : DriverStatus × STLink_DeviceInfo2T)
    (hE : ifc.m_bDevInterfaceEnumerated = true) :
    ifc.GetDeviceInfo2 K (i : Int) (some x) d reply =
      if ifc.m_bApiDllLoaded = true then
        if ifc.m_nbEnumDevices ≤ i then ⟨STLINKIF_PARAM_ERR, ifc, some x, false⟩
        else if reply.1 ≠ SS_OK ∧ reply.1 ≠ SS_TRUNCATED_DATA then
          ⟨STLINKIF_GET_INFO_ERR, ifc, some reply.2, true⟩
        else ⟨STLINKIF_NO_ERR, ifc, some reply.2, true⟩
      else ⟨STLINKIF_DLL_ERR, ifc, some x, false⟩ := by
  have hneg : ¬ ((i : Int) < 0) := by omega
  simp only [STLinkInterface.GetDeviceInfo2, STLinkInterface.IsLibraryLoaded,
    EnumDevicesIfRequired_enumerated K ifc none false d hE, ne_eq, not_true_eq_false, if_false,
    hneg, false_or, Int.toNat_ofNat]

/-- One pass of the search loop on an enumerated interface: the interface is left
as it is, and the pass stops the loop exactly when the device is a match. -/
theorem GetDeviceInfo2_loop_facts (K : DriverConsts) (ifc : STLinkInterface) (serial : String)
    (i : Nat) (x : STLink_DeviceInfo2T) (d : EnumReplies)
    (infoAt : Nat → DriverStatus × STLink_DeviceInfo2T)
    (hE : ifc.m_bDevInterfaceEnumerated = true) :
    (ifc.GetDeviceInfo2 K (i : Int) (some x) d (infoAt i)).ifc = ifc ∧
    (serialMatchAt K ifc serial d infoAt i ↔
      (ifc.GetDeviceInfo2 K (i : Int) (some x) d (infoAt i)).status = STLINKIF_NO_ERR ∧
      serial = ((ifc.GetDeviceInfo2 K (i : Int) (some x) d (infoAt i)).info.getD x).EnumUniqueId) := by
  unfold serialMatchAt
  rw [GetDeviceInfo2_enumerated K ifc i x d (infoAt i) hE,
    GetDeviceInfo2_enumerated K ifc i (infoAt i).2 d (infoAt i) hE]
  split_ifs <;> simp [eq_comm]

/-- The search loop on an enumerated interface, started at index `i` with enough
passes left to reach the end of the list: it leaves the interface as it is, and it
ends either without a match, no index from `i` on being one, or at the first match
from `i` on. -/
theorem serialLoop_spec (K : DriverConsts) (ifc : STLinkInterface) (serial : String)
    (d : EnumReplies) (infoAt : Nat → DriverStatus × STLink_DeviceInfo2T)
    (hE : ifc.m_bDevInterfaceEnumerated = true) :
    ∀ (left i : Nat) (x : STLink_DeviceInfo2T) (t : Nat), ifc.m_nbEnumDevices ≤ i + left →
      (serialLoop K serial d infoAt left i ifc x t).ifc = ifc ∧
      (((serialLoop K serial d infoAt left i ifc x t).found = none ∧
          ∀ j, i ≤ j → j < ifc.m_nbEnumDevices → ¬ serialMatchAt K ifc serial d infoAt j) ∨
        ∃ k, (serialLoop K serial d infoAt left i ifc x t).found = some k ∧ i ≤ k ∧
          k < ifc.m_nbEnumDevices ∧ serialMatchAt K ifc serial d infoAt k ∧
          ∀ j, i ≤ j → j < k → ¬ serialMatchAt K ifc serial d infoAt j) := by
  intro left
  induction left with
  | zero =>
    intro i x t hfuel
    refine ⟨rfl, Or.inl ⟨rfl, fun j h1 h2 => ?_⟩⟩
    omega
  | succ n ih =>
    intro i x t hfuel
    by_cases hi : i < ifc.m_nbEnumDevices
    · obtain ⟨f1, f2⟩ := GetDeviceInfo2_loop_facts K ifc serial i x d infoAt hE
      simp only [serialLoop, if_pos hi, f1]
      generalize ifc.GetDeviceInfo2 K (i : Int) (some x) d (infoAt i) = r at f2
      have hcont : ¬ serialMatchAt K ifc serial d infoAt i →
          ∀ (x1 : STLink_DeviceInfo2T) (t1 : Nat),
          (serialLoop K serial d infoAt n (i + 1) ifc x1 t1).ifc = ifc ∧
          (((serialLoop K serial d infoAt n (i + 1) ifc x1 t1).found = none ∧
              ∀ j, i ≤ j → j < ifc.m_nbEnumDevices → ¬ serialMatchAt K ifc serial d infoAt j) ∨
            ∃ k, (serialLoop K serial d infoAt n (i + 1) ifc x1 t1).found = some k ∧ i ≤ k ∧
              k < ifc.m_nbEnumDevices ∧ serialMatchAt K ifc serial d infoAt k ∧
              ∀ j, i ≤ j → j < k → ¬ serialMatchAt K ifc serial d infoAt j) := by
        intro hno x1 t1
        obtain ⟨g1, g2⟩ := ih (i + 1) x1 t1 (by omega)
        refine ⟨g1, ?_⟩
        rcases g2 with ⟨g3, g4⟩ | ⟨k, g3, g4, g5, g6, g7⟩
        · refine Or.inl ⟨g3, fun j h1 h2 => ?_⟩
          rcases Nat.eq_or_lt_of_le h1 with h | h
          · rw [← h]
            exact hno
          · exact g4 j h h2
        · refine Or.inr ⟨k, g3, by omega, g5, g6, fun j h1 h2 => ?_⟩
          rcases Nat.eq_or_lt_of_le h1 with h | h
          · rw [← h]
            exact hno
          · exact g7 j h h2
      by_cases hs : r.status = STLINKIF_NO_ERR
      · by_cases hm : serial = (r.info.getD x).EnumUniqueId
        · simp only [ne_eq, hs, not_true_eq_false, if_false, if_pos hm]
          refine ⟨trivial, Or.inr ⟨i, rfl, le_refl i, hi, f2.mpr ⟨hs, hm⟩, fun j h1 h2 => ?_⟩⟩
          omega
        · simp only [ne_eq, hs, not_true_eq_false, if_false, if_neg hm]
          exact hcont (fun h => hm (f2.mp h).2) _ _
      · simp only [ne_eq, hs, not_false_eq_true, if_true]
        exact hcont (fun h => hs (f2.mp h).1) _ _
    · simp only [serialLoop, if_neg hi]
      refine ⟨trivial, Or.inl ⟨trivial, fun j h1 h2 => ?_⟩⟩
      omega

/-- C17: when the enumeration succeeds and some enumerated device is a match (its
information can be retrieved and its serial number is `pSerialNumber`),
`GetDeviceIdFromSerialNum` returns `STLINKIF_NO_ERR` and sets `*pStlinkInstId` to
the smallest index of a match, whatever `bStrict` is.  A device whose information
retrieval fails is not a match, so it is passed over even if the record the driver
left behind carries the serial number. -/
theorem C17_serial_number_smallest_match (K : DriverConsts) (ifc : STLinkInterface)
    (serial : String) (bStrict : Bool) (id0 : Int) (tcp0 : Nat) (bForceRenum : Bool)
    (d : EnumReplies) (infoAt : Nat → DriverStatus × STLink_DeviceInfo2T)
    (stackInfo2 : STLink_DeviceInfo2T)
    (he : (ifc.EnumDevicesIfRequired K none bForceRenum false d).status = STLINKIF_NO_ERR)
    (hex : ∃ i, i < (ifc.EnumDevicesIfRequired K none bForceRenum false d).ifc.m_nbEnumDevices ∧
      serialMatchAt K (ifc.EnumDevicesIfRequired K none bForceRenum false d).ifc serial d
        infoAt i) :
    (ifc.GetDeviceIdFromSerialNum K (some serial) bStrict (some id0) (some tcp0) bForceRenum d
      infoAt stackInfo2).status = STLINKIF_NO_ERR ∧
    ∃ k : Nat,
      (ifc.GetDeviceIdFromSerialNum K (some serial) bStrict (some id0) (some tcp0) bForceRenum d
        infoAt stackInfo2).StlinkInstId = some (k : Int) ∧
      k < (ifc.EnumDevicesIfRequired K none bForceRenum false d).ifc.m_nbEnumDevices ∧
      serialMatchAt K (ifc.EnumDevicesIfRequired K none bForceRenum false d).ifc serial d
        infoAt k ∧
      ∀ j, j < k →
        ¬ serialMatchAt K (ifc.EnumDevicesIfRequired K none bForceRenum false d).ifc serial d
          infoAt j := by
  have hE := EnumDevicesIfRequired_ok_flag K ifc none bForceRenum false d he
  simp only [STLinkInterface.GetDeviceIdFromSerialNum, ne_eq, he, not_true_eq_false, if_false]
  generalize ifc.EnumDevicesIfRequired K none bForceRenum false d = e at he hex hE
  obtain ⟨_, g⟩ := serialLoop_spec K e.ifc serial d infoAt hE e.ifc.m_nbEnumDevices 0
    stackInfo2 0 (by omega)
  rcases g with ⟨_, g4⟩ | ⟨k, g3, _, g5, g6, g7⟩
  · obtain ⟨i, hi, hm⟩ := hex
    exact absurd hm (g4 i (Nat.zero_le i) hi)
  · rw [g3]
    exact ⟨rfl, k, rfl, g5, g6, fun j hj => g7 j (Nat.zero_le j) hj⟩

/-- Witness for C17: two devices are enumerated; index 0 carries the serial number
"SN-B" but its retrieval fails, index 1 carries it and can be retrieved.  The
strict search for "SN-B" returns `STLINKIF_NO_ERR` and selects index 1. -/
theorem C17_serial_number_witness :
    ((bridgeInterface.GetDeviceIdFromSerialNum sampleConsts (some "SN-B") true (some (-1))
        (some 0) false okEnum sampleInfoAt infoA).status = STLINKIF_NO_ERR ∧
      ∃ k : Nat,
        (bridgeInterface.GetDeviceIdFromSerialNum sampleConsts (some "SN-B") true (some (-1))
          (some 0) false okEnum sampleInfoAt infoA).StlinkInstId = some (k : Int) ∧
        k < (bridgeInterface.EnumDevicesIfRequired sampleConsts none false false
          okEnum).ifc.m_nbEnumDevices ∧
        serialMatchAt sampleConsts (bridgeInterface.EnumDevicesIfRequired sampleConsts none false
          false okEnum).ifc "SN-B" okEnum sampleInfoAt k ∧
        ∀ j, j < k →
          ¬ serialMatchAt sampleConsts (bridgeInterface.EnumDevicesIfRequired sampleConsts none
            false false okEnum).ifc "SN-B" okEnum sampleInfoAt j) ∧
    (bridgeInterface.GetDeviceIdFromSerialNum sampleConsts (some "SN-B") true (some (-1))
      (some 0) false okEnum sampleInfoAt infoA).StlinkInstId = some 1 :=
  ⟨C17_serial_number_smallest_match sampleConsts bridgeInterface "SN-B" true (-1) 0 false okEnum
      sampleInfoAt infoA (by decide) ⟨1, by decide, by decide⟩,
    by decide⟩

/-- Whatever the arguments, `GetDeviceIdFromSerialNum` returns `STLINKIF_PARAM_ERR`
when a pointer argument is NULL, and it leaves `*pStlinkInstId` and `*pStlinkIdTcp`
as they were when it returns `STLINKIF_PARAM_ERR` for that reason or
`STLINKIF_STLINK_SN_NOT_FOUND`. -/
theorem GetDeviceIdFromSerialNum_outputs_kept (K : DriverConsts) (ifc : STLinkInterface)
    (p1 : Option String) (bStrict : Bool) (p2 : Option Int) (p3 : Option Nat)
    (bForceRenum : Bool) (d : EnumReplies) (infoAt : Nat → DriverStatus × STLink_DeviceInfo2T)
    (stackInfo2 : STLink_DeviceInfo2T) :
    ((p1 = none ∨ p2 = none ∨ p3 = none) →
      (ifc.GetDeviceIdFromSerialNum K p1 bStrict p2 p3 bForceRenum d infoAt stackInfo2).status
        = STLINKIF_PARAM_ERR) ∧
    (((p1 = none ∨ p2 = none ∨ p3 = none) ∨
        (ifc.GetDeviceIdFromSerialNum K p1 bStrict p2 p3 bForceRenum d infoAt stackInfo2).status
          = STLINKIF_STLINK_SN_NOT_FOUND) →
      (ifc.GetDeviceIdFromSerialNum K p1 bStrict p2 p3 bForceRenum d infoAt
          stackInfo2).StlinkInstId = p2 ∧
      (ifc.GetDeviceIdFromSerialNum K p1 bStrict p2 p3 bForceRenum d infoAt
          stackInfo2).StlinkIdTcp = p3) := by
  cases p1 with
  | none => simp [STLinkInterface.GetDeviceIdFromSerialNum]
  | some serial =>
    cases p2 with
    | none => simp [STLinkInterface.GetDeviceIdFromSerialNum]
    | some id0 =>
      cases p3 with
      | none => simp [STLinkInterface.GetDeviceIdFromSerialNum]
      | some tcp0 =>
        simp only [STLinkInterface.GetDeviceIdFromSerialNum]
        split_ifs <;> (try split) <;> simp

/-- C18: when the enumeration succeeds and no enumerated device is a match for
`pSerialNumber`, `GetDeviceIdFromSerialNum` returns `STLINKIF_STLINK_SN_NOT_FOUND`
if `bStrict` is true; if `bStrict` is false it returns `STLINKIF_NO_ERR` with
`*pStlinkInstId = 0` if and only if exactly one device is enumerated, and
`STLINKIF_STLINK_SN_NOT_FOUND` otherwise.  Whenever the function returns
`STLINKIF_STLINK_SN_NOT_FOUND`, or `STLINKIF_PARAM_ERR` because a pointer argument
is NULL, `*pStlinkInstId` and `*pStlinkIdTcp` are as they were before the call. -/
theorem C18_serial_number_not_found (K : DriverConsts) (ifc : STLinkInterface)
    (serial : String) (bStrict : Bool) (id0 : Int) (tcp0 : Nat) (bForceRenum : Bool)
    (d : EnumReplies) (infoAt : Nat → DriverStatus × STLink_DeviceInfo2T)
    (stackInfo2 : STLink_DeviceInfo2T)
    (he : (ifc.EnumDevicesIfRequired K none bForceRenum false d).status = STLINKIF_NO_ERR)
    (hno : ∀ j, j < (ifc.EnumDevicesIfRequired K none bForceRenum false d).ifc.m_nbEnumDevices →
      ¬ serialMatchAt K (ifc.EnumDevicesIfRequired K none bForceRenum false d).ifc serial d
        infoAt j) :
    (bStrict = true →
      (ifc.GetDeviceIdFromSerialNum K (some serial) bStrict (some id0) (some tcp0) bForceRenum d
        infoAt stackInfo2).status = STLINKIF_STLINK_SN_NOT_FOUND) ∧
    (bStrict = false →
      (((ifc.GetDeviceIdFromSerialNum K (some serial) bStrict (some id0) (some tcp0) bForceRenum
            d infoAt stackInfo2).status = STLINKIF_NO_ERR ∧
          (ifc.GetDeviceIdFromSerialNum K (some serial) bStrict (some id0) (some tcp0) bForceRenum
            d infoAt stackInfo2).StlinkInstId = some 0) ↔
        (ifc.EnumDevicesIfRequired K none bForceRenum false d).ifc.m_nbEnumDevices = 1) ∧
      ((ifc.EnumDevicesIfRequired K none bForceRenum false d).ifc.m_nbEnumDevices ≠ 1 →
        (ifc.GetDeviceIdFromSerialNum K (some serial) bStrict (some id0) (some tcp0) bForceRenum
          d infoAt stackInfo2).status = STLINKIF_STLINK_SN_NOT_FOUND)) ∧
    (∀ (p1 : Option String) (b : Bool) (p2 : Option Int) (p3 : Option Nat),
      ((p1 = none ∨ p2 = none ∨ p3 = none) →
        (ifc.GetDeviceIdFromSerialNum K p1 b p2 p3 bForceRenum d infoAt stackInfo2).status
          = STLINKIF_PARAM_ERR) ∧
      (((p1 = none ∨ p2 = none ∨ p3 = none) ∨
          (ifc.GetDeviceIdFromSerialNum K p1 b p2 p3 bForceRenum d infoAt stackInfo2).status
            = STLINKIF_STLINK_SN_NOT_FOUND) →
        (ifc.GetDeviceIdFromSerialNum K p1 b p2 p3 bForceRenum d infoAt
            stackInfo2).StlinkInstId = p2 ∧
        (ifc.GetDeviceIdFromSerialNum K p1 b p2 p3 bForceRenum d infoAt
            stackInfo2).StlinkIdTcp = p3)) := by
  refine ⟨?_, ?_, fun p1 b p2 p3 =>
    GetDeviceIdFromSerialNum_outputs_kept K ifc p1 b p2 p3 bForceRenum d infoAt stackInfo2⟩
  all_goals
    have hE := EnumDevicesIfRequired_ok_flag K ifc none bForceRenum false d he
    simp only [STLinkInterface.GetDeviceIdFromSerialNum, ne_eq, he, not_true_eq_false, if_false]
    generalize ifc.EnumDevicesIfRequired K none bForceRenum false d = e at he hno hE
    obtain ⟨g1, g⟩ := serialLoop_spec K e.ifc serial d infoAt hE e.ifc.m_nbEnumDevices 0
      stackInfo2 0 (by omega)
    have g3 : (serialLoop K serial d infoAt e.ifc.m_nbEnumDevices 0 e.ifc stackInfo2 0).found
        = none := by
      rcases g with ⟨g3, _⟩ | ⟨k, _, _, g5, g6, _⟩
      · exact g3
      · exact absurd g6 (hno k g5)
    rw [g3]
    simp only [g1]
    intro hb
    subst hb
  · simp
  · by_cases h1 : e.ifc.m_nbEnumDevices = 1
    · simp [h1]
    · simp [h1]

/-- Witness for C18: two devices are enumerated and none is a match for "SN-C"; the
strict search returns `STLINKIF_STLINK_SN_NOT_FOUND` and leaves the output ids at -1
and 9.  With a single device enumerated the search that is not strict returns
`STLINKIF_NO_ERR` and selects index 0. -/
theorem C18_serial_number_witness :
    (bridgeInterface.GetDeviceIdFromSerialNum sampleConsts (some "SN-C") true (some (-1))
      (some 9) false okEnum sampleInfoAt infoA).status = STLINKIF_STLINK_SN_NOT_FOUND ∧
    ((bridgeInterface.GetDeviceIdFromSerialNum sampleConsts (some "SN-C") true (some (-1))
        (some 9) false okEnum sampleInfoAt infoA).StlinkInstId = some (-1) ∧
      (bridgeInterface.GetDeviceIdFromSerialNum sampleConsts (some "SN-C") true (some (-1))
        (some 9) false okEnum sampleInfoAt infoA).StlinkIdTcp = some 9) ∧
    ((singleDeviceInterface.GetDeviceIdFromSerialNum sampleConsts (some "SN-C") false (some (-1))
        (some 9) false okEnum sampleInfoAt infoA).status = STLINKIF_NO_ERR ∧
      (singleDeviceInterface.GetDeviceIdFromSerialNum sampleConsts (some "SN-C") false
        (some (-1)) (some 9) false okEnum sampleInfoAt infoA).StlinkInstId = some 0) :=
  ⟨(C18_serial_number_not_found sampleConsts bridgeInterface "SN-C" true (-1) 9 false okEnum
      sampleInfoAt infoA (by decide) (by decide)).1 rfl,
    ((C18_serial_number_not_found sampleConsts bridgeInterface "SN-C" true (-1) 9 false okEnum
      sampleInfoAt infoA (by decide) (by decide)).2.2 (some "SN-C") true (some (-1))
        (some 9)).2 (Or.inr (by decide)),
    ((C18_serial_number_not_found sampleConsts singleDeviceInterface "SN-C" false (-1) 9 false
      okEnum sampleInfoAt infoA (by decide) (by decide)).2.1 rfl).1.mpr (by decide)⟩

/-- When the tail of `EnumDevices` returns `STLINKIF_NO_ERR` for a non-null
`pNumDevices`, `*pNumDevices` is the device count the interface holds. -/
theorem enumDevicesTail_ok_count (ifc : STLinkInterface) (status : DriverStatus) (n : Nat)
    (h : (enumDevicesTail ifc status (some n)).status = STLINKIF_NO_ERR) :
    (enumDevicesTail ifc status (some n)).numDevices
      = some (enumDevicesTail ifc status (some n)).ifc.m_nbEnumDevices := by
  obtain ⟨a, b, _⟩ := (enumDevicesTail_cases ifc status n).2.1 h
  rw [a, b]

/-- When `EnumDevices` called with a non-null `pNumDevices` returns
`STLINKIF_NO_ERR`, `*pNumDevices` is the device count the interface holds. -/
theorem EnumDevices_ok_count (K : DriverConsts) (ifc : STLinkInterface) (n : Nat)
    (bClearList : Bool) (d : EnumReplies)
    (h : (ifc.EnumDevices K (some n) bClearList d).status = STLINKIF_NO_ERR) :
    (ifc.EnumDevices K (some n) bClearList d).numDevices
      = some (ifc.EnumDevices K (some n) bClearList d).ifc.m_nbEnumDevices := by
  simp only [STLinkInterface.EnumDevices, Option.map_some'] at h ⊢
  split_ifs at h ⊢ <;>
    first
    | exact absurd h (by decide)
    | exact enumDevicesTail_ok_count _ _ _ h

/-- C21, the code on both paths of `STLinkInterface::EnumDevicesIfRequired` with a
non-null `pNumDevices`.  When the call enumerates (the interface was not enumerated
yet or `bForceRenum` is true) and returns `STLINKIF_NO_ERR`, `*pNumDevices` is the
device count of the interface, which is not 0.  When the call does not enumerate
(interface already enumerated, `bForceRenum` false) it returns `STLINKIF_NO_ERR`,
leaves the interface as it is and leaves `*pNumDevices` at the 0 written on entry,
whatever the device count is. -/
theorem C21_enumDevicesIfRequired_count (K : DriverConsts) (ifc : STLinkInterface) (n : Nat)
    (bForceRenum bClearList : Bool) (d : EnumReplies) :
    ((ifc.m_bDevInterfaceEnumerated = false ∨ bForceRenum = true) →
      (ifc.EnumDevicesIfRequired K (some n) bForceRenum bClearList d).status = STLINKIF_NO_ERR →
      (ifc.EnumDevicesIfRequired K (some n) bForceRenum bClearList d).numDevices
        = some (ifc.EnumDevicesIfRequired K (some n) bForceRenum bClearList d).ifc.m_nbEnumDevices ∧
      (ifc.EnumDevicesIfRequired K (some n) bForceRenum bClearList d).ifc.m_nbEnumDevices ≠ 0) ∧
    ((ifc.m_bDevInterfaceEnumerated = true ∧ bForceRenum = false) →
      ifc.EnumDevicesIfRequired K (some n) bForceRenum bClearList d
        = ⟨STLINKIF_NO_ERR, ifc, some 0⟩) := by
  constructor
  · intro h1 hs
    unfold STLinkInterface.EnumDevicesIfRequired at hs ⊢
    simp only [if_pos h1, Option.map_some'] at hs ⊢
    by_cases h2 : (ifc.EnumDevices K (some 0) bClearList d).ifc.m_nbEnumDevices = 0
    · simp only [if_pos h2] at hs
      exact absurd hs (by decide)
    · by_cases h3 : (ifc.EnumDevices K (some 0) bClearList d).status = STLINKIF_NO_ERR
      · simp only [if_neg h2, if_pos h3]
        exact ⟨EnumDevices_ok_count K ifc 0 bClearList d h3, h2⟩
      · simp only [if_neg h2, if_neg h3] at hs
        exact absurd hs h3
  · rintro ⟨h1, h2⟩
    simp [STLinkInterface.EnumDevicesIfRequired, h1, h2]

/-- C21 at a concrete input: on the enumerated bridge interface, which holds two
devices, `EnumDevicesIfRequired` without forcing returns `STLINKIF_NO_ERR` and
leaves `*pNumDevices` at 0, not 2. -/
theorem C21_enumDevicesIfRequired_stale_zero :
    (bridgeInterface.EnumDevicesIfRequired sampleConsts (some 7) false false okEnum).status
      = STLINKIF_NO_ERR ∧
    (bridgeInterface.EnumDevicesIfRequired sampleConsts (some 7) false false okEnum).numDevices
      = some 0 ∧
    (bridgeInterface.EnumDevicesIfRequired sampleConsts (some 7) false false
      okEnum).ifc.m_nbEnumDevices = 2 := by
  rw [(C21_enumDevicesIfRequired_count sampleConsts bridgeInterface 7 false false okEnum).2
    ⟨rfl, rfl⟩]
  exact ⟨rfl, rfl, rfl⟩

/-- C22: `STLinkInterface::GetDeviceInfo2` with the library loaded and the interface
already enumerated, `m_nbEnumDevices` being the device count.  It returns
`STLINKIF_PARAM_ERR` without calling the driver, leaving `*pInfo` and the interface
as they are, when `StlinkInstId` is negative or not below the device count or
`pInfo` is NULL.  Otherwise it calls the driver and returns `STLINKIF_NO_ERR` when
the driver reports `SS_OK` or `SS_TRUNCATED_DATA`, and `STLINKIF_GET_INFO_ERR` for
any other driver status.  With the library not loaded it returns
`STLINKIF_DLL_ERR`, again without calling the driver. -/
theorem C22_getDeviceInfo2_statuses (K : DriverConsts) (ifc : STLinkInterface)
    (StlinkInstId : Int) (pInfo : Option STLink_DeviceInfo2T) (d : EnumReplies)
    (reply : DriverStatus × STLink_DeviceInfo2T) :
    (ifc.m_bApiDllLoaded = true → ifc.m_bDevInterfaceEnumerated = true →
      ((StlinkInstId < 0 ∨ (ifc.m_nbEnumDevices : Int) ≤ StlinkInstId ∨ pInfo = none) →
        ifc.GetDeviceInfo2 K StlinkInstId pInfo d reply
          = ⟨STLINKIF_PARAM_ERR, ifc, pInfo, false⟩) ∧
      (¬ (StlinkInstId < 0 ∨ (ifc.m_nbEnumDevices : Int) ≤ StlinkInstId ∨ pInfo = none) →
        ((reply.1 = SS_OK ∨ reply.1 = SS_TRUNCATED_DATA) →
          ifc.GetDeviceInfo2 K StlinkInstId pInfo d reply
            = ⟨STLINKIF_NO_ERR, ifc, some reply.2, true⟩) ∧
        (¬ (reply.1 = SS_OK ∨ reply.1 = SS_TRUNCATED_DATA) →
          ifc.GetDeviceInfo2 K StlinkInstId pInfo d reply
            = ⟨STLINKIF_GET_INFO_ERR, ifc, some reply.2, true⟩))) ∧
    (ifc.m_bApiDllLoaded = false →
      ifc.GetDeviceInfo2 K StlinkInstId pInfo d reply = ⟨STLINKIF_DLL_ERR, ifc, pInfo, false⟩) := by
  constructor
  · intro hl hE
    have hrange : (StlinkInstId < 0 ∨ ifc.m_nbEnumDevices ≤ StlinkInstId.toNat) ↔
        (StlinkInstId < 0 ∨ (ifc.m_nbEnumDevices : Int) ≤ StlinkInstId) := by
      omega
    simp only [STLinkInterface.GetDeviceInfo2, STLinkInterface.IsLibraryLoaded, hl, if_true,
      EnumDevicesIfRequired_enumerated K ifc none false d hE, ne_eq, not_true_eq_false,
      if_false, hrange]
    constructor
    · intro h
      by_cases h1 : StlinkInstId < 0 ∨ (ifc.m_nbEnumDevices : Int) ≤ StlinkInstId
      · rw [if_pos h1]
      · rw [if_neg h1]
        have h2 : pInfo = none := by
          rcases h with h | h | h
          · exact absurd (Or.inl h) h1
          · exact absurd (Or.inr h) h1
          · exact h
        subst h2
        rfl
    · intro h
      have h1 : ¬ (StlinkInstId < 0 ∨ (ifc.m_nbEnumDevices : Int) ≤ StlinkInstId) :=
        fun h0 => h (h0.elim Or.inl (fun h2 => Or.inr (Or.inl h2)))
      rw [if_neg h1]
      cases pInfo with
      | none => exact absurd (Or.inr (Or.inr rfl)) h
      | some x =>
        constructor
        · intro hr
          have : ¬ (¬ reply.1 = SS_OK ∧ ¬ reply.1 = SS_TRUNCATED_DATA) := by
            rintro ⟨a, b⟩
            exact hr.elim a b
          simp only [if_neg this]
        · intro hr
          have : ¬ reply.1 = SS_OK ∧ ¬ reply.1 = SS_TRUNCATED_DATA :=
            ⟨fun a => hr (Or.inl a), fun b => hr (Or.inr b)⟩
          simp only [if_pos this]
  · intro hl
    simp [STLinkInterface.GetDeviceInfo2, STLinkInterface.IsLibraryLoaded, hl]

/-- Witness for C22: on the enumerated bridge interface with two devices, index 2
is refused with `STLINKIF_PARAM_ERR` without a driver call, index 1 is answered with
`STLINKIF_NO_ERR` when the driver reports `SS_TRUNCATED_DATA`, and index 0 with
`STLINKIF_GET_INFO_ERR` when the driver reports another status. -/
theorem C22_getDeviceInfo2_witness :
    bridgeInterface.GetDeviceInfo2 sampleConsts 2 (some infoA) okEnum (SS_OK, infoB)
      = ⟨STLINKIF_PARAM_ERR, bridgeInterface, some infoA, false⟩ ∧
    bridgeInterface.GetDeviceInfo2 sampleConsts 1 (some infoA) okEnum (SS_TRUNCATED_DATA, infoB)
      = ⟨STLINKIF_NO_ERR, bridgeInterface, some infoB, true⟩ ∧
    bridgeInterface.GetDeviceInfo2 sampleConsts 0 (some infoA) okEnum (SS_OTHER 1, infoB)
      = ⟨STLINKIF_GET_INFO_ERR, bridgeInterface, some infoB, true⟩ :=
  ⟨((C22_getDeviceInfo2_statuses sampleConsts bridgeInterface 2 (some infoA) okEnum
      (SS_OK, infoB)).1 rfl rfl).1 (by decide),
    (((C22_getDeviceInfo2_statuses sampleConsts bridgeInterface 1 (some infoA) okEnum
      (SS_TRUNCATED_DATA, infoB)).1 rfl rfl).2 (by decide)).1 (by decide),
    (((C22_getDeviceInfo2_statuses sampleConsts bridgeInterface 0 (some infoA) okEnum
      (SS_OTHER 1, infoB)).1 rfl rfl).2 (by decide)).2 (by decide)⟩

/-- The `CloseBridge` calls of two lists of calls put end to end. -/
theorem closeBridgeArgs_append (a b : List BrgCall) :
    closeBridgeArgs (a ++ b) = closeBridgeArgs a ++ closeBridgeArgs b := by
  induction a with
  | nil => rfl
  | cons c rest ih => cases c <;> simp [closeBridgeArgs, ih]

/-- The `WriteMsgCAN` calls of two lists of calls put end to end. -/
theorem writeMsgArgs_append (a b : List BrgCall) :
    writeMsgArgs (a ++ b) = writeMsgArgs a ++ writeMsgArgs b := by
  induction a with
  | nil => rfl
  | cons c rest ih => cases c <;> simp [writeMsgArgs, ih]

/-- The CAN initialisation only adds calls, none of them `CloseBridge` or
`WriteMsgCAN`. -/
theorem canInitWith_calls (conf : Brg_CanBitTimeConfT) (req : Nat) (env : BrgEnv)
    (tr : List BrgCall) :
    ∃ init, (canInitWith conf req env tr).2 = tr ++ init ∧ closeBridgeArgs init = [] ∧
      writeMsgArgs init = [] := by
  unfold canInitWith
  simp only
  split_ifs <;>
    first
    | exact ⟨_, List.append_assoc _ _ _, rfl, rfl⟩
    | exact ⟨_, rfl, rfl, rfl⟩

/-- C23: `cBrgExample::SendCanBootloaderStart`.  With no bound bridge it returns
`BRG_CONNECT_ERR` and makes no call.  With a bound bridge: if `CanInit` fails it
returns the status of `CanInit` and its only further call is `CloseBridge(COM_CAN)`;
if `CanInit` returns `BRG_NO_ERR` it calls `WriteMsgCAN` once, then
`CloseBridge(COM_CAN)`, and returns the status of `WriteMsgCAN`.  So among the calls
it adds, `CloseBridge` occurs exactly once, with `COM_CAN`, as the last call;
`WriteMsgCAN` occurs at most once and only after a successful `CanInit`. -/
theorem C23_bootloader_start_closes_bridge (env : BrgEnv) (tr : List BrgCall)
    (self : cBrgExample) (moduleId : Int) :
    (self.m_pBrg = false →
      self.SendCanBootloaderStart env tr moduleId = (BRG_CONNECT_ERR, tr)) ∧
    (self.m_pBrg = true →
      ((cBrgExample.CanInit env tr).1 ≠ BRG_NO_ERR →
        self.SendCanBootloaderStart env tr moduleId =
          ((cBrgExample.CanInit env tr).1,
            (cBrgExample.CanInit env tr).2 ++ [BrgCall.CloseBridge COM_CAN])) ∧
      ((cBrgExample.CanInit env tr).1 = BRG_NO_ERR →
        self.SendCanBootloaderStart env tr moduleId =
          ((env ((cBrgExample.CanInit env tr).2 ++
              [BrgCall.WriteMsgCAN bootloaderStartMsg (bootloaderStartData moduleId) 8])).status,
            (cBrgExample.CanInit env tr).2 ++
              [BrgCall.WriteMsgCAN bootloaderStartMsg (bootloaderStartData moduleId) 8,
                BrgCall.CloseBridge COM_CAN])) ∧
      ∃ new, (self.SendCanBootloaderStart env tr moduleId).2 = tr ++ new ∧
        new.getLast? = some (BrgCall.CloseBridge COM_CAN) ∧
        closeBridgeArgs new = [COM_CAN] ∧
        (writeMsgArgs new).length ≤ 1 ∧
        (writeMsgArgs new ≠ [] → (cBrgExample.CanInit env tr).1 = BRG_NO_ERR)) := by
  constructor
  · intro h
    simp [cBrgExample.SendCanBootloaderStart, h]
  · intro h
    obtain ⟨init, hi, hc, hw⟩ := canInitWith_calls canInitBitTime 1000000 env tr
    have hi1 : (cBrgExample.CanInit env tr).2 = tr ++ init := hi
    have e1 : (cBrgExample.CanInit env tr).1 ≠ BRG_NO_ERR →
        self.SendCanBootloaderStart env tr moduleId =
          ((cBrgExample.CanInit env tr).1,
            (cBrgExample.CanInit env tr).2 ++ [BrgCall.CloseBridge COM_CAN]) := by
      intro hs
      simp only [cBrgExample.SendCanBootloaderStart, h, Bool.true_eq_false, if_false, if_neg hs]
    have e2 : (cBrgExample.CanInit env tr).1 = BRG_NO_ERR →
        self.SendCanBootloaderStart env tr moduleId =
          ((env ((cBrgExample.CanInit env tr).2 ++
              [BrgCall.WriteMsgCAN bootloaderStartMsg (bootloaderStartData moduleId) 8])).status,
            (cBrgExample.CanInit env tr).2 ++
              [BrgCall.WriteMsgCAN bootloaderStartMsg (bootloaderStartData moduleId) 8,
                BrgCall.CloseBridge COM_CAN]) := by
      intro hs
      simp only [cBrgExample.SendCanBootloaderStart, h, Bool.true_eq_false, if_false, if_pos hs,
        List.append_assoc, List.singleton_append]
    refine ⟨e1, e2, ?_⟩
    by_cases hs : (cBrgExample.CanInit env tr).1 = BRG_NO_ERR
    · refine ⟨init ++ [BrgCall.WriteMsgCAN bootloaderStartMsg (bootloaderStartData moduleId) 8,
        BrgCall.CloseBridge COM_CAN], ?_, ?_, ?_, ?_, fun _ => hs⟩
      · rw [e2 hs, hi1]
        simp
      · simp
      · rw [closeBridgeArgs_append, hc]
        rfl
      · rw [writeMsgArgs_append, hw]
        exact Nat.le_refl 1
    · refine ⟨init ++ [BrgCall.CloseBridge COM_CAN], ?_, ?_, ?_, ?_, ?_⟩
      · rw [e1 hs, hi1]
        simp
      · simp
      · rw [closeBridgeArgs_append, hc]
        rfl
      · rw [writeMsgArgs_append, hw]
        exact Nat.zero_le 1
      · intro hne
        rw [writeMsgArgs_append, hw] at hne
        exact absurd rfl hne

/-- Witness for C23: against a bridge whose `InitCAN` fails with `BRG_CAN_ERR` the
function returns that status after the calls of `CanInit` and `CloseBridge(COM_CAN)`;
against a bridge whose `WriteMsgCAN` fails it returns `BRG_CAN_ERR` from
`WriteMsgCAN`, followed by `CloseBridge(COM_CAN)`; unbound, it returns
`BRG_CONNECT_ERR` with no call. -/
theorem C23_bootloader_start_witness :
    (boundExample.SendCanBootloaderStart advisoryEnv [] 5 =
        ((cBrgExample.CanInit advisoryEnv []).1,
          (cBrgExample.CanInit advisoryEnv []).2 ++ [BrgCall.CloseBridge COM_CAN]) ∧
      (cBrgExample.CanInit advisoryEnv []).1 = BRG_CAN_ERR) ∧
    (boundExample.SendCanBootloaderStart writeFailEnv [] 5 =
        ((writeFailEnv ((cBrgExample.CanInit writeFailEnv []).2 ++
            [BrgCall.WriteMsgCAN bootloaderStartMsg (bootloaderStartData 5) 8])).status,
          (cBrgExample.CanInit writeFailEnv []).2 ++
            [BrgCall.WriteMsgCAN bootloaderStartMsg (bootloaderStartData 5) 8,
              BrgCall.CloseBridge COM_CAN]) ∧
      (boundExample.SendCanBootloaderStart writeFailEnv [] 5).1 = BRG_CAN_ERR) ∧
    cBrgExample.SendCanBootloaderStart okEnv [] { m_pBrg := false } 5 = (BRG_CONNECT_ERR, []) :=
  ⟨⟨((C23_bootloader_start_closes_bridge advisoryEnv [] boundExample 5).2 rfl).1 (by decide),
      by decide⟩,
    ⟨((C23_bootloader_start_closes_bridge writeFailEnv [] boundExample 5).2 rfl).2.1
        (by decide),
      by decide⟩,
    (C23_bootloader_start_closes_bridge okEnv [] { m_pBrg := false } 5).1 rfl⟩

end Bridge
